import Mathlib

/-! Karmada resource detector: policy claim, binding synchronisation and cleanup.

A shallow embedding of `pkg/detector/detector.go`, followed by the quota scheduling
controller, the gRPC server constructors and the cluster-name check of
`karmadactl`.  Objects of the control-plane
store are records, Go maps of strings are association lists, every call that
leaves the process (typed client, dynamic client, informer cache, REST mapper,
resource interpreter) is a field of `Env` acting on an abstract store state, and
every write the detector issues is appended to a log of `Event`s.
-/

set_option autoImplicit false

namespace Karmada

/-! ## Errors -/

/-- Error values as the detector distinguishes them: the two API status reasons it
tests for (`apierrors.IsNotFound`, `apierrors.IsConflict`), any other error, and the
aggregate built by `errors.NewAggregate`. -/
inductive Err where
  | notFound (msg : String)
  | conflict (msg : String)
  | other (msg : String)
  | aggregate (errs : List Err)
  deriving Repr, Inhabited

/-- Go `apierrors.IsNotFound`. -/
def Err.IsNotFound : Err → Bool
  | .notFound _ => true
  | _ => false

/-- Go `apierrors.IsConflict`. -/
def Err.IsConflict : Err → Bool
  | .conflict _ => true
  | _ => false

/-- Go `errors.NewAggregate`: nil entries are dropped, and an empty remainder is nil. -/
def NewAggregate (errlist : List (Option Err)) : Option Err :=
  match errlist.filterMap id with
  | [] => none
  | errs => some (Err.aggregate errs)

/-! ## String maps (Go `map[string]string`) -/

/-- A Go `map[string]string`; `[]` also stands for the nil map. -/
abbrev StringMap := List (String × String)

/-- Go `m[k]`: the value stored under `k`, the empty string when absent. -/
def StringMap.get (m : StringMap) (k : String) : String :=
  match m.lookup k with
  | some v => v
  | none => ""

/-- Go `_, ok := m[k]`. -/
def StringMap.has (m : StringMap) (k : String) : Bool :=
  (m.lookup k).isSome

/-- Go `delete(m, k)`. -/
def StringMap.del (m : StringMap) (k : String) : StringMap :=
  m.filter (fun kv => kv.1 != k)

/-- Go `m[k] = v`: the entry is overwritten where it stands, or added. -/
def StringMap.set : StringMap → String → String → StringMap
  | [], k, v => [(k, v)]
  | (k0, v0) :: rest, k, v =>
    if k0 = k then (k, v) :: rest else (k0, v0) :: StringMap.set rest k v

/-! ## Well-known keys (declared in `pkg/apis/policy/v1alpha1` and `pkg/util`) -/

def PropagationPolicyPermanentIDLabel : String := "propagationpolicy.karmada.io/permanent-id"
def ClusterPropagationPolicyPermanentIDLabel : String := "clusterpropagationpolicy.karmada.io/permanent-id"
def PropagationPolicyNamespaceAnnotation : String := "propagationpolicy.karmada.io/namespace"
def PropagationPolicyNameAnnotation : String := "propagationpolicy.karmada.io/name"
def ClusterPropagationPolicyAnnotation : String := "clusterpropagationpolicy.karmada.io/name"
def ResourceTemplateClaimedByLabel : String := "resourcetemplate.karmada.io/claimed-by"
def BindingControllerFinalizer : String := "karmada.io/binding-controller"
def ClusterResourceBindingControllerFinalizer : String := "karmada.io/cluster-resource-binding-controller"
def PropagationPolicyControllerFinalizer : String := "karmada.io/propagation-policy-controller"
def ClusterPropagationPolicyControllerFinalizer : String := "karmada.io/cluster-propagation-policy-controller"

/-! ## Object model -/

/-- Go `metav1.OwnerReference`. -/
structure OwnerReference where
  apiVersion : String
  kind : String
  name : String
  uid : String
  controller : Option Bool
  blockOwnerDeletion : Option Bool
  deriving DecidableEq, Repr, Inhabited

/-- Go `metav1.ObjectMeta`, the fields the detector reads or writes. -/
structure ObjectMeta where
  name : String := ""
  «namespace» : String := ""
  uid : String := ""
  resourceVersion : String := ""
  labels : StringMap := []
  annotations : StringMap := []
  finalizers : List String := []
  ownerReferences : List OwnerReference := []
  deletionTimestamp : Option Nat := none
  deriving DecidableEq, Repr, Inhabited

/-- Go `unstructured.Unstructured`: a resource template.  `content` stands for the
part of the object outside the type and object metadata. -/
structure Unstructured where
  apiVersion : String := ""
  kind : String := ""
  meta : ObjectMeta := {}
  content : String := ""
  deriving DecidableEq, Repr, Inhabited

/-- Go `workv1alpha2.ObjectReference`. -/
structure ObjectReference where
  apiVersion : String := ""
  kind : String := ""
  «namespace» : String := ""
  name : String := ""
  uid : String := ""
  resourceVersion : String := ""
  deriving DecidableEq, Repr, Inhabited

/-- Go `workv1alpha2.TargetCluster`: one entry of the scheduling result. -/
structure TargetCluster where
  name : String
  replicas : Int
  deriving DecidableEq, Repr, Inhabited

/-- Go `policyv1alpha1.Suspension` (the policy-side suspension). -/
structure PolicySuspension where
  dispatching : Option Bool := none
  dispatchingOnClusters : List String := []
  deriving DecidableEq, Repr, Inhabited

/-- Go `workv1alpha2.Suspension`: the embedded policy suspension plus the
scheduling suspensions owned by other controllers. -/
structure Suspension where
  suspension : PolicySuspension := {}
  scheduling : Option Bool := none
  schedulingDueToQuota : Option Bool := none
  deriving DecidableEq, Repr, Inhabited

/-- Go `workv1alpha2.SchedulePriority`. -/
structure BindingSchedulePriority where
  priority : Int
  deriving DecidableEq, Repr, Inhabited

/-- Go `workv1alpha2.ReplicaRequirements`; the detector only carries it around. -/
structure ReplicaRequirements where
  raw : String
  deriving DecidableEq, Repr, Inhabited

/-- Go `policyv1alpha1.Placement`; the detector only carries it around. -/
structure Placement where
  raw : String := ""
  deriving DecidableEq, Repr, Inhabited

/-- Go `policyv1alpha1.FailoverBehavior`; the detector only carries it around. -/
structure FailoverBehavior where
  raw : String
  deriving DecidableEq, Repr, Inhabited

/-- Go `workv1alpha2.ResourceBindingSpec`. -/
structure ResourceBindingSpec where
  resource : ObjectReference := {}
  propagateDeps : Bool := false
  replicaRequirements : Option ReplicaRequirements := none
  replicas : Int := 0
  clusters : List TargetCluster := []
  placement : Option Placement := none
  gracefulEvictionTasks : List String := []
  requiredBy : List String := []
  schedulerName : String := ""
  failover : Option FailoverBehavior := none
  conflictResolution : String := ""
  rescheduleTriggeredAt : Option Nat := none
  suspension : Option Suspension := none
  preserveResourcesOnDeletion : Option Bool := none
  schedulePriority : Option BindingSchedulePriority := none
  deriving DecidableEq, Repr, Inhabited

/-- Go `workv1alpha2.ResourceBinding`. -/
structure ResourceBinding where
  meta : ObjectMeta := {}
  spec : ResourceBindingSpec := {}
  deriving DecidableEq, Repr, Inhabited

/-- Go `workv1alpha2.ClusterResourceBinding`. -/
structure ClusterResourceBinding where
  meta : ObjectMeta := {}
  spec : ResourceBindingSpec := {}
  deriving DecidableEq, Repr, Inhabited

/-- Go `policyv1alpha1.ResourceSelector`. -/
structure ResourceSelector where
  apiVersion : String := ""
  kind : String := ""
  «namespace» : String := ""
  name : String := ""
  labelSelector : Option StringMap := none
  deriving DecidableEq, Repr, Inhabited

/-- Go `policyv1alpha1.SchedulePriority`: where the binding priority comes from. -/
structure PolicySchedulePriority where
  priorityClassSource : String
  priorityClassName : String
  deriving DecidableEq, Repr, Inhabited

/-- Go `policyv1alpha1.PropagationSpec`, shared by both kinds of policy. -/
structure PropagationSpec where
  resourceSelectors : List ResourceSelector := []
  propagateDeps : Bool := false
  placement : Placement := {}
  priority : Option Int := none
  preemption : String := ""
  dependentOverrides : List String := []
  schedulerName : String := ""
  failover : Option FailoverBehavior := none
  conflictResolution : String := ""
  activationPreference : String := ""
  suspension : Option PolicySuspension := none
  preserveResourcesOnDeletion : Option Bool := none
  schedulePriority : Option PolicySchedulePriority := none
  deriving DecidableEq, Repr, Inhabited

/-- Go `policyv1alpha1.PropagationPolicy` (namespaced). -/
structure PropagationPolicy where
  meta : ObjectMeta := {}
  spec : PropagationSpec := {}
  deriving DecidableEq, Repr, Inhabited

/-- Go `policyv1alpha1.ClusterPropagationPolicy` (cluster-scoped). -/
structure ClusterPropagationPolicy where
  meta : ObjectMeta := {}
  spec : PropagationSpec := {}
  deriving DecidableEq, Repr, Inhabited

/-! ## Claim metadata helpers

These helpers live in files of the detector package and of `pkg/util` that are not
part of the sources at hand; they act on the object metadata only. -/

/-- Modelled from the spec: `util.GetLabelValue` is missing; it reads one label and
gives the empty string for an absent label or a nil map. -/
def GetLabelValue (labels : StringMap) (name : String) : String :=
  labels.get name

/-- Modelled from the spec: `AddPPClaimMetadata` is missing; claim metadata is the
permanent-ID label plus the annotations naming the policy's namespace and name. -/
def AddPPClaimMetadata (obj : ObjectMeta) (policyID : String) (policyMeta : ObjectMeta) : ObjectMeta :=
  { obj with
    labels := obj.labels.set PropagationPolicyPermanentIDLabel policyID
    annotations :=
      (obj.annotations.set PropagationPolicyNamespaceAnnotation policyMeta.namespace).set
        PropagationPolicyNameAnnotation policyMeta.name }

/-- Modelled from the spec: `AddCPPClaimMetadata` is missing; claim metadata is the
permanent-ID label plus the annotation naming the cluster-scoped policy. -/
def AddCPPClaimMetadata (obj : ObjectMeta) (policyID : String) (policyMeta : ObjectMeta) : ObjectMeta :=
  { obj with
    labels := obj.labels.set ClusterPropagationPolicyPermanentIDLabel policyID
    annotations := obj.annotations.set ClusterPropagationPolicyAnnotation policyMeta.name }

/-- Modelled from the spec: `CleanupPPClaimMetadata` is missing; unclaiming strips
the same metadata that claiming wrote. -/
def CleanupPPClaimMetadata (obj : ObjectMeta) : ObjectMeta :=
  { obj with
    labels := obj.labels.del PropagationPolicyPermanentIDLabel
    annotations :=
      (obj.annotations.del PropagationPolicyNamespaceAnnotation).del PropagationPolicyNameAnnotation }

/-- Modelled from the spec: `CleanupCPPClaimMetadata` is missing; unclaiming strips
the same metadata that claiming wrote. -/
def CleanupCPPClaimMetadata (obj : ObjectMeta) : ObjectMeta :=
  { obj with
    labels := obj.labels.del ClusterPropagationPolicyPermanentIDLabel
    annotations := obj.annotations.del ClusterPropagationPolicyAnnotation }

/-- The helper `excludeClusterPolicy` is called at detector.go 501 and 717; its body
is not part of the sources at hand and the specification has no sentence about it.
This body is an assumption read off its name and its two call sites: a
cluster-policy claim is stripped when its permanent-ID label is present, and the
result tells whether it was.  Statements that would turn on this body are made for
every body instead (`ClaimPolicyForObjectWith`, `ApplyPolicy.mutateFnWith`). -/
def excludeClusterPolicy (obj : ObjectMeta) : Bool × ObjectMeta :=
  if !obj.labels.has ClusterPropagationPolicyPermanentIDLabel then
    (false, obj)
  else
    (true, CleanupCPPClaimMetadata obj)

/-- Modelled from the spec: `NeedCleanupClaimMetadata` is missing; the object still
carries the target claim when every target label has the target value. -/
def NeedCleanupClaimMetadata (obj : ObjectMeta) (targetClaimMetadata : StringMap) : Bool :=
  targetClaimMetadata.all (fun kv => obj.labels.get kv.1 == kv.2)

/-- Modelled from the spec: `util.DedupeAndMergeAnnotations` is missing; the new
entries are written over the existing map, a nil existing map gives the new map. -/
def DedupeAndMergeAnnotations ( existAnnotation newAnnotation : StringMap) : StringMap :=
  if existAnnotation.isEmpty then newAnnotation
  else newAnnotation.foldl (fun m kv => m.set kv.1 kv.2) existAnnotation

/-- Modelled from the spec: `util.DedupeAndMergeLabels` is missing; the new entries
are written over the existing map, a nil existing map gives the new map. -/
def DedupeAndMergeLabels (existLabel newLabel : StringMap) : StringMap :=
  if existLabel.isEmpty then newLabel
  else newLabel.foldl (fun m kv => m.set kv.1 kv.2) existLabel

/-- Modelled from the spec: `util.DedupeAndMergeFinalizers` is missing; the result
holds every finalizer of either list once. -/
def DedupeAndMergeFinalizers (existFinalizers newFinalizers : List String) : List String :=
  (existFinalizers ++ newFinalizers).dedup

/-- Go `metav1.GetControllerOfNoCopy`: the first owner reference whose `Controller`
is set and true. -/
def GetControllerOfNoCopy (controllee : ObjectMeta) : Option OwnerReference :=
  controllee.ownerReferences.find? (fun ref => ref.controller == some true)

/-! ## The update mutations run inside `CreateOrUpdate` -/

/-- The error of the owner check in the update mutations. -/
def differentOwnerErr : Err :=
  Err.other ("failed to update binding due to different owner reference UID, will " ++
    "try again later after binding is garbage collected, see https://github.com/karmada-io/karmada/issues/2090")

/-- The assignment of `Spec.Suspension` shared by the three mutations: only the
policy-derived part is written, and only when the desired binding has a suspension. -/
def mutateSuspension (desired current : Option Suspension) : Option Suspension :=
  match desired with
  | some d =>
    let cur : Suspension := match current with
      | none => {}
      | some c => c
    some { cur with suspension := d.suspension }
  | none => current

/-- The mutation closure of `ApplyPolicy` (detector.go 472-503): `bindingCopy` holds
the stored binding, `binding` the desired one, `objectUID` is `object.GetUID()`.
Returns the closure's error and `bindingCopy` afterwards. -/
def ApplyPolicy.mutateFn (objectUID : String) (binding bindingCopy : ResourceBinding) :
    Option Err × ResourceBinding :=
  match (GetControllerOfNoCopy bindingCopy.meta).filter (fun ownerRef => ownerRef.uid != objectUID) with
  | some _ => (some differentOwnerErr, bindingCopy)
  | none =>
    let m := bindingCopy.meta
    let m := { m with annotations := DedupeAndMergeAnnotations m.annotations binding.meta.annotations }
    let m := { m with labels := DedupeAndMergeLabels m.labels binding.meta.labels }
    let m := { m with finalizers := DedupeAndMergeFinalizers m.finalizers binding.meta.finalizers }
    let m := { m with ownerReferences := binding.meta.ownerReferences }
    let s := bindingCopy.spec
    let s := { s with resource := binding.spec.resource }
    let s := { s with replicaRequirements := binding.spec.replicaRequirements }
    let s := { s with replicas := binding.spec.replicas }
    let s := { s with propagateDeps := binding.spec.propagateDeps }
    let s := { s with schedulerName := binding.spec.schedulerName }
    let s := { s with placement := binding.spec.placement }
    let s := { s with failover := binding.spec.failover }
    let s := { s with conflictResolution := binding.spec.conflictResolution }
    let s := { s with preserveResourcesOnDeletion := binding.spec.preserveResourcesOnDeletion }
    let s := { s with schedulePriority := binding.spec.schedulePriority }
    let s := { s with suspension := mutateSuspension binding.spec.suspension s.suspension }
    let m := (excludeClusterPolicy m).2
    (none, { meta := m, spec := s })

/-- The mutation closure of `ApplyClusterPolicy` for a namespaced template
(detector.go 568-598), on a `ResourceBinding`. -/
def ApplyClusterPolicy.mutateFnRB (objectUID : String) (binding bindingCopy : ResourceBinding) :
    Option Err × ResourceBinding :=
  match (GetControllerOfNoCopy bindingCopy.meta).filter (fun ownerRef => ownerRef.uid != objectUID) with
  | some _ => (some differentOwnerErr, bindingCopy)
  | none =>
    let m := bindingCopy.meta
    let m := { m with annotations := DedupeAndMergeAnnotations m.annotations binding.meta.annotations }
    let m := { m with labels := DedupeAndMergeLabels m.labels binding.meta.labels }
    let m := { m with finalizers := DedupeAndMergeFinalizers m.finalizers binding.meta.finalizers }
    let m := { m with ownerReferences := binding.meta.ownerReferences }
    let s := bindingCopy.spec
    let s := { s with resource := binding.spec.resource }
    let s := { s with replicaRequirements := binding.spec.replicaRequirements }
    let s := { s with replicas := binding.spec.replicas }
    let s := { s with propagateDeps := binding.spec.propagateDeps }
    let s := { s with schedulerName := binding.spec.schedulerName }
    let s := { s with placement := binding.spec.placement }
    let s := { s with failover := binding.spec.failover }
    let s := { s with conflictResolution := binding.spec.conflictResolution }
    let s := { s with preserveResourcesOnDeletion := binding.spec.preserveResourcesOnDeletion }
    let s := { s with schedulePriority := binding.spec.schedulePriority }
    let s := { s with suspension := mutateSuspension binding.spec.suspension s.suspension }
    (none, { meta := m, spec := s })

/-- The mutation closure of `ApplyClusterPolicy` for a cluster-scoped template
(detector.go 623-651), on a `ClusterResourceBinding`. -/
def ApplyClusterPolicy.mutateFnCRB (objectUID : String) (binding bindingCopy : ClusterResourceBinding) :
    Option Err × ClusterResourceBinding :=
  match (GetControllerOfNoCopy bindingCopy.meta).filter (fun ownerRef => ownerRef.uid != objectUID) with
  | some _ => (some differentOwnerErr, bindingCopy)
  | none =>
    let m := bindingCopy.meta
    let m := { m with annotations := DedupeAndMergeAnnotations m.annotations binding.meta.annotations }
    let m := { m with labels := DedupeAndMergeLabels m.labels binding.meta.labels }
    let m := { m with finalizers := DedupeAndMergeFinalizers m.finalizers binding.meta.finalizers }
    let m := { m with ownerReferences := binding.meta.ownerReferences }
    let s := bindingCopy.spec
    let s := { s with resource := binding.spec.resource }
    let s := { s with replicaRequirements := binding.spec.replicaRequirements }
    let s := { s with replicas := binding.spec.replicas }
    let s := { s with schedulerName := binding.spec.schedulerName }
    let s := { s with placement := binding.spec.placement }
    let s := { s with failover := binding.spec.failover }
    let s := { s with conflictResolution := binding.spec.conflictResolution }
    let s := { s with preserveResourcesOnDeletion := binding.spec.preserveResourcesOnDeletion }
    let s := { s with suspension := mutateSuspension binding.spec.suspension s.suspension }
    (none, { meta := m, spec := s })

/-! ## Keys -/

/-- Go `schema.GroupVersionKind`. -/
structure GroupVersionKind where
  group : String := ""
  version : String := ""
  kind : String := ""
  deriving DecidableEq, Repr, Inhabited

/-- Go `schema.GroupVersionResource`. -/
structure GroupVersionResource where
  group : String := ""
  version : String := ""
  resource : String := ""
  deriving DecidableEq, Repr, Inhabited

/-- Go `keys.ClusterWideKey`: the cluster-wide identity of a resource template. -/
structure ClusterWideKey where
  group : String := ""
  version : String := ""
  kind : String := ""
  «namespace» : String := ""
  name : String := ""
  deriving DecidableEq, Repr, Inhabited

/-- Go `ClusterWideKey.GroupVersionKind`. -/
def ClusterWideKey.GroupVersionKind (k : ClusterWideKey) : GroupVersionKind :=
  { group := k.group, version := k.version, kind := k.kind }

/-- Go `ClusterWideKey.NamespaceKey`: `namespace/name`, or `name` alone for a
cluster-scoped object. -/
def ClusterWideKey.NamespaceKey (k : ClusterWideKey) : String :=
  if k.namespace.length > 0 then k.namespace ++ "/" ++ k.name else k.name

/-- Go `keys.ClusterWideKeyWithConfig`: the payload of the template queue. -/
structure ClusterWideKeyWithConfig where
  clusterWideKey : ClusterWideKey
  resourceChangeByKarmada : Bool
  deriving DecidableEq, Repr, Inhabited

/-- Go `keys.NamespacedKey`: the payload of the two policy queues. -/
structure NamespacedKey where
  «namespace» : String := ""
  name : String := ""
  deriving DecidableEq, Repr, Inhabited

/-- Go `util.QueueKey` (an empty interface): what a reconcile function may be handed. -/
inductive QueueKey where
  | clusterWideKey (k : ClusterWideKey)
  | clusterWideKeyWithConfig (k : ClusterWideKeyWithConfig)
  | namespacedKey (k : NamespacedKey)
  | foreign (tag : String)
  deriving DecidableEq, Repr, Inhabited

/-- Go `schema.ParseGroupVersion` composed with `GroupVersionKind` construction, as
done by `schema.FromAPIVersionAndKind`: an unparsable apiVersion gives the empty
group and version. -/
def FromAPIVersionAndKind (apiVersion kind : String) : GroupVersionKind :=
  if apiVersion.length = 0 ∨ apiVersion = "/" then { kind := kind }
  else
    match apiVersion.data.count '/' with
    | 0 => { group := "", version := apiVersion, kind := kind }
    | 1 =>
      { group := String.mk (apiVersion.data.takeWhile (fun c => c != '/'))
        version := String.mk ((apiVersion.data.dropWhile (fun c => c != '/')).drop 1)
        kind := kind }
    | _ => { kind := kind }

/-- Go `GroupVersion.String`. -/
def GroupVersionKind.GroupVersionString (gvk : GroupVersionKind) : String :=
  if gvk.group.length > 0 then gvk.group ++ "/" ++ gvk.version else gvk.version

/-- Go `Unstructured.GroupVersionKind`. -/
def Unstructured.GroupVersionKind (u : Unstructured) : GroupVersionKind :=
  FromAPIVersionAndKind u.apiVersion u.kind

/-! ## The environment -/

/-- An object handed out by an informer store (Go `interface{}` / `runtime.Object`):
an unstructured object, or something else. -/
inductive RuntimeObject where
  | unstructured (u : Unstructured)
  | foreign (tag : String)
  deriving DecidableEq, Repr, Inhabited

/-- Every collaborator of the detector, as functions over an abstract store state
`σ`.  A call may fail and may change the state, so that successive calls can see
different answers (other writers, injected faults). -/
structure Env (σ : Type) where
  /-- Go `restmapper.GetGroupVersionResource(d.RESTMapper, gvk)`. -/
  GetGroupVersionResource : σ → GroupVersionKind → Except Err GroupVersionResource × σ
  /-- Go `d.InformerManager.Lister(gvr).Get(key)`. -/
  ListerGet : σ → GroupVersionResource → String → Except Err RuntimeObject × σ
  /-- Go `helper.ToUnstructured`. -/
  ToUnstructured : RuntimeObject → Except Err Unstructured
  /-- Go `d.DynamicClient.Resource(gvr).Namespace(ns).Get(ctx, name, opts)`. -/
  DynamicGet : σ → GroupVersionResource → String → String → Except Err Unstructured × σ
  /-- Go `d.DynamicClient.Resource(gvr).Namespace(ns).Update(ctx, obj, opts)`. -/
  DynamicUpdate : σ → GroupVersionResource → String → Unstructured → Except Err Unstructured × σ
  /-- Go `d.Client.Update(ctx, object)` on a resource template; on success the
  object is overwritten with the content returned by the server. -/
  UpdateTemplate : σ → Unstructured → Except Err Unstructured × σ
  /-- Go `d.Client.Get(ctx, key, rb)` for a ResourceBinding (namespace, name). -/
  GetRB : σ → String → String → Except Err ResourceBinding × σ
  /-- Go `d.Client.Create(ctx, rb)`. -/
  CreateRB : σ → ResourceBinding → Except Err ResourceBinding × σ
  /-- Go `d.Client.Update(ctx, rb)`. -/
  UpdateRB : σ → ResourceBinding → Except Err ResourceBinding × σ
  /-- Go `d.Client.Get(ctx, key, crb)` for a ClusterResourceBinding (name). -/
  GetCRB : σ → String → Except Err ClusterResourceBinding × σ
  /-- Go `d.Client.Create(ctx, crb)`. -/
  CreateCRB : σ → ClusterResourceBinding → Except Err ClusterResourceBinding × σ
  /-- Go `d.Client.Update(ctx, crb)`. -/
  UpdateCRB : σ → ClusterResourceBinding → Except Err ClusterResourceBinding × σ
  /-- Go `helper.GetResourceBindings(d.Client, labelSet)`. -/
  GetResourceBindings : σ → StringMap → Except Err (List ResourceBinding) × σ
  /-- Go `helper.GetClusterResourceBindings(d.Client, labelSet)`. -/
  GetClusterResourceBindings : σ → StringMap → Except Err (List ClusterResourceBinding) × σ
  /-- Go `d.Client.Get(ctx, key, pp)` for a PropagationPolicy (namespace, name). -/
  GetPP : σ → String → String → Except Err PropagationPolicy × σ
  /-- Go `d.Client.Update(ctx, pp)`. -/
  UpdatePP : σ → PropagationPolicy → Except Err PropagationPolicy × σ
  /-- Go `d.Client.Get(ctx, key, cpp)` for a ClusterPropagationPolicy (name). -/
  GetCPP : σ → String → Except Err ClusterPropagationPolicy × σ
  /-- Go `d.Client.Update(ctx, cpp)`. -/
  UpdateCPP : σ → ClusterPropagationPolicy → Except Err ClusterPropagationPolicy × σ
  /-- Go `d.InformerManager.GetInformer(gvr)` followed by
  `informer.Informer().GetIndexer().ByIndex("bylabel", value)`; `none` when there
  is no informer for the resource. -/
  ByIndexByLabel : σ → GroupVersionResource → String → Option (Except Err (List RuntimeObject)) × σ
  /-- Go `d.ResourceInterpreter.HookEnabled(gvk, InterpreterOperationInterpretReplica)`. -/
  HookEnabledInterpretReplica : σ → GroupVersionKind → Bool
  /-- Go `d.ResourceInterpreter.GetReplicas(object)`. -/
  GetReplicas : σ → Unstructured → Except Err (Int × Option ReplicaRequirements) × σ
  /-- Go `features.FeatureGate.Enabled(features.PriorityBasedScheduling)`. -/
  PriorityBasedSchedulingEnabled : Bool
  /-- Go `helper.GetPriorityClassByName(ctx, d.Client, name)`, giving the class value. -/
  GetPriorityClassByName : σ → String → Except Err Int × σ
  /-- Go `names.GenerateBindingName(kind, name)`. -/
  GenerateBindingName : String → String → String

/-- A write issued by the detector, or a key handed to the template queue. -/
inductive Event where
  | UpdateTemplate (object : Unstructured)
  | DynamicUpdate (gvr : GroupVersionResource) (ns : String) (workload : Unstructured)
  | CreateRB (rb : ResourceBinding)
  | UpdateRB (rb : ResourceBinding)
  | CreateCRB (crb : ClusterResourceBinding)
  | UpdateCRB (crb : ClusterResourceBinding)
  | UpdatePP (pp : PropagationPolicy)
  | UpdateCPP (cpp : ClusterPropagationPolicy)
  | ProcessorAdd (key : ClusterWideKeyWithConfig)
  deriving DecidableEq, Repr, Inhabited

/-- The detector together with the store it talks to: the store state, the
waiting list `d.waitingObjects`, and the log of issued writes, oldest first. -/
structure World (σ : Type) where
  store : σ
  waitingObjects : Finset ClusterWideKey := ∅
  log : List Event := []

/-- Append an event to the log. -/
def World.emit {σ : Type} (w : World σ) (e : Event) : World σ :=
  { w with log := w.log ++ [e] }

/-- Replace the store state. -/
def World.withStore {σ : Type} (w : World σ) (st : σ) : World σ :=
  { w with store := st }

/-! ## Waiting list -/

/-- Go `ResourceDetector.isWaiting`. -/
def isWaiting {σ : Type} (w : World σ) (objectKey : ClusterWideKey) : Bool :=
  decide (objectKey ∈ w.waitingObjects)

/-- Go `ResourceDetector.AddWaiting`. -/
def AddWaiting {σ : Type} (objectKey : ClusterWideKey) (w : World σ) : World σ :=
  { w with waitingObjects := insert objectKey w.waitingObjects }

/-- Go `ResourceDetector.RemoveWaiting`. -/
def RemoveWaiting {σ : Type} (objectKey : ClusterWideKey) (w : World σ) : World σ :=
  { w with waitingObjects := w.waitingObjects.erase objectKey }

/-! ## Retry on conflict -/

/-- Go `retry.DefaultRetry.Steps`. -/
def DefaultRetrySteps : Nat := 5

/-- What a call of a Go function returning `error` comes to: it returns (nil or an
error), or it panics and takes its callers down with it. -/
inductive Outcome where
  | returned (err : Option Err)
  | panicked (reason : String)
  deriving Repr, Inhabited

/-- The call returned nil. -/
def Outcome.isNil : Outcome → Bool
  | .returned none => true
  | _ => false

/-- The call returned a non-nil error. -/
def Outcome.isError : Outcome → Bool
  | .returned (some _) => true
  | _ => false

/-- The call panicked. -/
def Outcome.isPanic : Outcome → Bool
  | .panicked _ => true
  | _ => false

/-- The loop of `retry.RetryOnConflict`: `fn` runs until it returns nil, returns an
error that is not a conflict, panics, or has run `steps` times; after the last
conflict the conflict error is returned.  `α` is the state of the variables captured
by `fn`. -/
def RetryOnConflictLoop {σ α : Type} (fn : α → World σ → Outcome × α × World σ) :
    Nat → Option Err → α → World σ → Outcome × α × World σ
  | 0, lastErr, a, w => (Outcome.returned lastErr, a, w)
  | steps + 1, _, a, w =>
    match fn a w with
    | (.panicked reason, a, w) => (Outcome.panicked reason, a, w)
    | (.returned none, a, w) => (Outcome.returned none, a, w)
    | (.returned (some err), a, w) =>
      if err.IsConflict then RetryOnConflictLoop fn steps (some err) a w
      else (Outcome.returned (some err), a, w)

/-- Go `retry.RetryOnConflict(retry.DefaultRetry, fn)`. -/
def RetryOnConflict {σ α : Type} (fn : α → World σ → Outcome × α × World σ)
    (a : α) (w : World σ) : Outcome × α × World σ :=
  RetryOnConflictLoop fn DefaultRetrySteps none a w

/-! ## Fetching a template and the template reconcile -/

/-- Go `ResourceDetector.GetUnstructuredObject` (detector.go 677-707). -/
def GetUnstructuredObject {σ : Type} (env : Env σ) (objectKey : ClusterWideKey) (st : σ) :
    Except Err Unstructured × σ :=
  match env.GetGroupVersionResource st objectKey.GroupVersionKind with
  | (.error err, st) => (.error err, st)
  | (.ok objectGVR, st) =>
    match env.ListerGet st objectGVR objectKey.NamespaceKey with
    | (.error err, st) =>
      if err.IsNotFound then
        match env.DynamicGet st objectGVR objectKey.namespace objectKey.name with
        | (.ok object, st) => (.ok object, st)
        | (.error err, st) => (.error err, st)
      else (.error err, st)
    | (.ok object, st) =>
      match env.ToUnstructured object with
      | .error err => (.error err, st)
      | .ok unstructuredObj => (.ok unstructuredObj, st)

/-- The type of `ResourceDetector.propagateResource`, whose body is not part of the
sources at hand: it is a parameter of `Reconcile`. -/
abbrev PropagateResource (σ : Type) :=
  Unstructured → ClusterWideKey → Bool → World σ → Option Err × World σ

/-- Go `ResourceDetector.Reconcile` (detector.go 247-281). -/
def Reconcile {σ : Type} (env : Env σ) (propagateResource : PropagateResource σ)
    (key : QueueKey) (w : World σ) : Option Err × World σ :=
  match key with
  | .clusterWideKeyWithConfig clusterWideKeyWithConfig =>
    let clusterWideKey := clusterWideKeyWithConfig.clusterWideKey
    let resourceChangeByKarmada := clusterWideKeyWithConfig.resourceChangeByKarmada
    match GetUnstructuredObject env clusterWideKey w.store with
    | (.error err, st) =>
      if err.IsNotFound then (none, RemoveWaiting clusterWideKey (w.withStore st))
      else (some err, w.withStore st)
    | (.ok object, st) =>
      let resourceTemplateClaimedBy := GetLabelValue object.meta.labels ResourceTemplateClaimedByLabel
      if resourceTemplateClaimedBy != "" then (none, RemoveWaiting clusterWideKey (w.withStore st))
      else propagateResource object clusterWideKey resourceChangeByKarmada (w.withStore st)
  | _ => (some (Err.other "invalid key"), w)

/-! ## Claiming a template -/

/-- Go `ResourceDetector.ClaimPolicyForObject` (detector.go 711-725).  The first
component of the result is the caller's object after the call: the callee works on
the caller's pointer until `object = object.DeepCopy()` rebinds its local variable. -/
def ClaimPolicyForObject {σ : Type} (env : Env σ) (object : Unstructured)
    (policy : PropagationPolicy) (w : World σ) : (Unstructured × String × Option Err) × World σ :=
  let policyID := policy.meta.labels.get PropagationPolicyPermanentIDLabel
  let objLabels := object.meta.labels
  let excluded := excludeClusterPolicy object.meta
  let callerObject : Unstructured :=
    if objLabels.length > 0 then { object with meta := excluded.2 } else object
  if objLabels.length > 0 ∧ (!excluded.1 && objLabels.get PropagationPolicyPermanentIDLabel == policyID) = true then
    ((callerObject, policyID, none), w)
  else
    let object := callerObject
    let object := { object with meta := AddPPClaimMetadata object.meta policyID policy.meta }
    let w := w.emit (Event.UpdateTemplate object)
    match env.UpdateTemplate w.store object with
    | (.ok _, st) => ((callerObject, policyID, none), w.withStore st)
    | (.error err, st) => ((callerObject, policyID, some err), w.withStore st)

/-- Go `ResourceDetector.ClaimClusterPolicyForObject` (detector.go 729-740).  The
first component of the result is the caller's object after the call. -/
def ClaimClusterPolicyForObject {σ : Type} (env : Env σ) (object : Unstructured)
    (policy : ClusterPropagationPolicy) (w : World σ) : (Unstructured × String × Option Err) × World σ :=
  let policyID := policy.meta.labels.get ClusterPropagationPolicyPermanentIDLabel
  let claimedID := GetLabelValue object.meta.labels ClusterPropagationPolicyPermanentIDLabel
  if claimedID = policyID then
    ((object, policyID, none), w)
  else
    let object := { object with meta := AddCPPClaimMetadata object.meta policyID policy.meta }
    let w := w.emit (Event.UpdateTemplate object)
    match env.UpdateTemplate w.store object with
    | (.ok served, st) => ((served, policyID, none), w.withStore st)
    | (.error err, st) => ((object, policyID, some err), w.withStore st)

/-! ## Building the desired binding -/

/-- Go `metav1.NewControllerRef(owner, gvk)`. -/
def NewControllerRef (owner : Unstructured) (gvk : GroupVersionKind) : OwnerReference :=
  { apiVersion := gvk.GroupVersionString
    kind := gvk.kind
    name := owner.meta.name
    uid := owner.meta.uid
    blockOwnerDeletion := some true
    controller := some true }

/-- The priority-class sources of `policyv1alpha1` (declared outside the sources at hand). -/
def KubePriorityClass : String := "KubePriorityClass"
def PodPriorityClass : String := "PodPriorityClass"
def FederatedPriorityClass : String := "FederatedPriorityClass"

/-- The replica-interpretation step shared by both builders (detector.go 778-786 and
852-860): when the hook is enabled the interpreter's answer is written into the
spec, and its error aborts the build. -/
def interpretReplicas {σ : Type} (env : Env σ) (object : Unstructured) (spec : ResourceBindingSpec)
    (st : σ) : Except Err ResourceBindingSpec × σ :=
  if env.HookEnabledInterpretReplica st object.GroupVersionKind then
    match env.GetReplicas st object with
    | (.error err, st) => (.error err, st)
    | (.ok (replicas, replicaRequirements), st) =>
      (.ok { spec with replicas := replicas, replicaRequirements := replicaRequirements }, st)
  else (.ok spec, st)

/-- The schedule-priority step of `BuildResourceBinding` (detector.go 788-812). -/
def resolveSchedulePriority {σ : Type} (env : Env σ) (policySpec : PropagationSpec)
    (spec : ResourceBindingSpec) (st : σ) : Except Err ResourceBindingSpec × σ :=
  match policySpec.schedulePriority with
  | some schedulePriority =>
    if env.PriorityBasedSchedulingEnabled then
      if schedulePriority.priorityClassSource = KubePriorityClass then
        match env.GetPriorityClassByName st schedulePriority.priorityClassName with
        | (.error err, st) => (.error err, st)
        | (.ok value, st) => (.ok { spec with schedulePriority := some { priority := value } }, st)
      else if schedulePriority.priorityClassSource = PodPriorityClass then
        (.error (Err.other "priority class source is PodPriorityClass, but PodPriorityClass is not supported yet"), st)
      else if schedulePriority.priorityClassSource = FederatedPriorityClass then
        (.error (Err.other "priority class source is FederatedPriorityClass, but FederatedPriorityClass is not supported yet"), st)
      else (.error (Err.other "unsupported priority class source"), st)
    else (.ok spec, st)
  | none => (.ok spec, st)

/-- Go `ResourceDetector.BuildResourceBinding` (detector.go 743-815). -/
def BuildResourceBinding {σ : Type} (env : Env σ) (object : Unstructured)
    (policySpec : PropagationSpec) (policyID : String) (policyMeta : ObjectMeta)
    (claimFunc : ObjectMeta → String → ObjectMeta → ObjectMeta) (st : σ) :
    Except Err ResourceBinding × σ :=
  let bindingName := env.GenerateBindingName object.kind object.meta.name
  let propagationBinding : ResourceBinding :=
    { meta :=
        { name := bindingName
          «namespace» := object.meta.namespace
          ownerReferences := [NewControllerRef object object.GroupVersionKind]
          finalizers := [BindingControllerFinalizer] }
      spec :=
        { propagateDeps := policySpec.propagateDeps
          schedulerName := policySpec.schedulerName
          placement := some policySpec.placement
          failover := policySpec.failover
          conflictResolution := policySpec.conflictResolution
          preserveResourcesOnDeletion := policySpec.preserveResourcesOnDeletion
          resource :=
            { apiVersion := object.apiVersion
              kind := object.kind
              «namespace» := object.meta.namespace
              name := object.meta.name
              uid := object.meta.uid
              resourceVersion := object.meta.resourceVersion } } }
  let propagationBinding : ResourceBinding :=
    match policySpec.suspension with
    | some suspension =>
      { propagationBinding with spec := { propagationBinding.spec with suspension := some { suspension := suspension } } }
    | none => propagationBinding
  let propagationBinding : ResourceBinding :=
    { propagationBinding with meta := claimFunc propagationBinding.meta policyID policyMeta }
  match interpretReplicas env object propagationBinding.spec st with
  | (.error err, st) => (.error err, st)
  | (.ok spec, st) =>
    match resolveSchedulePriority env policySpec spec st with
    | (.error err, st) => (.error err, st)
    | (.ok spec, st) => (.ok { propagationBinding with spec := spec }, st)

/-- Go `ResourceDetector.BuildClusterResourceBinding` (detector.go 818-863). -/
def BuildClusterResourceBinding {σ : Type} (env : Env σ) (object : Unstructured)
    (policySpec : PropagationSpec) (policyID : String) (policyMeta : ObjectMeta) (st : σ) :
    Except Err ClusterResourceBinding × σ :=
  let bindingName := env.GenerateBindingName object.kind object.meta.name
  let binding : ClusterResourceBinding :=
    { meta :=
        { name := bindingName
          ownerReferences := [NewControllerRef object object.GroupVersionKind]
          finalizers := [ClusterResourceBindingControllerFinalizer] }
      spec :=
        { propagateDeps := policySpec.propagateDeps
          schedulerName := policySpec.schedulerName
          placement := some policySpec.placement
          failover := policySpec.failover
          conflictResolution := policySpec.conflictResolution
          preserveResourcesOnDeletion := policySpec.preserveResourcesOnDeletion
          resource :=
            { apiVersion := object.apiVersion
              kind := object.kind
              name := object.meta.name
              uid := object.meta.uid
              resourceVersion := object.meta.resourceVersion } } }
  let binding : ClusterResourceBinding :=
    match policySpec.suspension with
    | some suspension =>
      { binding with spec := { binding.spec with suspension := some { suspension := suspension } } }
    | none => binding
  let binding : ClusterResourceBinding :=
    { binding with meta := AddCPPClaimMetadata binding.meta policyID policyMeta }
  match interpretReplicas env object binding.spec st with
  | (.error err, st) => (.error err, st)
  | (.ok spec, st) => (.ok { binding with spec := spec }, st)

/-! ## Create-or-update -/

/-- Go `controllerutil.OperationResult`. -/
inductive OperationResult where
  | None
  | Created
  | Updated
  deriving DecidableEq, Repr, Inhabited

/-- The typed client restricted to one kind of object. -/
structure ObjectClient (σ β : Type) where
  key : β → String × String
  get : σ → String × String → Except Err β × σ
  create : σ → β → Except Err β × σ
  update : σ → β → Except Err β × σ
  created : β → Event
  updated : β → Event

/-- The typed client for ResourceBindings. -/
def Env.rbClient {σ : Type} (env : Env σ) : ObjectClient σ ResourceBinding :=
  { key := fun rb => (rb.meta.namespace, rb.meta.name)
    get := fun st k => env.GetRB st k.1 k.2
    create := env.CreateRB
    update := env.UpdateRB
    created := Event.CreateRB
    updated := Event.UpdateRB }

/-- The typed client for ClusterResourceBindings. -/
def Env.crbClient {σ : Type} (env : Env σ) : ObjectClient σ ClusterResourceBinding :=
  { key := fun crb => (crb.meta.namespace, crb.meta.name)
    get := fun st k => env.GetCRB st k.2
    create := env.CreateCRB
    update := env.UpdateCRB
    created := Event.CreateCRB
    updated := Event.UpdateCRB }

/-- Go `controllerutil.mutate`: run the mutation, then refuse a changed key. -/
def mutate {β : Type} (keyOf : β → String × String) (f : β → Option Err × β)
    (key : String × String) (obj : β) : Option Err × β :=
  match f obj with
  | (some err, obj) => (some err, obj)
  | (none, obj) =>
    if keyOf obj ≠ key then
      (some (Err.other "MutateFn cannot mutate object name and/or object namespace"), obj)
    else (none, obj)

/-- Go `controllerutil.CreateOrUpdate(ctx, c, obj, f)`: `obj` is read from the store,
mutated by `f`, and created (when absent) or updated (when changed). -/
def CreateOrUpdate {σ β : Type} [DecidableEq β] (c : ObjectClient σ β)
    (f : β → Option Err × β) (obj : β) (w : World σ) :
    (OperationResult × Option Err) × β × World σ :=
  let key := c.key obj
  match c.get w.store key with
  | (.error err, st) =>
    let w := w.withStore st
    if !err.IsNotFound then ((OperationResult.None, some err), obj, w)
    else
      match mutate c.key f key obj with
      | (some err, obj) => ((OperationResult.None, some err), obj, w)
      | (none, obj) =>
        let w := w.emit (c.created obj)
        match c.create w.store obj with
        | (.error err, st) => ((OperationResult.None, some err), obj, w.withStore st)
        | (.ok served, st) => ((OperationResult.Created, none), served, w.withStore st)
  | (.ok stored, st) =>
    let w := w.withStore st
    let obj := stored
    let existing := obj
    match mutate c.key f key obj with
    | (some err, obj) => ((OperationResult.None, some err), obj, w)
    | (none, obj) =>
      if existing = obj then ((OperationResult.None, none), obj, w)
      else
        let w := w.emit (c.updated obj)
        match c.update w.store obj with
        | (.error err, st) => ((OperationResult.None, some err), obj, w.withStore st)
        | (.ok served, st) => ((OperationResult.Updated, none), served, w.withStore st)

/-! ## Applying a policy -/

/-- Modelled from the spec: `util.IsLazyActivationEnabled` is missing; it tells
whether the policy's activation preference is "lazy". -/
def IsLazyActivationEnabled (activationPreference : String) : Bool :=
  activationPreference == "Lazy"

/-- The body handed to `retry.RetryOnConflict` by the Apply functions: one
`CreateOrUpdate`, whose result is stored in the captured `operationResult`. -/
def applyAttempt {σ β : Type} [DecidableEq β] (c : ObjectClient σ β) (f : β → Option Err × β)
    (captured : β × OperationResult) (w : World σ) :
    Outcome × (β × OperationResult) × World σ :=
  match CreateOrUpdate c f captured.1 w with
  | ((operationResult, err), bindingCopy, w) =>
    (Outcome.returned err, (bindingCopy, operationResult), w)

/-- Go `ResourceDetector.ApplyPolicy` (detector.go 436-524); the result carries the
returned error and the final `operationResult`. -/
def ApplyPolicy {σ : Type} (env : Env σ) (object : Unstructured) (resourceChangeByKarmada : Bool)
    (policy : PropagationPolicy) (w : World σ) : (Outcome × OperationResult) × World σ :=
  match ClaimPolicyForObject env object policy w with
  | ((_, _, some err), w) => ((Outcome.returned (some err), OperationResult.None), w)
  | ((object, policyID, none), w) =>
    if (resourceChangeByKarmada && IsLazyActivationEnabled policy.spec.activationPreference) = true then
      ((Outcome.returned none, OperationResult.None), w)
    else
      match BuildResourceBinding env object policy.spec policyID policy.meta AddPPClaimMetadata w.store with
      | (.error err, st) => ((Outcome.returned (some err), OperationResult.None), w.withStore st)
      | (.ok binding, st) =>
        let bindingCopy := binding
        match RetryOnConflict (applyAttempt env.rbClient (ApplyPolicy.mutateFn object.meta.uid binding))
            (bindingCopy, OperationResult.None) (w.withStore st) with
        | (outcome, captured, w) => ((outcome, captured.2), w)

/-- Go `ResourceDetector.ApplyClusterPolicy` (detector.go 528-671); the result
carries the returned error and the final `operationResult`. -/
def ApplyClusterPolicy {σ : Type} (env : Env σ) (object : Unstructured) (resourceChangeByKarmada : Bool)
    (policy : ClusterPropagationPolicy) (w : World σ) : (Outcome × OperationResult) × World σ :=
  match ClaimClusterPolicyForObject env object policy w with
  | ((_, _, some err), w) => ((Outcome.returned (some err), OperationResult.None), w)
  | ((object, policyID, none), w) =>
    if (resourceChangeByKarmada && IsLazyActivationEnabled policy.spec.activationPreference) = true then
      ((Outcome.returned none, OperationResult.None), w)
    else if object.meta.namespace ≠ "" then
      match BuildResourceBinding env object policy.spec policyID policy.meta AddCPPClaimMetadata w.store with
      | (.error err, st) => ((Outcome.returned (some err), OperationResult.None), w.withStore st)
      | (.ok binding, st) =>
        let bindingCopy := binding
        match RetryOnConflict (applyAttempt env.rbClient (ApplyClusterPolicy.mutateFnRB object.meta.uid binding))
            (bindingCopy, OperationResult.None) (w.withStore st) with
        | (outcome, captured, w) => ((outcome, captured.2), w)
    else
      match BuildClusterResourceBinding env object policy.spec policyID policy.meta w.store with
      | (.error err, st) => ((Outcome.returned (some err), OperationResult.None), w.withStore st)
      | (.ok binding, st) =>
        let bindingCopy := binding
        match RetryOnConflict (applyAttempt env.crbClient (ApplyClusterPolicy.mutateFnCRB object.meta.uid binding))
            (bindingCopy, OperationResult.None) (w.withStore st) with
        | (outcome, captured, w) => ((outcome, captured.2), w)

/-! ## Stripping claim metadata -/

/-- One run of the body handed to `retry.RetryOnConflict` by
`CleanupResourceTemplateClaimMetadata` (detector.go 1302-1327). -/
def CleanupResourceTemplateClaimMetadata.attempt {σ : Type} (env : Env σ)
    (gvr : GroupVersionResource) (objRef : ObjectReference) (targetClaimMetadata : StringMap)
    (cleanupFunc : ObjectMeta → ObjectMeta) (_ : Unit) (w : World σ) : Outcome × Unit × World σ :=
  match env.DynamicGet w.store gvr objRef.namespace objRef.name with
  | (.error err, st) =>
    if err.IsNotFound then (Outcome.returned none, (), w.withStore st)
    else (Outcome.returned (some err), (), w.withStore st)
  | (.ok workload, st) =>
    let w := w.withStore st
    if !NeedCleanupClaimMetadata workload.meta targetClaimMetadata then
      (Outcome.returned none, (), w)
    else
      let workload := { workload with meta := cleanupFunc workload.meta }
      let w := w.emit (Event.DynamicUpdate gvr workload.meta.namespace workload)
      match env.DynamicUpdate w.store gvr workload.meta.namespace workload with
      | (.error err, st) => (Outcome.returned (some err), (), w.withStore st)
      | (.ok _, st) => (Outcome.returned none, (), w.withStore st)

/-- Go `ResourceDetector.CleanupResourceTemplateClaimMetadata` (detector.go 1295-1328). -/
def CleanupResourceTemplateClaimMetadata {σ : Type} (env : Env σ) (objRef : ObjectReference)
    (targetClaimMetadata : StringMap) (cleanupFunc : ObjectMeta → ObjectMeta) (w : World σ) :
    Outcome × World σ :=
  match env.GetGroupVersionResource w.store (FromAPIVersionAndKind objRef.apiVersion objRef.kind) with
  | (.error err, st) => (Outcome.returned (some err), w.withStore st)
  | (.ok gvr, st) =>
    match RetryOnConflict
        (CleanupResourceTemplateClaimMetadata.attempt env gvr objRef targetClaimMetadata cleanupFunc)
        () (w.withStore st) with
    | (outcome, _, w) => (outcome, w)

/-- One run of the body handed to `retry.RetryOnConflict` by
`CleanupResourceBindingClaimMetadata` (detector.go 1332-1350); the captured `rb` is
replaced by the stored binding when the update failed and the re-read succeeded. -/
def CleanupResourceBindingClaimMetadata.attempt {σ : Type} (env : Env σ)
    (targetClaimMetadata : StringMap) (cleanupFunc : ObjectMeta → ObjectMeta)
    (rb : ResourceBinding) (w : World σ) : Outcome × ResourceBinding × World σ :=
  if !NeedCleanupClaimMetadata rb.meta targetClaimMetadata then
    (Outcome.returned none, rb, w)
  else
    let rb := { rb with meta := cleanupFunc rb.meta }
    let w := w.emit (Event.UpdateRB rb)
    match env.UpdateRB w.store rb with
    | (.ok served, st) => (Outcome.returned none, served, w.withStore st)
    | (.error updateErr, st) =>
      match env.GetRB st rb.meta.namespace rb.meta.name with
      | (.ok updated, st) => (Outcome.returned (some updateErr), updated, w.withStore st)
      | (.error _, st) => (Outcome.returned (some updateErr), rb, w.withStore st)

/-- Go `ResourceDetector.CleanupResourceBindingClaimMetadata` (detector.go 1331-1351). -/
def CleanupResourceBindingClaimMetadata {σ : Type} (env : Env σ) (rb : ResourceBinding)
    (targetClaimMetadata : StringMap) (cleanupFunc : ObjectMeta → ObjectMeta) (w : World σ) :
    Outcome × World σ :=
  match RetryOnConflict (CleanupResourceBindingClaimMetadata.attempt env targetClaimMetadata cleanupFunc)
      rb w with
  | (outcome, _, w) => (outcome, w)

/-- One run of the body handed to `retry.RetryOnConflict` by
`CleanupClusterResourceBindingClaimMetadata` (detector.go 1355-1373). -/
def CleanupClusterResourceBindingClaimMetadata.attempt {σ : Type} (env : Env σ)
    (targetClaimMetadata : StringMap) (crb : ClusterResourceBinding) (w : World σ) :
    Outcome × ClusterResourceBinding × World σ :=
  if !NeedCleanupClaimMetadata crb.meta targetClaimMetadata then
    (Outcome.returned none, crb, w)
  else
    let crb := { crb with meta := CleanupCPPClaimMetadata crb.meta }
    let w := w.emit (Event.UpdateCRB crb)
    match env.UpdateCRB w.store crb with
    | (.ok served, st) => (Outcome.returned none, served, w.withStore st)
    | (.error updateErr, st) =>
      match env.GetCRB st crb.meta.name with
      | (.ok updated, st) => (Outcome.returned (some updateErr), updated, w.withStore st)
      | (.error _, st) => (Outcome.returned (some updateErr), crb, w.withStore st)

/-- Go `ResourceDetector.CleanupClusterResourceBindingClaimMetadata` (detector.go 1354-1374). -/
def CleanupClusterResourceBindingClaimMetadata {σ : Type} (env : Env σ)
    (crb : ClusterResourceBinding) (targetClaimMetadata : StringMap) (w : World σ) :
    Outcome × World σ :=
  match RetryOnConflict (CleanupClusterResourceBindingClaimMetadata.attempt env targetClaimMetadata)
      crb w with
  | (outcome, _, w) => (outcome, w)

/-- One run of the body handed to `retry.RetryOnConflict` by
`cleanupResourceTemplateClaimMetadata` (detector.go 1403-1429).  The captured
`workload` pointer is `none` once a failed re-read has assigned nil to it.  After a
conflicting update the re-read assigns its own result to `err`, and that value is
what the body returns; formatting the log line of a failed re-read dereferences the
nil `workload`. -/
def cleanupResourceTemplateClaimMetadata.attempt {σ : Type} (env : Env σ)
    (gvr : GroupVersionResource) (targetClaimMetadata : StringMap)
    (cleanupFunc : ObjectMeta → ObjectMeta) (workload : Option Unstructured) (w : World σ) :
    Outcome × Option Unstructured × World σ :=
  match workload with
  | none => (Outcome.panicked "nil pointer dereference", none, w)
  | some workload =>
    if !NeedCleanupClaimMetadata workload.meta targetClaimMetadata then
      (Outcome.returned none, some workload, w)
    else
      let workload := { workload with meta := cleanupFunc workload.meta }
      let w := w.emit (Event.DynamicUpdate gvr workload.meta.namespace workload)
      match env.DynamicUpdate w.store gvr workload.meta.namespace workload with
      | (.error err, st) =>
        let w := w.withStore st
        if err.IsConflict then
          match env.DynamicGet w.store gvr workload.meta.namespace workload.meta.name with
          | (.error err, st) =>
            if err.IsNotFound then (Outcome.returned none, none, w.withStore st)
            else (Outcome.panicked "nil pointer dereference", none, w.withStore st)
          | (.ok fetched, st) => (Outcome.returned none, some fetched, w.withStore st)
        else (Outcome.returned (some err), some workload, w)
      | (.ok _, st) => (Outcome.returned none, some workload, w.withStore st)

/-- Go `ResourceDetector.cleanupResourceTemplateClaimMetadata` (detector.go 1402-1430). -/
def cleanupResourceTemplateClaimMetadata {σ : Type} (env : Env σ) (gvr : GroupVersionResource)
    (workload : Unstructured) (targetClaimMetadata : StringMap)
    (cleanupFunc : ObjectMeta → ObjectMeta) (w : World σ) : Outcome × World σ :=
  match RetryOnConflict (cleanupResourceTemplateClaimMetadata.attempt env gvr targetClaimMetadata cleanupFunc)
      (some workload) w with
  | (outcome, _, w) => (outcome, w)

/-- The loop of `cleanRT` (detector.go 1390-1397): the outcomes of the per-template
cleanups are collected; an entry that is not an unstructured object leaves `rt` nil,
and building its error message dereferences it. -/
def cleanRT.loop {σ : Type} (env : Env σ) (gvr : GroupVersionResource) (claimMetadata : StringMap)
    (cleanupFunc : ObjectMeta → ObjectMeta) :
    List RuntimeObject → List (Option Err) → World σ → Except String (List (Option Err)) × World σ
  | [], errs, w => (.ok errs, w)
  | .unstructured rt :: objs, errs, w =>
    match cleanupResourceTemplateClaimMetadata env gvr rt claimMetadata cleanupFunc w with
    | (.panicked reason, w) => (.error reason, w)
    | (.returned err, w) => cleanRT.loop env gvr claimMetadata cleanupFunc objs (errs ++ [err]) w
  | .foreign _ :: _, _, w => (.error "nil pointer dereference", w)

/-- Go `GroupVersionResource.String`. -/
def GroupVersionResource.String (gvr : GroupVersionResource) : String :=
  gvr.group ++ "/" ++ gvr.version ++ ", Resource=" ++ gvr.resource

/-- Go `ResourceDetector.cleanRT` (detector.go 1376-1400). -/
def cleanRT {σ : Type} (env : Env σ) (policyID : String) (gvr : GroupVersionResource)
    (cleanupFunc : ObjectMeta → ObjectMeta) (w : World σ) : Outcome × World σ :=
  match env.ByIndexByLabel w.store gvr policyID with
  | (none, st) =>
    (Outcome.returned (some (Err.other ("Informer not found for GVR: " ++ gvr.String))), w.withStore st)
  | (some (.error err), st) => (Outcome.returned (some err), w.withStore st)
  | (some (.ok objs), st) =>
    let claimMetadata : StringMap := [(PropagationPolicyPermanentIDLabel, policyID)]
    match cleanRT.loop env gvr claimMetadata cleanupFunc objs [] (w.withStore st) with
    | (.error reason, w) => (Outcome.panicked reason, w)
    | (.ok errs, w) => (Outcome.returned (NewAggregate errs), w)

/-! ## Policy deletion -/

/-- The selector loop of `HandlePropagationPolicyDeletion` (detector.go 1067-1076). -/
def HandlePropagationPolicyDeletion.selectors {σ : Type} (env : Env σ) (policyID : String) :
    List ResourceSelector → List (Option Err) → World σ →
      Except String (List (Option Err)) × World σ
  | [], errs, w => (.ok errs, w)
  | resource :: rest, errs, w =>
    match env.GetGroupVersionResource w.store (FromAPIVersionAndKind resource.apiVersion resource.kind) with
    | (.error err, st) =>
      HandlePropagationPolicyDeletion.selectors env policyID rest (errs ++ [some err]) (w.withStore st)
    | (.ok gvr, st) =>
      match cleanRT env policyID gvr CleanupPPClaimMetadata (w.withStore st) with
      | (.panicked reason, w) => (.error reason, w)
      | (.returned err, w) =>
        HandlePropagationPolicyDeletion.selectors env policyID rest (errs ++ [err]) w

/-- The binding loop of `HandlePropagationPolicyDeletion` (detector.go 1085-1092). -/
def HandlePropagationPolicyDeletion.bindings {σ : Type} (env : Env σ) (claimMetadata : StringMap) :
    List ResourceBinding → List (Option Err) → World σ →
      Except String (List (Option Err)) × World σ
  | [], errs, w => (.ok errs, w)
  | binding :: rest, errs, w =>
    match CleanupResourceBindingClaimMetadata env binding claimMetadata CleanupPPClaimMetadata w with
    | (.panicked reason, w) => (.error reason, w)
    | (.returned (some err), w) =>
      HandlePropagationPolicyDeletion.bindings env claimMetadata rest (errs ++ [some err]) w
    | (.returned none, w) =>
      HandlePropagationPolicyDeletion.bindings env claimMetadata rest errs w

/-- Go `ResourceDetector.HandlePropagationPolicyDeletion` (detector.go 1064-1094). -/
def HandlePropagationPolicyDeletion {σ : Type} (env : Env σ) (policyID : String)
    (resourceSelector : List ResourceSelector) (w : World σ) : Outcome × World σ :=
  match HandlePropagationPolicyDeletion.selectors env policyID resourceSelector [] w with
  | (.error reason, w) => (Outcome.panicked reason, w)
  | (.ok errs, w) =>
    let claimMetadata : StringMap := [(PropagationPolicyPermanentIDLabel, policyID)]
    match env.GetResourceBindings w.store claimMetadata with
    | (.error err, st) => (Outcome.returned (some err), w.withStore st)
    | (.ok rbs, st) =>
      match HandlePropagationPolicyDeletion.bindings env claimMetadata rbs errs (w.withStore st) with
      | (.error reason, w) => (Outcome.panicked reason, w)
      | (.ok errs, w) => (Outcome.returned (NewAggregate errs), w)

/-- The ClusterResourceBinding loop of `HandleClusterPropagationPolicyDeletion`
(detector.go 1113-1131): a failed template cleanup skips the binding and moves on. -/
def HandleClusterPropagationPolicyDeletion.crbs {σ : Type} (env : Env σ) (labelSet : StringMap) :
    List ClusterResourceBinding → List (Option Err) → World σ →
      Except String (List (Option Err)) × World σ
  | [], errs, w => (.ok errs, w)
  | binding :: rest, errs, w =>
    match CleanupResourceTemplateClaimMetadata env binding.spec.resource labelSet CleanupCPPClaimMetadata w with
    | (.panicked reason, w) => (.error reason, w)
    | (.returned (some _), w) =>
      HandleClusterPropagationPolicyDeletion.crbs env labelSet rest errs w
    | (.returned none, w) =>
      match CleanupClusterResourceBindingClaimMetadata env binding labelSet w with
      | (.panicked reason, w) => (.error reason, w)
      | (.returned (some err), w) =>
        HandleClusterPropagationPolicyDeletion.crbs env labelSet rest (errs ++ [some err]) w
      | (.returned none, w) =>
        HandleClusterPropagationPolicyDeletion.crbs env labelSet rest errs w

/-- The ResourceBinding loop of `HandleClusterPropagationPolicyDeletion`
(detector.go 1140-1158): a failed template cleanup is recorded and skips the binding. -/
def HandleClusterPropagationPolicyDeletion.rbs {σ : Type} (env : Env σ) (labelSet : StringMap) :
    List ResourceBinding → List (Option Err) → World σ →
      Except String (List (Option Err)) × World σ
  | [], errs, w => (.ok errs, w)
  | binding :: rest, errs, w =>
    match CleanupResourceTemplateClaimMetadata env binding.spec.resource labelSet CleanupCPPClaimMetadata w with
    | (.panicked reason, w) => (.error reason, w)
    | (.returned (some err), w) =>
      HandleClusterPropagationPolicyDeletion.rbs env labelSet rest (errs ++ [some err]) w
    | (.returned none, w) =>
      match CleanupResourceBindingClaimMetadata env binding labelSet CleanupCPPClaimMetadata w with
      | (.panicked reason, w) => (.error reason, w)
      | (.returned (some err), w) =>
        HandleClusterPropagationPolicyDeletion.rbs env labelSet rest (errs ++ [some err]) w
      | (.returned none, w) =>
        HandleClusterPropagationPolicyDeletion.rbs env labelSet rest errs w

/-- Go `ResourceDetector.HandleClusterPropagationPolicyDeletion` (detector.go 1101-1161). -/
def HandleClusterPropagationPolicyDeletion {σ : Type} (env : Env σ) (policyID : String)
    (w : World σ) : Outcome × World σ :=
  let errs : List (Option Err) := []
  let labelSet : StringMap := [(ClusterPropagationPolicyPermanentIDLabel, policyID)]
  let afterCRBs : Except String (List (Option Err)) × World σ :=
    match env.GetClusterResourceBindings w.store labelSet with
    | (.error err, st) => (.ok (errs ++ [some err]), w.withStore st)
    | (.ok crbs, st) =>
      HandleClusterPropagationPolicyDeletion.crbs env labelSet crbs errs (w.withStore st)
  match afterCRBs with
  | (.error reason, w) => (Outcome.panicked reason, w)
  | (.ok errs, w) =>
    let afterRBs : Except String (List (Option Err)) × World σ :=
      match env.GetResourceBindings w.store labelSet with
      | (.error err, st) => (.ok (errs ++ [some err]), w.withStore st)
      | (.ok rbs, st) =>
        HandleClusterPropagationPolicyDeletion.rbs env labelSet rbs errs (w.withStore st)
    match afterRBs with
    | (.error reason, w) => (Outcome.panicked reason, w)
    | (.ok errs, w) => (Outcome.returned (NewAggregate errs), w)

/-! ## Policy reconcile -/

/-- Go `Time.IsZero` on `DeletionTimestamp`: nil or the zero time. -/
def DeletionTimestampIsZero (meta : ObjectMeta) : Bool :=
  match meta.deletionTimestamp with
  | none => true
  | some t => t == 0

/-- Go `controllerutil.RemoveFinalizer`: every occurrence is dropped, and the result
tells whether the list changed. -/
def RemoveFinalizer (meta : ObjectMeta) (finalizer : String) : Bool × ObjectMeta :=
  let f := meta.finalizers.filter (fun x => x != finalizer)
  (meta.finalizers.length != f.length, { meta with finalizers := f })

/-- The type of the creation-or-update handlers, which `ReconcilePropagationPolicy`
and `ReconcileClusterPropagationPolicy` call for a policy that is not being deleted. -/
abbrev CreationOrUpdateHandler (σ π : Type) := π → World σ → Outcome × World σ

/-- Go `ResourceDetector.ReconcilePropagationPolicy` (detector.go 953-985). -/
def ReconcilePropagationPolicy {σ : Type} (env : Env σ)
    (HandlePropagationPolicyCreationOrUpdate : CreationOrUpdateHandler σ PropagationPolicy)
    (key : QueueKey) (w : World σ) : Outcome × World σ :=
  match key with
  | .namespacedKey nkey =>
    match env.GetPP w.store nkey.namespace nkey.name with
    | (.error err, st) =>
      if err.IsNotFound then (Outcome.returned none, w.withStore st)
      else (Outcome.returned (some err), w.withStore st)
    | (.ok propagationObject, st) =>
      let w := w.withStore st
      if !DeletionTimestampIsZero propagationObject.meta then
        match HandlePropagationPolicyDeletion env
            (propagationObject.meta.labels.get PropagationPolicyPermanentIDLabel)
            propagationObject.spec.resourceSelectors w with
        | (.panicked reason, w) => (Outcome.panicked reason, w)
        | (.returned (some err), w) => (Outcome.returned (some err), w)
        | (.returned none, w) =>
          let removed := RemoveFinalizer propagationObject.meta PropagationPolicyControllerFinalizer
          if removed.1 then
            let propagationObject := { propagationObject with meta := removed.2 }
            let w := w.emit (Event.UpdatePP propagationObject)
            match env.UpdatePP w.store propagationObject with
            | (.error err, st) => (Outcome.returned (some err), w.withStore st)
            | (.ok _, st) => (Outcome.returned none, w.withStore st)
          else (Outcome.returned none, w)
      else HandlePropagationPolicyCreationOrUpdate propagationObject w
  | _ => (Outcome.returned (some (Err.other "invalid key")), w)

/-- Go `ResourceDetector.ReconcileClusterPropagationPolicy` (detector.go 1024-1057). -/
def ReconcileClusterPropagationPolicy {σ : Type} (env : Env σ)
    (HandleClusterPropagationPolicyCreationOrUpdate : CreationOrUpdateHandler σ ClusterPropagationPolicy)
    (key : QueueKey) (w : World σ) : Outcome × World σ :=
  match key with
  | .namespacedKey nkey =>
    match env.GetCPP w.store nkey.name with
    | (.error err, st) =>
      if err.IsNotFound then (Outcome.returned none, w.withStore st)
      else (Outcome.returned (some err), w.withStore st)
    | (.ok propagationObject, st) =>
      let w := w.withStore st
      if !DeletionTimestampIsZero propagationObject.meta then
        match HandleClusterPropagationPolicyDeletion env
            (propagationObject.meta.labels.get ClusterPropagationPolicyPermanentIDLabel) w with
        | (.panicked reason, w) => (Outcome.panicked reason, w)
        | (.returned (some err), w) => (Outcome.returned (some err), w)
        | (.returned none, w) =>
          let removed := RemoveFinalizer propagationObject.meta ClusterPropagationPolicyControllerFinalizer
          if removed.1 then
            let propagationObject := { propagationObject with meta := removed.2 }
            let w := w.emit (Event.UpdateCPP propagationObject)
            match env.UpdateCPP w.store propagationObject with
            | (.error err, st) => (Outcome.returned (some err), w.withStore st)
            | (.ok _, st) => (Outcome.returned none, w.withStore st)
          else (Outcome.returned none, w)
      else HandleClusterPropagationPolicyCreationOrUpdate propagationObject w
  | _ => (Outcome.returned (some (Err.other "invalid key")), w)

/-! ## A reference environment

A store that holds nothing and accepts every write: reads report NotFound, lists
are empty, writes succeed and echo the object.  Scenarios override single fields. -/

/-- The reference environment; its store state counts nothing and never changes. -/
def quietEnv : Env Unit :=
  { GetGroupVersionResource := fun st gvk =>
      (.ok { group := gvk.group, version := gvk.version, resource := gvk.kind }, st)
    ListerGet := fun st _ key => (.error (Err.notFound key), st)
    ToUnstructured := fun obj =>
      match obj with
      | .unstructured u => .ok u
      | .foreign tag => .error (Err.other tag)
    DynamicGet := fun st _ _ name => (.error (Err.notFound name), st)
    DynamicUpdate := fun st _ _ obj => (.ok obj, st)
    UpdateTemplate := fun st obj => (.ok obj, st)
    GetRB := fun st _ name => (.error (Err.notFound name), st)
    CreateRB := fun st rb => (.ok rb, st)
    UpdateRB := fun st rb => (.ok rb, st)
    GetCRB := fun st name => (.error (Err.notFound name), st)
    CreateCRB := fun st crb => (.ok crb, st)
    UpdateCRB := fun st crb => (.ok crb, st)
    GetResourceBindings := fun st _ => (.ok [], st)
    GetClusterResourceBindings := fun st _ => (.ok [], st)
    GetPP := fun st _ name => (.error (Err.notFound name), st)
    UpdatePP := fun st pp => (.ok pp, st)
    GetCPP := fun st name => (.error (Err.notFound name), st)
    UpdateCPP := fun st cpp => (.ok cpp, st)
    ByIndexByLabel := fun st _ _ => (some (.ok []), st)
    HookEnabledInterpretReplica := fun _ _ => false
    GetReplicas := fun st _ => (.ok (0, none), st)
    PriorityBasedSchedulingEnabled := false
    GetPriorityClassByName := fun st name => (.error (Err.notFound name), st)
    GenerateBindingName := fun kind name => name ++ "-" ++ kind }

/-- The empty world over the reference store. -/
def quietWorld : World Unit := { store := () }

/-! ## Scenarios -/

/-- A Deployment template that no policy has claimed. -/
def webTemplate : Unstructured :=
  { apiVersion := "apps/v1", kind := "Deployment"
    meta := { name := "web", «namespace» := "default", uid := "uid-web", resourceVersion := "1" } }

/-- The key of `webTemplate`. -/
def webKey : ClusterWideKey :=
  { group := "apps", version := "v1", kind := "Deployment", «namespace» := "default", name := "web" }

/-- A namespaced policy with permanent ID `pp-1`. -/
def policyP1 : PropagationPolicy :=
  { meta := { name := "p1", «namespace» := "default", labels := [(PropagationPolicyPermanentIDLabel, "pp-1")] } }

/-- A cluster-scoped policy with permanent ID `cpp-1`. -/
def clusterPolicyC1 : ClusterPropagationPolicy :=
  { meta := { name := "c1", labels := [(ClusterPropagationPolicyPermanentIDLabel, "cpp-1")] } }

/-- The template `web` taken over by another subsystem. -/
def takenOverTemplate : Unstructured :=
  { webTemplate with meta := { webTemplate.meta with labels := [(ResourceTemplateClaimedByLabel, "multiclusterservice")] } }

/-- An informer cache that holds `takenOverTemplate` under every key. -/
def takenOverEnv : Env Unit :=
  { quietEnv with ListerGet := fun st _ _ => (.ok (RuntimeObject.unstructured takenOverTemplate), st) }

/-- A world whose waiting list holds `webKey`. -/
def waitingWorld : World Unit := { store := (), waitingObjects := {webKey} }

/-- A store whose reads fail with a server error that is not NotFound. -/
def brokenReadEnv : Env Unit :=
  { quietEnv with ListerGet := fun st _ _ => (.error (Err.other "internal error"), st) }

/-- A `propagateResource` that does nothing. -/
def idlePropagate : PropagateResource Unit := fun _ _ _ w => (none, w)

/-- The object `ClaimPolicyForObject` sends to the store when it claims: the deep
copy of the template, after the cluster-policy claim was excluded, with the claim
metadata of the policy added. -/
def ClaimPolicyForObject.sent (object : Unstructured) (policy : PropagationPolicy) : Unstructured :=
  let callerObject : Unstructured :=
    if object.meta.labels.length > 0 then { object with meta := (excludeClusterPolicy object.meta).2 }
    else object
  { callerObject with
    meta := AddPPClaimMetadata callerObject.meta
      (policy.meta.labels.get PropagationPolicyPermanentIDLabel) policy.meta }

/-- The object `ClaimClusterPolicyForObject` sends to the store when it claims. -/
def ClaimClusterPolicyForObject.sent (object : Unstructured) (policy : ClusterPropagationPolicy) :
    Unstructured :=
  { object with
    meta := AddCPPClaimMetadata object.meta
      (policy.meta.labels.get ClusterPropagationPolicyPermanentIDLabel) policy.meta }

/-- A resource interpreter whose replica hook is enabled and fails. -/
def failingInterpreterEnv : Env Unit :=
  { quietEnv with
    HookEnabledInterpretReplica := fun _ _ => true
    GetReplicas := fun st _ => (.error (Err.other "interpreter failed"), st) }

/-- The priority-based-scheduling feature switched on. -/
def priorityEnv : Env Unit :=
  { quietEnv with PriorityBasedSchedulingEnabled := true }

/-- The policy `p1` asking for a schedule priority from a source that is not supported. -/
def policyPodPriority : PropagationPolicy :=
  { policyP1 with spec := { policyP1.spec with
      schedulePriority := some { priorityClassSource := PodPriorityClass, priorityClassName := "high" } } }

/-- A cluster-scoped template (a Namespace object) that no policy has claimed. -/
def clusterScopedTemplate : Unstructured :=
  { apiVersion := "v1", kind := "Namespace"
    meta := { name := "team-a", uid := "uid-team-a", resourceVersion := "1" } }

/-- The template `web` carrying the claim of `p1` only. -/
def claimedByP1Template : Unstructured :=
  { webTemplate with meta := { webTemplate.meta with
      labels := [(PropagationPolicyPermanentIDLabel, "pp-1")]
      annotations := [( PropagationPolicyNamespaceAnnotation, "default"),
        ( PropagationPolicyNameAnnotation, "p1")] } }

/-- The template `web` carrying the claim of `c1` only. -/
def claimedByC1Template : Unstructured :=
  { webTemplate with meta := { webTemplate.meta with
      labels := [(ClusterPropagationPolicyPermanentIDLabel, "cpp-1")]
      annotations := [( ClusterPropagationPolicyAnnotation, "c1")] } }

/-- A store that answers a template update with the stored object, whose resource
version it has advanced to `2`. -/
def servingEnv : Env Unit :=
  { quietEnv with
    UpdateTemplate := fun st obj =>
      (.ok { obj with meta := { obj.meta with resourceVersion := "2" } }, st) }

/-- The resource of Deployments, as `quietEnv` maps it. -/
def deploymentsGVR : GroupVersionResource :=
  { group := "apps", version := "v1", resource := "Deployment" }

/-- The claim of `p1` as target claim metadata. -/
def claimOfP1 : StringMap := [(PropagationPolicyPermanentIDLabel, "pp-1")]

/-- A reference to the template `web`. -/
def webRef : ObjectReference :=
  { apiVersion := "apps/v1", kind := "Deployment", «namespace» := "default", name := "web",
    uid := "uid-web", resourceVersion := "1" }

/-- A store that holds `web` claimed by `p1` at a newer resource version, so that
every update of the cached copy is rejected with a conflict. -/
def conflictEnv : Env Unit :=
  { quietEnv with
    DynamicGet := fun st _ _ _ =>
      (.ok { claimedByP1Template with meta := { claimedByP1Template.meta with resourceVersion := "2" } }, st)
    DynamicUpdate := fun st _ _ obj => (.error (Err.conflict obj.meta.name), st) }

/-- A store from which `web` vanishes between the fetch and the update. -/
def vanishingEnv : Env Unit :=
  { quietEnv with
    DynamicGet := fun st _ _ _ => (.ok claimedByP1Template, st)
    DynamicUpdate := fun st _ _ obj => (.error (Err.notFound obj.meta.name), st) }

/-- A store whose update conflicts and whose re-read then finds the template gone. -/
def conflictThenGoneEnv : Env Unit :=
  { quietEnv with
    DynamicUpdate := fun st _ _ obj => (.error (Err.conflict obj.meta.name), st) }

/-- The policy `p1` being deleted: deletion timestamp set, finalizer still present,
selecting Deployments. -/
def deletingP1 : PropagationPolicy :=
  { meta := { policyP1.meta with
      deletionTimestamp := some 100
      finalizers := [PropagationPolicyControllerFinalizer] }
    spec := { resourceSelectors := [{ apiVersion := "apps/v1", kind := "Deployment" }] } }

/-- The store of `conflictEnv`, with `p1` being deleted and the informer index
listing the cached `web` under the permanent ID of `p1`. -/
def deletingP1Env : Env Unit :=
  { conflictEnv with
    GetPP := fun st _ _ => (.ok deletingP1, st)
    ByIndexByLabel := fun st _ _ => (some (.ok [RuntimeObject.unstructured claimedByP1Template]), st) }

/-- The policy `c1` being deleted: deletion timestamp set, finalizer still present. -/
def deletingC1 : ClusterPropagationPolicy :=
  { meta := { clusterPolicyC1.meta with
      deletionTimestamp := some 100
      finalizers := [ClusterPropagationPolicyControllerFinalizer] } }

/-- The claim of `c1` as target claim metadata. -/
def claimOfC1 : StringMap := [(ClusterPropagationPolicyPermanentIDLabel, "cpp-1")]

/-- The ClusterResourceBinding of `team-a`, labeled with the permanent ID of `c1`. -/
def teamBinding : ClusterResourceBinding :=
  { meta := { name := "team-a-namespace", labels := claimOfC1 }
    spec := { resource := { apiVersion := "v1", kind := "Namespace", name := "team-a", uid := "uid-team-a" } } }

/-- The ResourceBinding of `web`, labeled with the permanent ID of `c1`. -/
def webBindingOfC1 : ResourceBinding :=
  { meta := { name := "web-deployment", «namespace» := "default", labels := claimOfC1 }
    spec := { resource := webRef } }

/-- A store in which `c1` is being deleted, one ClusterResourceBinding carries its
permanent ID, and reading any resource template fails with a server error. -/
def deletingC1Env : Env Unit :=
  { quietEnv with
    GetCPP := fun st _ => (.ok deletingC1, st)
    GetClusterResourceBindings := fun st _ => (.ok [teamBinding], st)
    DynamicGet := fun st _ _ _ => (.error (Err.other "server unavailable"), st) }

/-- The same store with the claim of `c1` on a ResourceBinding instead. -/
def deletingC1RBEnv : Env Unit :=
  { quietEnv with
    GetCPP := fun st _ => (.ok deletingC1, st)
    GetResourceBindings := fun st _ => (.ok [webBindingOfC1], st)
    DynamicGet := fun st _ _ _ => (.error (Err.other "server unavailable"), st) }

/-- A creation-or-update handler that does nothing. -/
def idleHandler {π : Type} : CreationOrUpdateHandler Unit π := fun _ w => (Outcome.returned none, w)


/-! ## Policy creation and update -/

/-- What the creation-or-update handlers call outside the sources at hand: helpers
of `pkg/util` and `pkg/util/helper`, detector methods of other files (they act on
the whole detector, so on the world), and the order in which Go ranges over the
waiting-list map. -/
structure HandlerEnv (σ : Type) where
  /-- The order in which `for waitKey := range d.waitingObjects` visits the keys. -/
  rangeWaitingObjects : Finset ClusterWideKey → List ClusterWideKey
  /-- Go `util.ResourceMatches(resource, rs)`. -/
  ResourceMatches : Unstructured → ResourceSelector → Bool
  /-- Go `helper.ConstructClusterWideKey(resource)`. -/
  ConstructClusterWideKey : ObjectReference → Except Err ClusterWideKey
  /-- Go `helper.IsDependentOverridesPresent(d.Client, policy)`. -/
  IsDependentOverridesPresent : σ → PropagationPolicy → Except Err Bool × σ
  /-- Go `helper.IsDependentClusterOverridesPresent(d.Client, policy)`. -/
  IsDependentClusterOverridesPresent : σ → ClusterPropagationPolicy → Except Err Bool × σ
  /-- Go `preemptionEnabled(policy.Spec.Preemption)`. -/
  preemptionEnabled : String → Bool
  /-- Go `d.cleanPPUnmatchedRBs(policyID, namespace, name, selectors)`. -/
  cleanPPUnmatchedRBs : String → String → String → List ResourceSelector → World σ → Outcome × World σ
  /-- Go `d.cleanCPPUnmatchedRBs(policyID, name, selectors)`. -/
  cleanCPPUnmatchedRBs : String → String → List ResourceSelector → World σ → Outcome × World σ
  /-- Go `d.cleanUnmatchedCRBs(policyID, name, selectors)`. -/
  cleanUnmatchedCRBs : String → String → List ResourceSelector → World σ → Outcome × World σ
  /-- Go `d.listPPDerivedRBs(policyID, namespace, name)`. -/
  listPPDerivedRBs : String → String → String → World σ → Except Err (List ResourceBinding) × World σ
  /-- Go `d.listCPPDerivedRBs(policyID, name)`. -/
  listCPPDerivedRBs : String → String → World σ → Except Err (List ResourceBinding) × World σ
  /-- Go `d.listCPPDerivedCRBs(policyID, name)`. -/
  listCPPDerivedCRBs : String → String → World σ → Except Err (List ClusterResourceBinding) × World σ
  /-- Go `d.handlePropagationPolicyPreemption(policy)`. -/
  handlePropagationPolicyPreemption : PropagationPolicy → World σ → Outcome × World σ
  /-- Go `d.handleClusterPropagationPolicyPreemption(policy)`. -/
  handleClusterPropagationPolicyPreemption : ClusterPropagationPolicy → World σ → Outcome × World σ

/-- The loop of `GetMatching` (detector.go 897-911) over the keys in range order:
a key whose object cannot be fetched is skipped, a key whose object matches one of
the selectors is appended. -/
def GetMatching.loop {σ : Type} (env : Env σ) (h : HandlerEnv σ)
    (resourceSelectors : List ResourceSelector) :
    List ClusterWideKey → List ClusterWideKey → σ → List ClusterWideKey × σ
  | [], matchedResult, st => (matchedResult, st)
  | waitKey :: rest, matchedResult, st =>
    match GetUnstructuredObject env waitKey st with
    | (.error _, st) => GetMatching.loop env h resourceSelectors rest matchedResult st
    | (.ok waitObj, st) =>
      if resourceSelectors.any (fun rs => h.ResourceMatches waitObj rs) then
        GetMatching.loop env h resourceSelectors rest (matchedResult ++ [waitKey]) st
      else GetMatching.loop env h resourceSelectors rest matchedResult st

/-- Go `ResourceDetector.GetMatching` (detector.go 891-914). -/
def GetMatching {σ : Type} (env : Env σ) (h : HandlerEnv σ)
    (resourceSelectors : List ResourceSelector) (w : World σ) : List ClusterWideKey × World σ :=
  match GetMatching.loop env h resourceSelectors (h.rangeWaitingObjects w.waitingObjects) [] w.store with
  | (matchedResult, st) => (matchedResult, w.withStore st)

/-- The loops of the creation-or-update handlers over the derived bindings
(detector.go 1185-1191, 1252-1265): the template of each binding is handed to the
template queue as a change made by Karmada; a reference without a key ends the
handler with the error. -/
def requeueDerived {σ : Type} (h : HandlerEnv σ) :
    List ObjectReference → World σ → Option Err × World σ
  | [], w => (none, w)
  | resource :: rest, w =>
    match h.ConstructClusterWideKey resource with
    | .error err => (some err, w)
    | .ok resourceKey =>
      requeueDerived h rest
        (w.emit (Event.ProcessorAdd { clusterWideKey := resourceKey, resourceChangeByKarmada := true }))

/-- The loop of the creation-or-update handlers over the matched waiting keys
(detector.go 1206-1209, 1279-1282). -/
def requeueMatched {σ : Type} : List ClusterWideKey → World σ → World σ
  | [], w => w
  | key :: rest, w =>
    requeueMatched rest
      ((RemoveWaiting key w).emit
        (Event.ProcessorAdd { clusterWideKey := key, resourceChangeByKarmada := true }))

/-- The error returned while the dependent overrides of a policy are not present. -/
def waitingForOverridesErr : Err := Err.other "waiting for dependent overrides"

/-- Go `ResourceDetector.HandlePropagationPolicyCreationOrUpdate` (detector.go 1169-1219). -/
def HandlePropagationPolicyCreationOrUpdate {σ : Type} (env : Env σ) (h : HandlerEnv σ)
    (policy : PropagationPolicy) (w : World σ) : Outcome × World σ :=
  let policyID := policy.meta.labels.get PropagationPolicyPermanentIDLabel
  match h.cleanPPUnmatchedRBs policyID policy.meta.namespace policy.meta.name
      policy.spec.resourceSelectors w with
  | (.panicked reason, w) => (Outcome.panicked reason, w)
  | (.returned (some err), w) => (Outcome.returned (some err), w)
  | (.returned none, w) =>
    match h.listPPDerivedRBs policyID policy.meta.namespace policy.meta.name w with
    | (.error err, w) => (Outcome.returned (some err), w)
    | (.ok resourceBindings, w) =>
      match requeueDerived h (resourceBindings.map (fun rb => rb.spec.resource)) w with
      | (some err, w) => (Outcome.returned (some err), w)
      | (none, w) =>
        match GetMatching env h policy.spec.resourceSelectors w with
        | (matchedKeys, w) =>
          let dependents : Except Err Bool × σ :=
            if matchedKeys.length > 0 then h.IsDependentOverridesPresent w.store policy
            else (.ok true, w.store)
          match dependents with
          | (.error _, st) => (Outcome.returned (some waitingForOverridesErr), w.withStore st)
          | (.ok false, st) => (Outcome.returned (some waitingForOverridesErr), w.withStore st)
          | (.ok true, st) =>
            let w := requeueMatched matchedKeys (w.withStore st)
            if h.preemptionEnabled policy.spec.preemption then
              h.handlePropagationPolicyPreemption policy w
            else (Outcome.returned none, w)

/-- Go `ResourceDetector.HandleClusterPropagationPolicyCreationOrUpdate`
(detector.go 1227-1292). -/
def HandleClusterPropagationPolicyCreationOrUpdate {σ : Type} (env : Env σ) (h : HandlerEnv σ)
    (policy : ClusterPropagationPolicy) (w : World σ) : Outcome × World σ :=
  let policyID := policy.meta.labels.get ClusterPropagationPolicyPermanentIDLabel
  match h.cleanCPPUnmatchedRBs policyID policy.meta.name policy.spec.resourceSelectors w with
  | (.panicked reason, w) => (Outcome.panicked reason, w)
  | (.returned (some err), w) => (Outcome.returned (some err), w)
  | (.returned none, w) =>
    match h.cleanUnmatchedCRBs policyID policy.meta.name policy.spec.resourceSelectors w with
    | (.panicked reason, w) => (Outcome.panicked reason, w)
    | (.returned (some err), w) => (Outcome.returned (some err), w)
    | (.returned none, w) =>
      match h.listCPPDerivedRBs policyID policy.meta.name w with
      | (.error err, w) => (Outcome.returned (some err), w)
      | (.ok resourceBindings, w) =>
        match h.listCPPDerivedCRBs policyID policy.meta.name w with
        | (.error err, w) => (Outcome.returned (some err), w)
        | (.ok clusterResourceBindings, w) =>
          match requeueDerived h (resourceBindings.map (fun rb => rb.spec.resource)) w with
          | (some err, w) => (Outcome.returned (some err), w)
          | (none, w) =>
            match requeueDerived h (clusterResourceBindings.map (fun crb => crb.spec.resource)) w with
            | (some err, w) => (Outcome.returned (some err), w)
            | (none, w) =>
              match GetMatching env h policy.spec.resourceSelectors w with
              | (matchedKeys, w) =>
                let dependents : Except Err Bool × σ :=
                  if matchedKeys.length > 0 then h.IsDependentClusterOverridesPresent w.store policy
                  else (.ok true, w.store)
                match dependents with
                | (.error _, st) => (Outcome.returned (some waitingForOverridesErr), w.withStore st)
                | (.ok false, st) => (Outcome.returned (some waitingForOverridesErr), w.withStore st)
                | (.ok true, st) =>
                  let w := requeueMatched matchedKeys (w.withStore st)
                  if h.preemptionEnabled policy.spec.preemption then
                    h.handleClusterPropagationPolicyPreemption policy w
                  else (Outcome.returned none, w)

/-! ## Scenarios of policy creation -/

/-- The reference handler environment: the waiting list is ranged over in the order
of `known`, a selector matches on apiVersion and kind, dependent overrides are
present, preemption is off, nothing is derived from the policy yet and the cleanups
of unmatched bindings find nothing to do. -/
def quietHandlerEnv (known : List ClusterWideKey) : HandlerEnv Unit :=
  { rangeWaitingObjects := fun s => known.dedup.filter (fun k => decide (k ∈ s))
    ResourceMatches := fun obj rs => obj.apiVersion == rs.apiVersion && obj.kind == rs.kind
    ConstructClusterWideKey := fun resource =>
      .ok { group := (FromAPIVersionAndKind resource.apiVersion resource.kind).group
            version := (FromAPIVersionAndKind resource.apiVersion resource.kind).version
            kind := resource.kind
            «namespace» := resource.namespace
            name := resource.name }
    IsDependentOverridesPresent := fun st _ => (.ok true, st)
    IsDependentClusterOverridesPresent := fun st _ => (.ok true, st)
    preemptionEnabled := fun _ => false
    cleanPPUnmatchedRBs := fun _ _ _ _ w => (Outcome.returned none, w)
    cleanCPPUnmatchedRBs := fun _ _ _ w => (Outcome.returned none, w)
    cleanUnmatchedCRBs := fun _ _ _ w => (Outcome.returned none, w)
    listPPDerivedRBs := fun _ _ _ w => (.ok [], w)
    listCPPDerivedRBs := fun _ _ w => (.ok [], w)
    listCPPDerivedCRBs := fun _ _ w => (.ok [], w)
    handlePropagationPolicyPreemption := fun _ w => (Outcome.returned none, w)
    handleClusterPropagationPolicyPreemption := fun _ w => (Outcome.returned none, w) }

/-- An informer cache that holds the unclaimed `web` under every key. -/
def cachedWebEnv : Env Unit :=
  { quietEnv with ListerGet := fun st _ _ => (.ok (RuntimeObject.unstructured webTemplate), st) }

/-- The policy `p1` selecting Deployments, with the given activation preference. -/
def deploymentPolicy (activationPreference : String) : PropagationPolicy :=
  { policyP1 with spec :=
      { resourceSelectors := [{ apiVersion := "apps/v1", kind := "Deployment" }]
        activationPreference := activationPreference } }

/-- The policy `c1` selecting Deployments, with the given activation preference. -/
def deploymentClusterPolicy (activationPreference : String) : ClusterPropagationPolicy :=
  { clusterPolicyC1 with spec :=
      { resourceSelectors := [{ apiVersion := "apps/v1", kind := "Deployment" }]
        activationPreference := activationPreference } }

/-- A store that rejects every template update with a server error. -/
def rejectingEnv : Env Unit :=
  { quietEnv with UpdateTemplate := fun st _ => (.error (Err.other "admission denied"), st) }

/-- The cluster-scoped template `team-a` carrying the claim of `c1`. -/
def claimedTeamTemplate : Unstructured :=
  { clusterScopedTemplate with meta := { clusterScopedTemplate.meta with
      labels := claimOfC1
      annotations := [( ClusterPropagationPolicyAnnotation, "c1")] } }

/-- The ClusterResourceBinding of `team-a` as an earlier sync under `c1` left it and
the scheduler completed it: dependencies not propagated, the old placement, one
target cluster, dispatching suspended. -/
def storedTeamBinding : ClusterResourceBinding :=
  { meta :=
      { name := "team-a-Namespace"
        labels := claimOfC1
        annotations := [( ClusterPropagationPolicyAnnotation, "c1")]
        finalizers := [ClusterResourceBindingControllerFinalizer]
        ownerReferences := [NewControllerRef clusterScopedTemplate clusterScopedTemplate.GroupVersionKind] }
    spec :=
      { resource :=
          { apiVersion := "v1", kind := "Namespace", name := "team-a", uid := "uid-team-a",
            resourceVersion := "1" }
        propagateDeps := false
        placement := some { raw := "old" }
        clusters := [{ name := "member1", replicas := 1 }]
        suspension := some { suspension := { dispatching := some true } } } }

/-- The ResourceBinding of `web` as an earlier sync under `p1` left it and the
scheduler completed it: dependencies not propagated, the old placement, one target
cluster, dispatching suspended. -/
def storedWebBinding : ResourceBinding :=
  { meta :=
      { name := "web-Deployment"
        «namespace» := "default"
        labels := claimOfP1
        annotations := [( PropagationPolicyNamespaceAnnotation, "default"),
          ( PropagationPolicyNameAnnotation, "p1")]
        finalizers := [BindingControllerFinalizer]
        ownerReferences := [NewControllerRef webTemplate webTemplate.GroupVersionKind] }
    spec :=
      { resource := webRef
        propagateDeps := false
        placement := some { raw := "old" }
        clusters := [{ name := "member1", replicas := 1 }]
        suspension := some { suspension := { dispatching := some true } } } }

/-- A store that holds `storedTeamBinding` and `storedWebBinding`. -/
def boundEnv : Env Unit :=
  { quietEnv with
    GetCRB := fun st _ => (.ok storedTeamBinding, st)
    GetRB := fun st _ _ => (.ok storedWebBinding, st) }

/-- The spec of a policy after an edit: dependencies are to be propagated, the
placement is new, no suspension is declared. -/
def editedSpec : PropagationSpec :=
  { propagateDeps := true, placement := { raw := "new" } }

/-- The policy `p1` after the edit. -/
def editedP1 : PropagationPolicy := { policyP1 with spec := editedSpec }

/-- The policy `c1` after the edit. -/
def editedC1 : ClusterPropagationPolicy := { clusterPolicyC1 with spec := editedSpec }

/-- How the Apply functions turn the end of the retried create-or-update into their
result: the returned error and the captured `operationResult`. -/
def applyResult {σ β : Type} (r : Outcome × (β × OperationResult) × World σ) :
    (Outcome × OperationResult) × World σ :=
  ((r.1, r.2.1.2), r.2.2)


/-- The binding of `web` as `storedWebBinding`, but controlled by another object
with the same name: the owner reference carries a different UID. -/
def foreignOwnedWebBinding : ResourceBinding :=
  { storedWebBinding with meta := { storedWebBinding.meta with
      ownerReferences :=
        [{ NewControllerRef webTemplate webTemplate.GroupVersionKind with uid := "uid-previous-web" }] } }

/-- A store that holds `foreignOwnedWebBinding`. -/
def foreignOwnedEnv : Env Unit :=
  { quietEnv with GetRB := fun st _ _ => (.ok foreignOwnedWebBinding, st) }


/-! ## What the update mutations leave behind -/

/-- The metadata the mutation of `ApplyPolicy` leaves when the owner check passes. -/
def ApplyPolicy.mutatedMeta (desired m : ObjectMeta) : ObjectMeta :=
  let m := { m with annotations := DedupeAndMergeAnnotations m.annotations desired.annotations }
  let m := { m with labels := DedupeAndMergeLabels m.labels desired.labels }
  let m := { m with finalizers := DedupeAndMergeFinalizers m.finalizers desired.finalizers }
  let m := { m with ownerReferences := desired.ownerReferences }
  (excludeClusterPolicy m).2

/-- The metadata the mutations of `ApplyClusterPolicy` leave when the owner check
passes. -/
def ApplyClusterPolicy.mutatedMeta (desired m : ObjectMeta) : ObjectMeta :=
  let m := { m with annotations := DedupeAndMergeAnnotations m.annotations desired.annotations }
  let m := { m with labels := DedupeAndMergeLabels m.labels desired.labels }
  let m := { m with finalizers := DedupeAndMergeFinalizers m.finalizers desired.finalizers }
  { m with ownerReferences := desired.ownerReferences }

/-- The spec the mutations on a ResourceBinding leave when the owner check passes. -/
def mutatedSpecRB (desired s : ResourceBindingSpec) : ResourceBindingSpec :=
  { s with
    resource := desired.resource
    replicaRequirements := desired.replicaRequirements
    replicas := desired.replicas
    propagateDeps := desired.propagateDeps
    schedulerName := desired.schedulerName
    placement := desired.placement
    failover := desired.failover
    conflictResolution := desired.conflictResolution
    preserveResourcesOnDeletion := desired.preserveResourcesOnDeletion
    schedulePriority := desired.schedulePriority
    suspension := mutateSuspension desired.suspension s.suspension }

/-- The spec the mutation on a ClusterResourceBinding leaves when the owner check
passes. -/
def mutatedSpecCRB (desired s : ResourceBindingSpec) : ResourceBindingSpec :=
  { s with
    resource := desired.resource
    replicaRequirements := desired.replicaRequirements
    replicas := desired.replicas
    schedulerName := desired.schedulerName
    placement := desired.placement
    failover := desired.failover
    conflictResolution := desired.conflictResolution
    preserveResourcesOnDeletion := desired.preserveResourcesOnDeletion
    suspension := mutateSuspension desired.suspension s.suspension }

/-- The metadata both builders start from, before the claim metadata is added. -/
def builtMeta {σ : Type} (env : Env σ) (object : Unstructured) (finalizer : String)
    (ns : String) : ObjectMeta :=
  { name := env.GenerateBindingName object.kind object.meta.name
    «namespace» := ns
    ownerReferences := [NewControllerRef object object.GroupVersionKind]
    finalizers := [finalizer] }

/-- The binding of `web` exactly as a sync of `web` under the edited policy `p1`
leaves it. -/
def convergedWebBinding : ResourceBinding :=
  { storedWebBinding with
    spec := { storedWebBinding.spec with
      placement := some { raw := "new" }, propagateDeps := true } }

/-- A store that holds `convergedWebBinding`. -/
def convergedEnv : Env Unit :=
  { quietEnv with GetRB := fun st _ _ => (.ok convergedWebBinding, st) }


/-- The reference to a template that a binding carries in `Spec.Resource`: the
template's apiVersion, kind, namespace, name, UID and resource version. -/
def templateReference (object : Unstructured) : ObjectReference :=
  { apiVersion := object.apiVersion
    kind := object.kind
    «namespace» := object.meta.namespace
    name := object.meta.name
    uid := object.meta.uid
    resourceVersion := object.meta.resourceVersion }


/-- The value a merged map holds under `k`: the desired value when the desired map
has the key, the existing value otherwise. -/
def mergedLookup (existing desired : StringMap) (k : String) : Option String :=
  match desired.lookup k with
  | some v => some v
  | none => existing.lookup k

/-- The event is an update of a resource template through the dynamic client. -/
def Event.isDynamicUpdate : Event → Bool
  | .DynamicUpdate _ _ _ => true
  | _ => false

/-- The desired binding of `web` under `p1`, as `BuildResourceBinding` returns it in
the reference environment. -/
def desiredWebBinding : ResourceBinding :=
  match (BuildResourceBinding quietEnv webTemplate policyP1.spec "pp-1" policyP1.meta
      AddPPClaimMetadata ()).1 with
  | .ok binding => binding
  | .error _ => {}

/-- An existing binding of `web` that carries the claim of the cluster-scoped policy
`c1` and a label of its own. -/
def clusterClaimedWebBinding : ResourceBinding :=
  { meta :=
      { name := "web-Deployment", «namespace» := "default"
        labels := claimOfC1 ++ [("team", "a")]
        annotations := [( ClusterPropagationPolicyAnnotation, "c1")] }
    spec := { resource := webRef } }


/-! ## Looking for the matching policy -/

/-- What `LookForMatchedPolicy` and `LookForMatchedClusterPolicy` call outside the
sources at hand: the typed client's `List` of policies and the two selections of
the highest-priority policy (declared in another file of the package). -/
structure MatchEnv (σ : Type) where
  /-- Go `d.Client.List(ctx, policyList, &client.ListOptions{Namespace: ns})`. -/
  ListPP : σ → String → Except Err (List PropagationPolicy) × σ
  /-- Go `d.Client.List(ctx, policyList, &client.ListOptions{})` for cluster policies. -/
  ListCPP : σ → Except Err (List ClusterPropagationPolicy) × σ
  /-- Go `getHighestPriorityPropagationPolicy(policies, object, objectKey)`. -/
  getHighestPriorityPropagationPolicy :
    List PropagationPolicy → Unstructured → ClusterWideKey → Option PropagationPolicy
  /-- Go `getHighestPriorityClusterPropagationPolicy(policies, object, objectKey)`. -/
  getHighestPriorityClusterPropagationPolicy :
    List ClusterPropagationPolicy → Unstructured → ClusterWideKey → Option ClusterPropagationPolicy

/-- The loop of `LookForMatchedPolicy` (detector.go 396-402): a policy with a
non-zero deletion timestamp is skipped, every other one is appended.  Each
iteration has its own `policy` variable (the typed rate limiter of the package
needs Go 1.22 or later), so `&policy` is the listed item. -/
def LookForMatchedPolicy.loop :
    List PropagationPolicy → List PropagationPolicy → List PropagationPolicy
  | [], policies => policies
  | policy :: rest, policies =>
    if !DeletionTimestampIsZero policy.meta then LookForMatchedPolicy.loop rest policies
    else LookForMatchedPolicy.loop rest (policies ++ [policy])

/-- Go `ResourceDetector.LookForMatchedPolicy` (detector.go 376-405). -/
def LookForMatchedPolicy {σ : Type} (m : MatchEnv σ) (object : Unstructured)
    (objectKey : ClusterWideKey) (st : σ) : Except Err (Option PropagationPolicy) × σ :=
  if objectKey.namespace.length = 0 then (.ok none, st)
  else
    match m.ListPP st objectKey.namespace with
    | (.error err, st) => (.error err, st)
    | (.ok items, st) =>
      if items.length = 0 then (.ok none, st)
      else
        let policies := LookForMatchedPolicy.loop items []
        (.ok (m.getHighestPriorityPropagationPolicy policies object objectKey), st)

/-- The loop of `LookForMatchedClusterPolicy` (detector.go 424-430). -/
def LookForMatchedClusterPolicy.loop :
    List ClusterPropagationPolicy → List ClusterPropagationPolicy → List ClusterPropagationPolicy
  | [], policies => policies
  | policy :: rest, policies =>
    if !DeletionTimestampIsZero policy.meta then LookForMatchedClusterPolicy.loop rest policies
    else LookForMatchedClusterPolicy.loop rest (policies ++ [policy])

/-- Go `ResourceDetector.LookForMatchedClusterPolicy` (detector.go 408-433). -/
def LookForMatchedClusterPolicy {σ : Type} (m : MatchEnv σ) (object : Unstructured)
    (objectKey : ClusterWideKey) (st : σ) : Except Err (Option ClusterPropagationPolicy) × σ :=
  match m.ListCPP st with
  | (.error err, st) => (.error err, st)
  | (.ok items, st) =>
    if items.length = 0 then (.ok none, st)
    else
      let policies := LookForMatchedClusterPolicy.loop items []
      (.ok (m.getHighestPriorityClusterPropagationPolicy policies object objectKey), st)

/-- The policy `p1` with a deletion timestamp. -/
def dyingP1 : PropagationPolicy :=
  { policyP1 with meta := { policyP1.meta with deletionTimestamp := some 100 } }

/-- A second live policy of the namespace. -/
def policyP2 : PropagationPolicy :=
  { meta := { name := "p2", «namespace» := "default", labels := [(PropagationPolicyPermanentIDLabel, "pp-2")] } }

/-- A store listing `dyingP1` and `policyP2`, with a selection that takes the first
policy it is handed. -/
def listingEnv : MatchEnv Unit :=
  { ListPP := fun st _ => (.ok [dyingP1, policyP2], st)
    ListCPP := fun st => (.ok [clusterPolicyC1], st)
    getHighestPriorityPropagationPolicy := fun policies _ _ => policies.head?
    getHighestPriorityClusterPropagationPolicy := fun policies _ _ => policies.head? }

/-! ## Event filtering -/

/-- Go `*regexp.Regexp`, by what the detector asks of it. -/
structure Regexp where
  MatchString : String → Bool

/-- What `EventFilter` reads outside the sources at hand: the key function, the
reserved-namespace test of `pkg/util/names`, and the configured patterns. -/
structure FilterEnv where
  /-- Go `ClusterWideKeyFunc(obj)`. -/
  ClusterWideKeyFunc : RuntimeObject → Except Err QueueKey
  /-- Go `names.IsReservedNamespace(namespace)`. -/
  IsReservedNamespace : String → Bool
  /-- Go `d.SkippedPropagatingNamespaces`. -/
  SkippedPropagatingNamespaces : List Regexp

/-- The loop of `EventFilter` over the skipped-namespace patterns (detector.go
308-312): true when some pattern matches the namespace. -/
def EventFilter.skipped : List Regexp → String → Bool
  | [], _ => false
  | nsRegexp :: rest, ns =>
    if nsRegexp.MatchString ns then true else EventFilter.skipped rest ns

/-- Go `ResourceDetector.EventFilter` (detector.go 292-324). -/
def EventFilter (d : FilterEnv) (obj : RuntimeObject) : Bool :=
  match d.ClusterWideKeyFunc obj with
  | .error _ => false
  | .ok key =>
    match key with
    | .clusterWideKey clusterWideKey =>
      if d.IsReservedNamespace clusterWideKey.namespace then false
      else if EventFilter.skipped d.SkippedPropagatingNamespaces clusterWideKey.namespace then false
      else if clusterWideKey.namespace == "kube-system" && clusterWideKey.kind == "ConfigMap" &&
          clusterWideKey.name == "extension-apiserver-authentication" then false
      else true
    | _ => false


/-- The reference handler environment with the dependent overrides of every policy
absent. -/
def overridesAbsentEnv (known : List ClusterWideKey) : HandlerEnv Unit :=
  { quietHandlerEnv known with
    IsDependentOverridesPresent := fun st _ => (.ok false, st)
    IsDependentClusterOverridesPresent := fun st _ => (.ok false, st) }


/-- An index that lists, under every value, one entry that is not an unstructured
object, ahead of the cached `web` claimed by `p1`. -/
def foreignEntryEnv : Env Unit :=
  { quietEnv with
    ByIndexByLabel := fun st _ _ =>
      (some (.ok [RuntimeObject.foreign "typed object",
        RuntimeObject.unstructured claimedByP1Template]), st) }


/-! ## The quota scheduling controller

`pkg/controllers/federatedresourcequota/federated_resource_quota_scheduling_controller.go`. -/

/-- Go `controllerruntime.Request`: the namespaced name of the reconciled object. -/
structure Request where
  «namespace» : String := ""
  name : String := ""
  deriving DecidableEq, Repr, Inhabited

/-- Go `controllerruntime.Result`. -/
structure Result where
  requeue : Bool := false
  requeueAfter : Nat := 0
  deriving DecidableEq, Repr, Inhabited

/-- Go `FederatedResourceQuotaSchedulingController`: the embedded client, by the two
calls `Reconcile` makes. -/
structure FederatedResourceQuotaSchedulingController (σ : Type) where
  /-- Go `c.Client.List(ctx, resourcebindings, &client.ListOptions{Namespace: ns})`. -/
  ClientList : σ → String → Except Err (List ResourceBinding) × σ
  /-- Go `c.Client.Update(ctx, &rb)`. -/
  ClientUpdate : σ → ResourceBinding → Option Err × σ

/-- The loop of `Reconcile` (lines 64-71): a binding whose suspension is set and
whose `SchedulingDueToQuota` points to true has that pointer set to nil and is
updated; an update error is appended to `errs` and the loop goes on. -/
def FederatedResourceQuotaSchedulingController.Reconcile.loop {σ : Type}
    (c : FederatedResourceQuotaSchedulingController σ) :
    List ResourceBinding → List (Option Err) → World σ → List (Option Err) × World σ
  | [], errs, w => (errs, w)
  | rb :: rest, errs, w =>
    match rb.spec.suspension with
    | none => FederatedResourceQuotaSchedulingController.Reconcile.loop c rest errs w
    | some suspension =>
      match suspension.schedulingDueToQuota with
      | some true =>
        let rb : ResourceBinding :=
          { rb with spec := { rb.spec with
              suspension := some { suspension with schedulingDueToQuota := none } } }
        let w := w.emit (Event.UpdateRB rb)
        match c.ClientUpdate w.store rb with
        | (some err, st) =>
          FederatedResourceQuotaSchedulingController.Reconcile.loop c rest (errs ++ [some err])
            (w.withStore st)
        | (none, st) =>
          FederatedResourceQuotaSchedulingController.Reconcile.loop c rest errs (w.withStore st)
      | _ => FederatedResourceQuotaSchedulingController.Reconcile.loop c rest errs w

/-- Go `FederatedResourceQuotaSchedulingController.Reconcile` (lines 55-74). -/
def FederatedResourceQuotaSchedulingController.Reconcile {σ : Type}
    (c : FederatedResourceQuotaSchedulingController σ) (req : Request) (w : World σ) :
    (Result × Option Err) × World σ :=
  match c.ClientList w.store req.namespace with
  | (.error err, st) => (({}, some err), w.withStore st)
  | (.ok items, st) =>
    match FederatedResourceQuotaSchedulingController.Reconcile.loop c items [] (w.withStore st) with
    | (errs, w) => (({}, NewAggregate errs), w)

/-- The binding is blocked by quota: its suspension is set and the flag points to true. -/
def quotaFlagged (rb : ResourceBinding) : Bool :=
  match rb.spec.suspension with
  | some suspension => suspension.schedulingDueToQuota == some true
  | none => false

/-- The binding with the quota flag unset, everything else as it was. -/
def quotaCleared (rb : ResourceBinding) : ResourceBinding :=
  match rb.spec.suspension with
  | some suspension =>
    { rb with spec := { rb.spec with
        suspension := some { suspension with schedulingDueToQuota := none } } }
  | none => rb

/-- Updating every binding of a list in turn, whatever the earlier updates
returned: the outcome of each update, and the store after the last. -/
def updateEach {σ : Type} (c : FederatedResourceQuotaSchedulingController σ) :
    List ResourceBinding → σ → List (Option Err) × σ
  | [], st => ([], st)
  | rb :: rest, st =>
    ((c.ClientUpdate st rb).1 :: (updateEach c rest (c.ClientUpdate st rb).2).1,
      (updateEach c rest (c.ClientUpdate st rb).2).2)

/-- Three bindings of namespace `default`: blocked by quota, flag false, no suspension. -/
def blockedBinding : ResourceBinding :=
  { meta := { name := "web-deployment", «namespace» := "default" }
    spec := { resource := webRef
              suspension := some { scheduling := some true, schedulingDueToQuota := some true } } }

def unblockedBinding : ResourceBinding :=
  { meta := { name := "api-deployment", «namespace» := "default" }
    spec := { suspension := some { schedulingDueToQuota := some false } } }

def plainBinding : ResourceBinding :=
  { meta := { name := "db-deployment", «namespace» := "default" } }

/-- A store that lists the three bindings and accepts every update. -/
def quotaEnv : FederatedResourceQuotaSchedulingController Unit :=
  { ClientList := fun st _ => (.ok [plainBinding, blockedBinding, unblockedBinding], st)
    ClientUpdate := fun st _ => (none, st) }


/-! ## gRPC servers

`pkg/util/grpcconnection/config.go` and `pkg/util/grpc/grpc.go`: how the server side
of a gRPC connection is configured. -/

/-- Go `tls.Certificate`, by the files it was loaded from. -/
structure Certificate where
  certFile : String := ""
  keyFile : String := ""
  deriving DecidableEq, Repr, Inhabited

/-- Go `x509.CertPool`: the certificates added so far; `x509.NewCertPool()` is `{}`. -/
structure CertPool where
  certs : List String := []
  deriving DecidableEq, Repr, Inhabited

/-- Go `tls.ClientAuthType`; the zero value is `NoClientCert`. -/
inductive ClientAuthType where
  | NoClientCert
  | RequestClientCert
  | RequireAnyClientCert
  | VerifyClientCertIfGiven
  | RequireAndVerifyClientCert
  deriving DecidableEq, Repr, Inhabited

/-- Go `dynamiccertificates.DynamicCertKeyPairContent`: the provider of the serving
certificate, by the files it watches. -/
structure DynamicCertKeyPairContent where
  certFile : String := ""
  keyFile : String := ""
  deriving DecidableEq, Repr, Inhabited

/-- Go `tls.VersionTLS13`. -/
def VersionTLS13 : Nat := 0x0304

/-- Go `tls.Config`, the fields the two constructors set.  `getCertificate` stands for
the closure that asks the provider for the current serving certificate. -/
structure TLSConfig where
  certificates : List Certificate := []
  getCertificate : Option DynamicCertKeyPairContent := none
  minVersion : Nat := 0
  clientAuth : ClientAuthType := ClientAuthType.NoClientCert
  clientCAs : Option CertPool := none
  deriving DecidableEq, Repr, Inhabited

/-- Go `*grpc.Server` as built by `grpc.NewServer(opts...)`: the transport
credentials given through `grpc.Creds(grpccredentials.NewTLS(config))`, or none. -/
structure GrpcServer where
  creds : Option TLSConfig := none
  deriving DecidableEq, Repr, Inhabited

/-- The files and parsers the constructors go through. -/
structure FileEnv where
  /-- Go `tls.LoadX509KeyPair(certFile, keyFile)`. -/
  LoadX509KeyPair : String → String → Except Err Certificate
  /-- Go `os.ReadFile(name)`. -/
  ReadFile : String → Except Err String
  /-- Go `certPool.AppendCertsFromPEM(ca)`: whether a certificate was parsed, and the
  pool afterwards. -/
  AppendCertsFromPEM : CertPool → String → Bool × CertPool

/-- Go `grpcconnection.ServerConfig`. -/
structure ServerConfig where
  ServerPort : Int := 0
  InsecureSkipClientVerify : Bool := false
  ClientAuthCAFile : String := ""
  CertFile : String := ""
  KeyFile : String := ""
  DynamicEnabled : Bool := false
  deriving DecidableEq, Repr, Inhabited

/-- Go `ServerConfig.newServer` (grpcconnection/config.go 67-98). -/
def ServerConfig.newServer (fs : FileEnv) (s : ServerConfig)
    (servingCertProvider : Option DynamicCertKeyPairContent) : Except Err GrpcServer :=
  match servingCertProvider with
  | none => .ok {}
  | some provider =>
    let config : TLSConfig := { minVersion := VersionTLS13 }
    let config := { config with getCertificate := some provider }
    if s.ClientAuthCAFile != "" then
      let certPool : CertPool := {}
      match fs.ReadFile s.ClientAuthCAFile with
      | .error err => .error err
      | .ok ca =>
        match fs.AppendCertsFromPEM certPool ca with
        | (false, _) => .error (Err.other "failed to append ca into certPool")
        | (true, certPool) =>
          let config := { config with clientCAs := some certPool }
          let config :=
            if !s.InsecureSkipClientVerify then
              { config with clientAuth := ClientAuthType.RequireAndVerifyClientCert }
            else config
          .ok { creds := some config }
    else .ok { creds := some config }

/-- Go `grpc.Config` (util/grpc/grpc.go 32-52). -/
structure Config where
  InsecureSkipVerify : Bool := false
  ClientCertAuth : Bool := false
  ServerPort : Int := 0
  TrustedCAFile : String := ""
  CertFile : String := ""
  KeyFile : String := ""
  deriving DecidableEq, Repr, Inhabited

/-- Go `Config.NewServer` (util/grpc/grpc.go 57-84). -/
def Config.NewServer (fs : FileEnv) (g : Config) : Except Err GrpcServer :=
  if g.CertFile == "" || g.KeyFile == "" then .ok {}
  else
    match fs.LoadX509KeyPair g.CertFile g.KeyFile with
    | .error err => .error err
    | .ok cert =>
      let config : TLSConfig := { certificates := [cert], minVersion := VersionTLS13 }
      if g.ClientCertAuth then
        let config := { config with clientAuth := ClientAuthType.RequireAndVerifyClientCert }
        let certPool : CertPool := {}
        match fs.ReadFile g.TrustedCAFile with
        | .error err => .error err
        | .ok ca =>
          match fs.AppendCertsFromPEM certPool ca with
          | (false, _) => .error (Err.other "failed to append ca into certPool")
          | (true, certPool) => .ok { creds := some { config with clientCAs := some certPool } }
      else .ok { creds := some config }

/-- The server asks every connecting client for a certificate and verifies it
against a pool of trusted authorities. -/
def GrpcServer.verifiesClients (srv : GrpcServer) : Bool :=
  match srv.creds with
  | none => false
  | some config =>
    config.clientAuth == ClientAuthType.RequireAndVerifyClientCert && config.clientCAs.isSome

/-- A disk on which every named file exists and parses; reading the empty name fails. -/
def diskEnv : FileEnv :=
  { LoadX509KeyPair := fun certFile keyFile => .ok { certFile := certFile, keyFile := keyFile }
    ReadFile := fun name => if name = "" then .error (Err.other "open : no such file") else .ok name
    AppendCertsFromPEM := fun pool ca => (true, { certs := pool.certs ++ [ca] }) }

/-- The provider of the serving certificate `tls.crt` / `tls.key`. -/
def servingProvider : DynamicCertKeyPairContent := { certFile := "tls.crt", keyFile := "tls.key" }

/-- A server configuration with a serving certificate and no client CA file. -/
def noClientCAConfig : ServerConfig :=
  { InsecureSkipClientVerify := false, CertFile := "tls.crt", KeyFile := "tls.key" }

/-- A server configuration with a serving certificate and the client CA file `ca.pem`. -/
def mutualTLSServerConfig : ServerConfig :=
  { InsecureSkipClientVerify := false, ClientAuthCAFile := "ca.pem"
    CertFile := "tls.crt", KeyFile := "tls.key" }

/-- The TLS configuration built for `servingProvider` without client authentication. -/
def serverOnlyTLS : TLSConfig :=
  { getCertificate := some servingProvider, minVersion := VersionTLS13 }

/-- The TLS configuration built for `servingProvider` with clients verified against
`ca.pem`. -/
def mutualTLS : TLSConfig :=
  { getCertificate := some servingProvider, minVersion := VersionTLS13
    clientAuth := ClientAuthType.RequireAndVerifyClientCert
    clientCAs := some { certs := ["ca.pem"] } }

/-- A server configuration with the client CA file `ca.pem` and no serving certificate. -/
def noServingCertConfig : ServerConfig :=
  { InsecureSkipClientVerify := false, ClientAuthCAFile := "ca.pem" }


/-! ## Formatting an error message

`fmt.Errorf` as `pkg/karmadactl/util/validate.go` calls it: with a format and no
operand.  The format is a list of characters; flags, digits, brackets and the
percent sign are single bytes, so the positions of Go's byte scan are the positions
here. -/

/-- Go `fmt.parsenum` on the part of the format between `start` and `end`: the
number read, whether a digit was read, and what is left of the part.  A number over
a million ends the scan at `end` with no number. -/
def parsenum : List Char → Nat → Bool → Nat × Bool × List Char
  | [], num, isnum => (num, isnum, [])
  | c :: rest, num, isnum =>
    if c.isDigit then
      if num > 1000000 then (0, false, [])
      else parsenum rest (num * 10 + (c.toNat - '0'.toNat)) true
    else (num, isnum, c :: rest)

/-- Go `fmt.parseArgNumber` on a format that starts with `[`: the index, the number
of characters to skip, and whether the bracket held a number.  (With fewer than
three bytes there is no closing bracket after a character, so counting characters
gives the same answer as counting bytes.) -/
def parseArgNumber (format : List Char) : Int × Nat × Bool :=
  if format.length < 3 then (0, 1, false)
  else
    let inner := (format.drop 1).takeWhile (fun c => c != ']')
    if inner.length = (format.drop 1).length then (0, 1, false)
    else
      match parsenum inner 0 false with
      | (width, ok, rest) =>
        if !ok || !rest.isEmpty then (0, inner.length + 2, false)
        else ((width : Int) - 1, inner.length + 2, true)

/-- Go `pp.argNumber` with no operand: an index in brackets is skipped and is never
good; the result is the rest of the format, whether an index was found, and
`p.goodArgNum`. -/
def argNumber (format : List Char) (goodArgNum : Bool) : List Char × Bool × Bool :=
  match format with
  | '[' :: _ =>
    match parseArgNumber format with
    | (_, wid, ok) => (format.drop wid, ok, false)
  | _ => (format, false, goodArgNum)

/-- One verb of Go `pp.doPrintf` with no operand, from the character after the
percent sign: what is written and the rest of the format.  A format that ends
inside the verb writes `%!(NOVERB)`; `%%` writes a percent sign; any other verb has
no operand to print and writes `%!v(MISSING)`, or `%!v(BADINDEX)` after a bad
argument index. -/
def doPrintf.verb (format : List Char) : List Char × List Char :=
  let format := format.dropWhile (fun c => c == '#' || c == '0' || c == '+' || c == '-' || c == ' ')
  match argNumber format true with
  | (format, afterIndex, goodArgNum) =>
    let width : List Char × List Char × Bool × Bool :=
      match format with
      | '*' :: rest => ("%!(BADWIDTH)".data, rest, false, goodArgNum)
      | _ =>
        match parsenum format 0 false with
        | (_, widPresent, rest) => ([], rest, afterIndex, goodArgNum && !(afterIndex && widPresent))
    match width with
    | (out1, format, afterIndex, goodArgNum) =>
      let precision : List Char × List Char × Bool × Bool :=
        match format with
        | '.' :: rest =>
          match argNumber rest (goodArgNum && !afterIndex) with
          | (rest, afterIndex, goodArgNum) =>
            match rest with
            | '*' :: rest => ("%!(BADPREC)".data, rest, false, goodArgNum)
            | _ =>
              match parsenum rest 0 false with
              | (_, _, rest) => ([], rest, afterIndex, goodArgNum)
        | _ => ([], format, afterIndex, goodArgNum)
      match precision with
      | (out2, format, afterIndex, goodArgNum) =>
        let last : List Char × Bool :=
          if !afterIndex then
            match argNumber format goodArgNum with
            | (format, _, goodArgNum) => (format, goodArgNum)
          else (format, goodArgNum)
        match last with
        | ([], _) => (out1 ++ out2 ++ "%!(NOVERB)".data, [])
        | (verb :: rest, goodArgNum) =>
          if verb == '%' then (out1 ++ out2 ++ ['%'], rest)
          else if !goodArgNum then (out1 ++ out2 ++ "%!".data ++ [verb] ++ "(BADINDEX)".data, rest)
          else (out1 ++ out2 ++ "%!".data ++ [verb] ++ "(MISSING)".data, rest)

/-- The format loop of Go `pp.doPrintf` with no operand: the text up to the next
percent sign is copied, then one verb is processed.  Each round consumes a percent
sign, so as many rounds as the format has characters, and one more, finish it. -/
def doPrintf.loop : Nat → List Char → List Char → List Char
  | 0, _, buf => buf
  | fuel + 1, format, buf =>
    let buf := buf ++ format.takeWhile (fun c => c != '%')
    match format.dropWhile (fun c => c != '%') with
    | [] => buf
    | _ :: rest =>
      match doPrintf.verb rest with
      | (out, rest) => doPrintf.loop fuel rest (buf ++ out)

/-- Go `fmt.Errorf(format)` with no operand: the error whose message is the
formatted text. -/
def Errorf (format : String) : Err :=
  Err.other (String.mk (doPrintf.loop (format.length + 1) format.data []))

/-- Go `strings.Join(elems, sep)`. -/
def Join : List String → String → String
  | [], _ => ""
  | [a], _ => a
  | a :: b :: rest, sep => a ++ sep ++ Join (b :: rest) sep

/-! ## Checking cluster names — `pkg/karmadactl/util/validate.go` -/

/-- Go `v1alpha1.Cluster`, by its name. -/
structure Cluster where
  name : String
  deriving DecidableEq, Repr, Inhabited

/-- Go `v1alpha1.ClusterList`. -/
structure ClusterList where
  items : List Cluster := []
  deriving DecidableEq, Repr, Inhabited

/-- The first loop of `VerifyWhetherClustersExist` (lines 14-16). -/
def VerifyWhetherClustersExist.names : List Cluster → Finset String → Finset String
  | [], clusterSet => clusterSet
  | cluster :: rest, clusterSet =>
    VerifyWhetherClustersExist.names rest (insert cluster.name clusterSet)

/-- The second loop of `VerifyWhetherClustersExist` (lines 19-23). -/
def VerifyWhetherClustersExist.missing (clusterSet : Finset String) :
    List String → List String → List String
  | [], noneExistClusters => noneExistClusters
  | cluster :: rest, noneExistClusters =>
    if !decide (cluster ∈ clusterSet) then
      VerifyWhetherClustersExist.missing clusterSet rest (noneExistClusters ++ [cluster])
    else VerifyWhetherClustersExist.missing clusterSet rest noneExistClusters

/-- Go `VerifyWhetherClustersExist` (validate.go 12-29). -/
def VerifyWhetherClustersExist (input : List String) (clusters : ClusterList) : Option Err :=
  let clusterSet := VerifyWhetherClustersExist.names clusters.items ∅
  let noneExistClusters := VerifyWhetherClustersExist.missing clusterSet input []
  if noneExistClusters.length ≠ 0 then
    some (Errorf ("clusters don't exist: " ++ Join noneExistClusters ","))
  else none

/-- The message of an error made by `fmt.Errorf`. -/
def Err.message : Err → String
  | .other msg => msg
  | .notFound msg => msg
  | .conflict msg => msg
  | .aggregate _ => ""

/-- A control plane with the clusters `member1` and `member2`. -/
def twoMembers : ClusterList := { items := [{ name := "member1" }, { name := "member2" }] }


/-! ## The claim step and the update mutation for any `excludeClusterPolicy`

`excludeClusterPolicy` is called by `ClaimPolicyForObject` (detector.go 717) and by
the update mutation of `ApplyPolicy` (detector.go 501); its body is not part of the
sources at hand.  Here the two callers are written with the helper as a parameter:
it may change the metadata it is given and reports a Bool. -/

/-- Go `ResourceDetector.ClaimPolicyForObject` (detector.go 711-725) with
`excludeClusterPolicy` as the parameter `exclude`.  The first component of the
result is the caller's object after the call. -/
def ClaimPolicyForObjectWith {σ : Type} (exclude : ObjectMeta → Bool × ObjectMeta) (env : Env σ)
    (object : Unstructured) (policy : PropagationPolicy) (w : World σ) :
    (Unstructured × String × Option Err) × World σ :=
  let policyID := policy.meta.labels.get PropagationPolicyPermanentIDLabel
  let objLabels := object.meta.labels
  let excluded := exclude object.meta
  let callerObject : Unstructured :=
    if objLabels.length > 0 then { object with meta := excluded.2 } else object
  if objLabels.length > 0 ∧ (!excluded.1 && objLabels.get PropagationPolicyPermanentIDLabel == policyID) = true then
    ((callerObject, policyID, none), w)
  else
    let object := callerObject
    let object := { object with meta := AddPPClaimMetadata object.meta policyID policy.meta }
    let w := w.emit (Event.UpdateTemplate object)
    match env.UpdateTemplate w.store object with
    | (.ok _, st) => ((callerObject, policyID, none), w.withStore st)
    | (.error err, st) => ((callerObject, policyID, some err), w.withStore st)

/-- The mutation closure of `ApplyPolicy` (detector.go 472-503) with
`excludeClusterPolicy` as the parameter `exclude`: `bindingCopy` holds the stored
binding, `binding` the desired one, `objectUID` is `object.GetUID()`. -/
def ApplyPolicy.mutateFnWith (exclude : ObjectMeta → Bool × ObjectMeta) (objectUID : String)
    (binding bindingCopy : ResourceBinding) : Option Err × ResourceBinding :=
  match (GetControllerOfNoCopy bindingCopy.meta).filter (fun ownerRef => ownerRef.uid != objectUID) with
  | some _ => (some differentOwnerErr, bindingCopy)
  | none =>
    let m := bindingCopy.meta
    let m := { m with annotations := DedupeAndMergeAnnotations m.annotations binding.meta.annotations }
    let m := { m with labels := DedupeAndMergeLabels m.labels binding.meta.labels }
    let m := { m with finalizers := DedupeAndMergeFinalizers m.finalizers binding.meta.finalizers }
    let m := { m with ownerReferences := binding.meta.ownerReferences }
    let s := bindingCopy.spec
    let s := { s with resource := binding.spec.resource }
    let s := { s with replicaRequirements := binding.spec.replicaRequirements }
    let s := { s with replicas := binding.spec.replicas }
    let s := { s with propagateDeps := binding.spec.propagateDeps }
    let s := { s with schedulerName := binding.spec.schedulerName }
    let s := { s with placement := binding.spec.placement }
    let s := { s with failover := binding.spec.failover }
    let s := { s with conflictResolution := binding.spec.conflictResolution }
    let s := { s with preserveResourcesOnDeletion := binding.spec.preserveResourcesOnDeletion }
    let s := { s with schedulePriority := binding.spec.schedulePriority }
    let s := { s with suspension := mutateSuspension binding.spec.suspension s.suspension }
    let m := (exclude m).2
    (none, { meta := m, spec := s })

/-- An `excludeClusterPolicy` that finds no cluster-policy claim and changes nothing. -/
def excludeNothing (obj : ObjectMeta) : Bool × ObjectMeta := (false, obj)

end Karmada

namespace Karmada

/-! ## Theorems -/

/-- C1: the update mutations of `ApplyPolicy` and `ApplyClusterPolicy`, for a
ResourceBinding as for a ClusterResourceBinding, leave `Spec.Clusters` equal to the
existing binding's value, for every existing and every desired binding. -/
theorem mutation_preserves_clusters (objectUID : String) (binding bindingCopy : ResourceBinding)
    (clusterBinding clusterBindingCopy : ClusterResourceBinding) :
    (ApplyPolicy.mutateFn objectUID binding bindingCopy).2.spec.clusters = bindingCopy.spec.clusters ∧
    (ApplyClusterPolicy.mutateFnRB objectUID binding bindingCopy).2.spec.clusters
      = bindingCopy.spec.clusters ∧
    (ApplyClusterPolicy.mutateFnCRB objectUID clusterBinding clusterBindingCopy).2.spec.clusters
      = clusterBindingCopy.spec.clusters := by
  refine ⟨?_, ?_, ?_⟩
  · unfold ApplyPolicy.mutateFn
    split <;> rfl
  · unfold ApplyClusterPolicy.mutateFnRB
    split <;> rfl
  · unfold ApplyClusterPolicy.mutateFnCRB
    split <;> rfl

/-- C8: a template whose claimed-by label is non-empty is never propagated:
`Reconcile` returns nil with the waiting list minus the key and no write issued,
whatever `propagateResource` is, so it is not called. -/
theorem reconcile_skips_foreign_claim {σ : Type} (env : Env σ)
    (propagateResource : PropagateResource σ) (key : ClusterWideKeyWithConfig) (w : World σ)
    (object : Unstructured) (st : σ)
    (hget : GetUnstructuredObject env key.clusterWideKey w.store = (.ok object, st))
    (hclaimed : GetLabelValue object.meta.labels ResourceTemplateClaimedByLabel ≠ "") :
    Reconcile env propagateResource (QueueKey.clusterWideKeyWithConfig key) w
        = (none, RemoveWaiting key.clusterWideKey (w.withStore st)) ∧
    (Reconcile env propagateResource (QueueKey.clusterWideKeyWithConfig key) w).2.log = w.log ∧
    isWaiting (Reconcile env propagateResource (QueueKey.clusterWideKeyWithConfig key) w).2
        key.clusterWideKey = false := by
  have h : Reconcile env propagateResource (QueueKey.clusterWideKeyWithConfig key) w
      = (none, RemoveWaiting key.clusterWideKey (w.withStore st)) := by
    simp [Reconcile, hget, hclaimed]
  refine ⟨h, ?_, ?_⟩
  · rw [h]; rfl
  · rw [h]; simp [isWaiting, RemoveWaiting]

/-- Witness of C8 on a template taken over by another subsystem, with its key in
the waiting list. -/
theorem reconcile_skips_foreign_claim_witness :
    Reconcile takenOverEnv idlePropagate
        (QueueKey.clusterWideKeyWithConfig ⟨webKey, false⟩) waitingWorld
        = (none, RemoveWaiting webKey (waitingWorld.withStore ())) ∧
    (Reconcile takenOverEnv idlePropagate
        (QueueKey.clusterWideKeyWithConfig ⟨webKey, false⟩) waitingWorld).2.log = waitingWorld.log ∧
    isWaiting (Reconcile takenOverEnv idlePropagate
        (QueueKey.clusterWideKeyWithConfig ⟨webKey, false⟩) waitingWorld).2 webKey = false :=
  reconcile_skips_foreign_claim takenOverEnv idlePropagate ⟨webKey, false⟩ waitingWorld
    takenOverTemplate () rfl (by decide)

/-- C9: when fetching the template fails with NotFound, `Reconcile` returns nil and
the waiting list loses exactly the key; with any other fetch error it returns that
error and the waiting list is unchanged.  No write is issued either way. -/
theorem reconcile_fetch_error {σ : Type} (env : Env σ)
    (propagateResource : PropagateResource σ) (key : ClusterWideKeyWithConfig) (w : World σ)
    (err : Err) (st : σ)
    (hget : GetUnstructuredObject env key.clusterWideKey w.store = (.error err, st)) :
    (err.IsNotFound = true →
      (Reconcile env propagateResource (QueueKey.clusterWideKeyWithConfig key) w).1 = none ∧
      (Reconcile env propagateResource (QueueKey.clusterWideKeyWithConfig key) w).2.waitingObjects
        = w.waitingObjects.erase key.clusterWideKey ∧
      key.clusterWideKey ∉
        (Reconcile env propagateResource (QueueKey.clusterWideKeyWithConfig key) w).2.waitingObjects ∧
      (∀ other : ClusterWideKey, other ≠ key.clusterWideKey →
        (other ∈ (Reconcile env propagateResource
            (QueueKey.clusterWideKeyWithConfig key) w).2.waitingObjects ↔ other ∈ w.waitingObjects))) ∧
    (err.IsNotFound = false →
      (Reconcile env propagateResource (QueueKey.clusterWideKeyWithConfig key) w).1 = some err ∧
      (Reconcile env propagateResource (QueueKey.clusterWideKeyWithConfig key) w).2.waitingObjects
        = w.waitingObjects) ∧
    (Reconcile env propagateResource (QueueKey.clusterWideKeyWithConfig key) w).2.log = w.log := by
  refine ⟨?_, ?_, ?_⟩
  · intro hnf
    have h : Reconcile env propagateResource (QueueKey.clusterWideKeyWithConfig key) w
        = (none, RemoveWaiting key.clusterWideKey (w.withStore st)) := by
      simp [Reconcile, hget, hnf]
    rw [h]
    refine ⟨rfl, rfl, ?_, ?_⟩
    · simp [RemoveWaiting]
    · intro other hne
      simp [RemoveWaiting, World.withStore, hne]
  · intro hnf
    have h : Reconcile env propagateResource (QueueKey.clusterWideKeyWithConfig key) w
        = (some err, w.withStore st) := by
      simp [Reconcile, hget, hnf]
    rw [h]
    exact ⟨rfl, rfl⟩
  · cases hnf : err.IsNotFound <;> simp [Reconcile, hget, hnf, RemoveWaiting, World.withStore]

/-- Witness of C9 on a template that is gone from the cache and from the store. -/
theorem reconcile_fetch_error_witness :
    (Reconcile quietEnv idlePropagate
        (QueueKey.clusterWideKeyWithConfig ⟨webKey, false⟩) waitingWorld).1 = none ∧
    webKey ∉ (Reconcile quietEnv idlePropagate
        (QueueKey.clusterWideKeyWithConfig ⟨webKey, false⟩) waitingWorld).2.waitingObjects :=
  have h := (reconcile_fetch_error quietEnv idlePropagate ⟨webKey, false⟩ waitingWorld
    (Err.notFound "web") () rfl).1 rfl
  ⟨h.1, h.2.2.1⟩


/-! ### Claiming -/

theorem StringMap.get_set_self (m : StringMap) (k v : String) :
    (StringMap.set m k v).get k = v := by
  induction m with
  | nil => simp [StringMap.set, StringMap.get, List.lookup]
  | cons kv rest ih =>
    obtain ⟨k0, v0⟩ := kv
    by_cases h : k0 = k
    · simp [StringMap.set, h, StringMap.get, List.lookup]
    · have h2 : (k == k0) = false := by
        simp; exact fun h3 => h h3.symm
      simp only [StringMap.set, h, if_false, StringMap.get, List.lookup, h2]
      exact ih

theorem ClaimPolicyForObject_sent_label (object : Unstructured) (policy : PropagationPolicy) :
    (ClaimPolicyForObject.sent object policy).meta.labels.get PropagationPolicyPermanentIDLabel
      = policy.meta.labels.get PropagationPolicyPermanentIDLabel := by
  simp [ClaimPolicyForObject.sent, AddPPClaimMetadata, StringMap.get_set_self]

theorem ClaimClusterPolicyForObject_sent_label (object : Unstructured)
    (policy : ClusterPropagationPolicy) :
    (ClaimClusterPolicyForObject.sent object policy).meta.labels.get
        ClusterPropagationPolicyPermanentIDLabel
      = policy.meta.labels.get ClusterPropagationPolicyPermanentIDLabel := by
  simp [ClaimClusterPolicyForObject.sent, AddCPPClaimMetadata, StringMap.get_set_self]

/-- A call of `ClaimPolicyForObject` issues no write, or exactly one template update. -/
theorem ClaimPolicyForObject_log {σ : Type} (env : Env σ) (object : Unstructured)
    (policy : PropagationPolicy) (w : World σ) :
    (ClaimPolicyForObject env object policy w).2.log = w.log ∨
    (ClaimPolicyForObject env object policy w).2.log
      = w.log ++ [Event.UpdateTemplate (ClaimPolicyForObject.sent object policy)] := by
  unfold ClaimPolicyForObject
  simp only
  split
  · left; rfl
  · right
    split <;> rfl

/-- A call of `ClaimClusterPolicyForObject` issues no write, or exactly one template update. -/
theorem ClaimClusterPolicyForObject_log {σ : Type} (env : Env σ) (object : Unstructured)
    (policy : ClusterPropagationPolicy) (w : World σ) :
    (ClaimClusterPolicyForObject env object policy w).2.log = w.log ∨
    (ClaimClusterPolicyForObject env object policy w).2.log
      = w.log ++ [Event.UpdateTemplate (ClaimClusterPolicyForObject.sent object policy)] := by
  unfold ClaimClusterPolicyForObject
  simp only
  split
  · left; rfl
  · right
    split <;> rfl

theorem ApplyPolicy_build_error {σ : Type} (env : Env σ) (object : Unstructured) (flag : Bool)
    (policy : PropagationPolicy) (w : World σ) (err : Err) (st : σ)
    (hclaim : (ClaimPolicyForObject env object policy w).1.2.2 = none)
    (hlazy : (flag && IsLazyActivationEnabled policy.spec.activationPreference) = false)
    (hbuild : BuildResourceBinding env (ClaimPolicyForObject env object policy w).1.1 policy.spec
        (ClaimPolicyForObject env object policy w).1.2.1 policy.meta AddPPClaimMetadata
        (ClaimPolicyForObject env object policy w).2.store = (.error err, st)) :
    ApplyPolicy env object flag policy w
      = ((Outcome.returned (some err), OperationResult.None),
          (ClaimPolicyForObject env object policy w).2.withStore st) := by
  unfold ApplyPolicy
  generalize ClaimPolicyForObject env object policy w = c at *
  obtain ⟨⟨o, id, e⟩, w1⟩ := c
  simp only at hclaim hbuild
  subst hclaim
  simp [hlazy, hbuild]

theorem ApplyClusterPolicy_build_error_rb {σ : Type} (env : Env σ) (object : Unstructured)
    (flag : Bool) (policy : ClusterPropagationPolicy) (w : World σ) (err : Err) (st : σ)
    (hclaim : (ClaimClusterPolicyForObject env object policy w).1.2.2 = none)
    (hlazy : (flag && IsLazyActivationEnabled policy.spec.activationPreference) = false)
    (hns : (ClaimClusterPolicyForObject env object policy w).1.1.meta.namespace ≠ "")
    (hbuild : BuildResourceBinding env (ClaimClusterPolicyForObject env object policy w).1.1
        policy.spec (ClaimClusterPolicyForObject env object policy w).1.2.1 policy.meta
        AddCPPClaimMetadata (ClaimClusterPolicyForObject env object policy w).2.store
          = (.error err, st)) :
    ApplyClusterPolicy env object flag policy w
      = ((Outcome.returned (some err), OperationResult.None),
          (ClaimClusterPolicyForObject env object policy w).2.withStore st) := by
  unfold ApplyClusterPolicy
  generalize ClaimClusterPolicyForObject env object policy w = c at *
  obtain ⟨⟨o, id, e⟩, w1⟩ := c
  simp only at hclaim hbuild hns
  subst hclaim
  simp [hlazy, hbuild, hns]

theorem ApplyClusterPolicy_build_error_crb {σ : Type} (env : Env σ) (object : Unstructured)
    (flag : Bool) (policy : ClusterPropagationPolicy) (w : World σ) (err : Err) (st : σ)
    (hclaim : (ClaimClusterPolicyForObject env object policy w).1.2.2 = none)
    (hlazy : (flag && IsLazyActivationEnabled policy.spec.activationPreference) = false)
    (hns : (ClaimClusterPolicyForObject env object policy w).1.1.meta.namespace = "")
    (hbuild : BuildClusterResourceBinding env (ClaimClusterPolicyForObject env object policy w).1.1
        policy.spec (ClaimClusterPolicyForObject env object policy w).1.2.1 policy.meta
        (ClaimClusterPolicyForObject env object policy w).2.store = (.error err, st)) :
    ApplyClusterPolicy env object flag policy w
      = ((Outcome.returned (some err), OperationResult.None),
          (ClaimClusterPolicyForObject env object policy w).2.withStore st) := by
  unfold ApplyClusterPolicy
  generalize ClaimClusterPolicyForObject env object policy w = c at *
  obtain ⟨⟨o, id, e⟩, w1⟩ := c
  simp only at hclaim hbuild hns
  subst hclaim
  simp [hlazy, hbuild, hns]

/-- C2, as stated, fails: with an unclaimed template and a failing replica
interpreter (or an unsupported priority-class source) the build fails, `ApplyPolicy`
returns an error, and the one write it has issued is the template update that
carries the policy's claim label. -/
theorem build_failure_claim_already_written :
    (BuildResourceBinding failingInterpreterEnv webTemplate policyP1.spec "pp-1" policyP1.meta
        AddPPClaimMetadata ()).1.toOption = none ∧
    (ApplyPolicy failingInterpreterEnv webTemplate false policyP1 quietWorld).1.1.isError = true ∧
    (ApplyPolicy failingInterpreterEnv webTemplate false policyP1 quietWorld).2.log
      = [Event.UpdateTemplate (ClaimPolicyForObject.sent webTemplate policyP1)] ∧
    (ClaimPolicyForObject.sent webTemplate policyP1).meta.labels.get
        PropagationPolicyPermanentIDLabel = "pp-1" ∧
    (BuildResourceBinding priorityEnv webTemplate policyPodPriority.spec "pp-1"
        policyPodPriority.meta AddPPClaimMetadata ()).1.toOption = none ∧
    (ApplyPolicy priorityEnv webTemplate false policyPodPriority quietWorld).1.1.isError = true ∧
    (ApplyPolicy priorityEnv webTemplate false policyPodPriority quietWorld).2.log
      = [Event.UpdateTemplate (ClaimPolicyForObject.sent webTemplate policyPodPriority)] ∧
    (ApplyClusterPolicy failingInterpreterEnv clusterScopedTemplate false clusterPolicyC1
        quietWorld).1.1.isError = true ∧
    (ApplyClusterPolicy failingInterpreterEnv clusterScopedTemplate false clusterPolicyC1
        quietWorld).2.log
      = [Event.UpdateTemplate (ClaimClusterPolicyForObject.sent clusterScopedTemplate clusterPolicyC1)] := by
  decide

/-- C2, amended: the claim is written before the binding is built.  When the claim
step returned nil, the lazy skip is not taken and building the binding fails,
`ApplyPolicy` / `ApplyClusterPolicy` return the build error with operation result
none, the world is the one the claim step left (only the store state moved on), so
no binding is created or updated; the writes of the whole call are none, or the one
template update of the claim step, and the object of that update carries the
policy's permanent-ID label with the policy's ID. -/
theorem build_failure_after_claim :
    (∀ (σ : Type) (env : Env σ) (object : Unstructured) (flag : Bool) (policy : PropagationPolicy)
        (w : World σ) (err : Err) (st : σ),
      (ClaimPolicyForObject env object policy w).1.2.2 = none →
      (flag && IsLazyActivationEnabled policy.spec.activationPreference) = false →
      BuildResourceBinding env (ClaimPolicyForObject env object policy w).1.1 policy.spec
        (ClaimPolicyForObject env object policy w).1.2.1 policy.meta AddPPClaimMetadata
        (ClaimPolicyForObject env object policy w).2.store = (.error err, st) →
      ApplyPolicy env object flag policy w
        = ((Outcome.returned (some err), OperationResult.None),
            (ClaimPolicyForObject env object policy w).2.withStore st) ∧
      ((ApplyPolicy env object flag policy w).2.log = w.log ∨
        (ApplyPolicy env object flag policy w).2.log
          = w.log ++ [Event.UpdateTemplate (ClaimPolicyForObject.sent object policy)]) ∧
      (ClaimPolicyForObject.sent object policy).meta.labels.get PropagationPolicyPermanentIDLabel
        = policy.meta.labels.get PropagationPolicyPermanentIDLabel) ∧
    (∀ (σ : Type) (env : Env σ) (object : Unstructured) (flag : Bool)
        (policy : ClusterPropagationPolicy) (w : World σ) (err : Err) (st : σ),
      (ClaimClusterPolicyForObject env object policy w).1.2.2 = none →
      (flag && IsLazyActivationEnabled policy.spec.activationPreference) = false →
      (ClaimClusterPolicyForObject env object policy w).1.1.meta.namespace ≠ "" →
      BuildResourceBinding env (ClaimClusterPolicyForObject env object policy w).1.1 policy.spec
        (ClaimClusterPolicyForObject env object policy w).1.2.1 policy.meta AddCPPClaimMetadata
        (ClaimClusterPolicyForObject env object policy w).2.store = (.error err, st) →
      ApplyClusterPolicy env object flag policy w
        = ((Outcome.returned (some err), OperationResult.None),
            (ClaimClusterPolicyForObject env object policy w).2.withStore st) ∧
      ((ApplyClusterPolicy env object flag policy w).2.log = w.log ∨
        (ApplyClusterPolicy env object flag policy w).2.log
          = w.log ++ [Event.UpdateTemplate (ClaimClusterPolicyForObject.sent object policy)]) ∧
      (ClaimClusterPolicyForObject.sent object policy).meta.labels.get
          ClusterPropagationPolicyPermanentIDLabel
        = policy.meta.labels.get ClusterPropagationPolicyPermanentIDLabel) ∧
    (∀ (σ : Type) (env : Env σ) (object : Unstructured) (flag : Bool)
        (policy : ClusterPropagationPolicy) (w : World σ) (err : Err) (st : σ),
      (ClaimClusterPolicyForObject env object policy w).1.2.2 = none →
      (flag && IsLazyActivationEnabled policy.spec.activationPreference) = false →
      (ClaimClusterPolicyForObject env object policy w).1.1.meta.namespace = "" →
      BuildClusterResourceBinding env (ClaimClusterPolicyForObject env object policy w).1.1
        policy.spec (ClaimClusterPolicyForObject env object policy w).1.2.1 policy.meta
        (ClaimClusterPolicyForObject env object policy w).2.store = (.error err, st) →
      ApplyClusterPolicy env object flag policy w
        = ((Outcome.returned (some err), OperationResult.None),
            (ClaimClusterPolicyForObject env object policy w).2.withStore st) ∧
      ((ApplyClusterPolicy env object flag policy w).2.log = w.log ∨
        (ApplyClusterPolicy env object flag policy w).2.log
          = w.log ++ [Event.UpdateTemplate (ClaimClusterPolicyForObject.sent object policy)]) ∧
      (ClaimClusterPolicyForObject.sent object policy).meta.labels.get
          ClusterPropagationPolicyPermanentIDLabel
        = policy.meta.labels.get ClusterPropagationPolicyPermanentIDLabel) := by
  refine ⟨?_, ?_, ?_⟩
  · intro σ env object flag policy w err st hclaim hlazy hbuild
    have h := ApplyPolicy_build_error env object flag policy w err st hclaim hlazy hbuild
    refine ⟨h, ?_, ClaimPolicyForObject_sent_label object policy⟩
    rw [h]
    exact ClaimPolicyForObject_log env object policy w
  · intro σ env object flag policy w err st hclaim hlazy hns hbuild
    have h := ApplyClusterPolicy_build_error_rb env object flag policy w err st hclaim hlazy hns hbuild
    refine ⟨h, ?_, ClaimClusterPolicyForObject_sent_label object policy⟩
    rw [h]
    exact ClaimClusterPolicyForObject_log env object policy w
  · intro σ env object flag policy w err st hclaim hlazy hns hbuild
    have h := ApplyClusterPolicy_build_error_crb env object flag policy w err st hclaim hlazy hns hbuild
    refine ⟨h, ?_, ClaimClusterPolicyForObject_sent_label object policy⟩
    rw [h]
    exact ClaimClusterPolicyForObject_log env object policy w

/-- Witness of the amended C2: an unclaimed template, a failing replica interpreter. -/
theorem build_failure_after_claim_witness :
    ApplyPolicy failingInterpreterEnv webTemplate false policyP1 quietWorld
      = ((Outcome.returned (some (Err.other "interpreter failed")), OperationResult.None),
          (ClaimPolicyForObject failingInterpreterEnv webTemplate policyP1 quietWorld).2.withStore ()) ∧
    ((ApplyPolicy failingInterpreterEnv webTemplate false policyP1 quietWorld).2.log = quietWorld.log ∨
      (ApplyPolicy failingInterpreterEnv webTemplate false policyP1 quietWorld).2.log
        = quietWorld.log ++ [Event.UpdateTemplate (ClaimPolicyForObject.sent webTemplate policyP1)]) ∧
    (ClaimPolicyForObject.sent webTemplate policyP1).meta.labels.get
        PropagationPolicyPermanentIDLabel
      = policyP1.meta.labels.get PropagationPolicyPermanentIDLabel :=
  build_failure_after_claim.1 Unit failingInterpreterEnv webTemplate false policyP1 quietWorld
    (Err.other "interpreter failed") () rfl rfl rfl


/-- `ClaimPolicyForObject` is `ClaimPolicyForObjectWith` at the assumed body of
`excludeClusterPolicy`. -/
theorem ClaimPolicyForObject_eq_with {σ : Type} (env : Env σ) (object : Unstructured)
    (policy : PropagationPolicy) (w : World σ) :
    ClaimPolicyForObject env object policy w
      = ClaimPolicyForObjectWith excludeClusterPolicy env object policy w := rfl

/-- Whatever the body of `excludeClusterPolicy`: when it reports a cluster-policy
claim on a template that has labels, `ClaimPolicyForObject` issues the template
update, whatever the labels of the template. -/
theorem ClaimPolicyForObjectWith_writes_when_excluded {σ : Type}
    (exclude : ObjectMeta → Bool × ObjectMeta) (env : Env σ) (object : Unstructured)
    (policy : PropagationPolicy) (w : World σ) (hex : (exclude object.meta).1 = true) :
    ∃ sent, (ClaimPolicyForObjectWith exclude env object policy w).2.log
      = w.log ++ [Event.UpdateTemplate sent] := by
  unfold ClaimPolicyForObjectWith
  simp only [hex, Bool.not_true, Bool.false_and, Bool.false_eq_true, and_false, if_false]
  split <;> exact ⟨_, rfl⟩

/-- C6: claiming is a no-op (no write, the world untouched, the policy ID returned
with a nil error) for every template that carries the policy's permanent-ID label
with the policy's ID: for `ClaimClusterPolicyForObject` as it stands, and for
`ClaimPolicyForObject` whatever the body of `excludeClusterPolicy`, as long as that
helper, whose body is not part of the sources at hand, reports no cluster-policy
claim on the template. -/
theorem claim_noop_when_already_claimed {σ : Type} (exclude : ObjectMeta → Bool × ObjectMeta)
    (env : Env σ) (w : World σ)
    (object : Unstructured) (policy : PropagationPolicy)
    (clusterObject : Unstructured) (clusterPolicy : ClusterPropagationPolicy)
    (hpp : object.meta.labels.lookup PropagationPolicyPermanentIDLabel
      = some (policy.meta.labels.get PropagationPolicyPermanentIDLabel))
    (hnocpp : (exclude object.meta).1 = false)
    (hcpp : clusterObject.meta.labels.lookup ClusterPropagationPolicyPermanentIDLabel
      = some (clusterPolicy.meta.labels.get ClusterPropagationPolicyPermanentIDLabel)) :
    (ClaimPolicyForObjectWith exclude env object policy w).2 = w ∧
    (ClaimPolicyForObjectWith exclude env object policy w).1.2
      = (policy.meta.labels.get PropagationPolicyPermanentIDLabel, none) ∧
    ClaimClusterPolicyForObject env clusterObject clusterPolicy w
      = ((clusterObject, clusterPolicy.meta.labels.get ClusterPropagationPolicyPermanentIDLabel,
          none), w) := by
  have hlen : object.meta.labels.length > 0 := by
    cases hl : object.meta.labels with
    | nil => rw [hl] at hpp; simp [List.lookup] at hpp
    | cons a l => simp
  have hget : object.meta.labels.get PropagationPolicyPermanentIDLabel
      = policy.meta.labels.get PropagationPolicyPermanentIDLabel := by
    simp [StringMap.get, hpp]
  have hgetc : GetLabelValue clusterObject.meta.labels ClusterPropagationPolicyPermanentIDLabel
      = clusterPolicy.meta.labels.get ClusterPropagationPolicyPermanentIDLabel := by
    simp [GetLabelValue, StringMap.get, hcpp]
  refine ⟨?_, ?_, ?_⟩
  · simp [ClaimPolicyForObjectWith, hlen, hnocpp, hget]
  · simp [ClaimPolicyForObjectWith, hlen, hnocpp, hget]
  · simp [ClaimClusterPolicyForObject, hgetc]

/-- Witness of C6: `web` claimed by `p1`, the helper finding no cluster-policy
claim, and `web` claimed by `c1`. -/
theorem claim_noop_when_already_claimed_witness :
    (ClaimPolicyForObjectWith excludeNothing quietEnv claimedByP1Template policyP1 quietWorld).2
      = quietWorld ∧
    (ClaimPolicyForObjectWith excludeNothing quietEnv claimedByP1Template policyP1 quietWorld).1.2
      = (policyP1.meta.labels.get PropagationPolicyPermanentIDLabel, none) ∧
    ClaimClusterPolicyForObject quietEnv claimedByC1Template clusterPolicyC1 quietWorld
      = ((claimedByC1Template,
          clusterPolicyC1.meta.labels.get ClusterPropagationPolicyPermanentIDLabel, none),
          quietWorld) :=
  claim_noop_when_already_claimed excludeNothing quietEnv quietWorld claimedByP1Template policyP1
    claimedByC1Template clusterPolicyC1 (by decide) rfl (by decide)

/-- C7 on the code: `ClaimPolicyForObject` claims an unclaimed template, the store
accepts the update and returns the object at resource version 2, the call returns
nil, and the caller's object is the template as passed in: no permanent-ID label,
resource version 1.  The binding `ApplyPolicy` then creates refers to resource
version 1.  `ClaimClusterPolicyForObject` on the same input hands back the claimed
object at resource version 2. -/
theorem claim_leaves_caller_object_stale :
    (ClaimPolicyForObject servingEnv webTemplate policyP1 quietWorld).1.2.2.isNone = true ∧
    (ClaimPolicyForObject servingEnv webTemplate policyP1 quietWorld).2.log
      = [Event.UpdateTemplate claimedByP1Template] ∧
    (ClaimPolicyForObject servingEnv webTemplate policyP1 quietWorld).1.1 = webTemplate ∧
    (ClaimPolicyForObject servingEnv webTemplate policyP1 quietWorld).1.1.meta.labels.has
        PropagationPolicyPermanentIDLabel = false ∧
    (ClaimPolicyForObject servingEnv webTemplate policyP1 quietWorld).1.1.meta.resourceVersion = "1" ∧
    (∃ rb : ResourceBinding,
      (ApplyPolicy servingEnv webTemplate false policyP1 quietWorld).2.log
        = [Event.UpdateTemplate claimedByP1Template, Event.CreateRB rb] ∧
      rb.spec.resource.resourceVersion = "1") ∧
    (ClaimClusterPolicyForObject servingEnv webTemplate clusterPolicyC1 quietWorld).1.1
      = { claimedByC1Template with
          meta := { claimedByC1Template.meta with resourceVersion := "2" } } := by
  refine ⟨by decide, by decide, by decide, by decide, by decide, ?_, by decide⟩
  refine ⟨(BuildResourceBinding servingEnv webTemplate policyP1.spec "pp-1" policyP1.meta
    AddPPClaimMetadata ()).1.toOption.get!, by decide, by decide⟩


/-! ### Retry and cleanup -/

theorem Err.not_conflict_of_notFound (e : Err) (h : e.IsNotFound = true) : e.IsConflict = false := by
  cases e <;> simp_all [Err.IsNotFound, Err.IsConflict]

/-- A first run that returns nil ends `RetryOnConflict` with nil. -/
theorem RetryOnConflict_first_nil {σ α : Type} (fn : α → World σ → Outcome × α × World σ)
    (a a1 : α) (w w1 : World σ) (h : fn a w = (Outcome.returned none, a1, w1)) :
    RetryOnConflict fn a w = (Outcome.returned none, a1, w1) := by
  simp [RetryOnConflict, DefaultRetrySteps, RetryOnConflictLoop, h]

/-- A first run that returns an error other than a conflict ends `RetryOnConflict`
with that error. -/
theorem RetryOnConflict_first_error {σ α : Type} (fn : α → World σ → Outcome × α × World σ)
    (a a1 : α) (w w1 : World σ) (e : Err) (h : fn a w = (Outcome.returned (some e), a1, w1))
    (hc : e.IsConflict = false) :
    RetryOnConflict fn a w = (Outcome.returned (some e), a1, w1) := by
  simp [RetryOnConflict, DefaultRetrySteps, RetryOnConflictLoop, h, hc]

/-- C3 on the code: a ClusterPropagationPolicy is being deleted, one
ClusterResourceBinding carries its permanent ID, and the cleanup of that binding's
resource template fails.  `HandleClusterPropagationPolicyDeletion` returns nil and
`ReconcileClusterPropagationPolicy` issues the finalizer-removing update.  With the
claim on a ResourceBinding instead, the same failure is returned and no update is
issued. -/
theorem crb_template_cleanup_error_dropped :
    (CleanupResourceTemplateClaimMetadata deletingC1Env teamBinding.spec.resource claimOfC1
        CleanupCPPClaimMetadata quietWorld).1.isError = true ∧
    (HandleClusterPropagationPolicyDeletion deletingC1Env "cpp-1" quietWorld).1.isNil = true ∧
    (ReconcileClusterPropagationPolicy deletingC1Env idleHandler
        (QueueKey.namespacedKey ⟨"", "c1"⟩) quietWorld).1.isNil = true ∧
    (ReconcileClusterPropagationPolicy deletingC1Env idleHandler
        (QueueKey.namespacedKey ⟨"", "c1"⟩) quietWorld).2.log
      = [Event.UpdateCPP { deletingC1 with meta := { deletingC1.meta with finalizers := [] } }] ∧
    (HandleClusterPropagationPolicyDeletion deletingC1RBEnv "cpp-1" quietWorld).1.isError = true ∧
    (ReconcileClusterPropagationPolicy deletingC1RBEnv idleHandler
        (QueueKey.namespacedKey ⟨"", "c1"⟩) quietWorld).1.isError = true ∧
    (ReconcileClusterPropagationPolicy deletingC1RBEnv idleHandler
        (QueueKey.namespacedKey ⟨"", "c1"⟩) quietWorld).2.log = [] := by
  decide

/-- C4 on the code: the cached template carries the claim, the store rejects the
update with a conflict and the re-read succeeds.  `cleanupResourceTemplateClaimMetadata`
returns nil after that single rejected update, and the stored template still carries
the claim. -/
theorem conflict_ends_cleanup_with_nil :
    NeedCleanupClaimMetadata claimedByP1Template.meta claimOfP1 = true ∧
    (cleanupResourceTemplateClaimMetadata conflictEnv deploymentsGVR claimedByP1Template claimOfP1
        CleanupPPClaimMetadata quietWorld).1.isNil = true ∧
    (cleanupResourceTemplateClaimMetadata conflictEnv deploymentsGVR claimedByP1Template claimOfP1
        CleanupPPClaimMetadata quietWorld).2.log
      = [Event.DynamicUpdate deploymentsGVR "default" webTemplate] ∧
    (conflictEnv.DynamicUpdate () deploymentsGVR "default" webTemplate).1.toOption = none ∧
    (conflictEnv.DynamicGet () deploymentsGVR "default" "web").1.toOption.map
        (fun stored => NeedCleanupClaimMetadata stored.meta claimOfP1) = some true := by
  decide

/-- C5 on the code: a PropagationPolicy is being deleted, the one template claimed
by it is in the informer index, and the store rejects the claim-stripping update
with a conflict.  `HandlePropagationPolicyDeletion` returns nil and
`ReconcilePropagationPolicy` issues the finalizer-removing update, while the stored
template still carries the claim. -/
theorem finalizer_removed_after_conflict :
    (HandlePropagationPolicyDeletion deletingP1Env "pp-1" deletingP1.spec.resourceSelectors
        quietWorld).1.isNil = true ∧
    (ReconcilePropagationPolicy deletingP1Env idleHandler
        (QueueKey.namespacedKey ⟨"default", "p1"⟩) quietWorld).1.isNil = true ∧
    (ReconcilePropagationPolicy deletingP1Env idleHandler
        (QueueKey.namespacedKey ⟨"default", "p1"⟩) quietWorld).2.log
      = [Event.DynamicUpdate deploymentsGVR "default" webTemplate,
         Event.UpdatePP { deletingP1 with meta := { deletingP1.meta with finalizers := [] } }] ∧
    (deletingP1Env.DynamicUpdate () deploymentsGVR "default" webTemplate).1.toOption = none ∧
    (deletingP1Env.DynamicGet () deploymentsGVR "default" "web").1.toOption.map
        (fun stored => NeedCleanupClaimMetadata stored.meta claimOfP1) = some true := by
  decide

/-- C10, as stated, fails: when the update that strips the claim metadata reports
NotFound, both template-cleanup operations return a non-nil error. -/
theorem update_notFound_is_returned :
    (vanishingEnv.DynamicUpdate () deploymentsGVR "default" webTemplate).1
      = .error (Err.notFound "web") ∧
    (CleanupResourceTemplateClaimMetadata vanishingEnv webRef claimOfP1 CleanupPPClaimMetadata
        quietWorld).1.isError = true ∧
    (cleanupResourceTemplateClaimMetadata vanishingEnv deploymentsGVR claimedByP1Template claimOfP1
        CleanupPPClaimMetadata quietWorld).1.isError = true := by
  refine ⟨rfl, by decide, by decide⟩

/-- C10, amended: `CleanupResourceTemplateClaimMetadata` returns nil when fetching
the template reports NotFound: with no write at all when it is the first fetch, and
at any later run of the retried body with no write issued in that run; and
`cleanupResourceTemplateClaimMetadata` returns nil when the re-read that follows a
conflicting update reports NotFound.  A NotFound reported by the update that strips
the claim metadata is returned as the error by both, at the first run as at any
later run of the body of `CleanupResourceTemplateClaimMetadata`. -/
theorem cleanup_notFound :
    (∀ (σ : Type) (env : Env σ) (objRef : ObjectReference) (target : StringMap)
        (cleanupFunc : ObjectMeta → ObjectMeta) (w : World σ) (gvr : GroupVersionResource)
        (st st1 : σ) (err : Err),
      env.GetGroupVersionResource w.store (FromAPIVersionAndKind objRef.apiVersion objRef.kind)
        = (.ok gvr, st) →
      env.DynamicGet st gvr objRef.namespace objRef.name = (.error err, st1) →
      err.IsNotFound = true →
      CleanupResourceTemplateClaimMetadata env objRef target cleanupFunc w
        = (Outcome.returned none, w.withStore st1)) ∧
    (∀ (σ : Type) (env : Env σ) (gvr : GroupVersionResource) (workload : Unstructured)
        (target : StringMap) (cleanupFunc : ObjectMeta → ObjectMeta) (w : World σ)
        (st st1 : σ) (err err1 : Err),
      NeedCleanupClaimMetadata workload.meta target = true →
      env.DynamicUpdate w.store gvr (cleanupFunc workload.meta).namespace
        { workload with meta := cleanupFunc workload.meta } = (.error err, st) →
      err.IsConflict = true →
      env.DynamicGet st gvr (cleanupFunc workload.meta).namespace (cleanupFunc workload.meta).name
        = (.error err1, st1) →
      err1.IsNotFound = true →
      (cleanupResourceTemplateClaimMetadata env gvr workload target cleanupFunc w).1
        = Outcome.returned none) ∧
    (∀ (σ : Type) (env : Env σ) (objRef : ObjectReference) (target : StringMap)
        (cleanupFunc : ObjectMeta → ObjectMeta) (w : World σ) (gvr : GroupVersionResource)
        (workload : Unstructured) (st st1 st2 : σ) (err : Err),
      env.GetGroupVersionResource w.store (FromAPIVersionAndKind objRef.apiVersion objRef.kind)
        = (.ok gvr, st) →
      env.DynamicGet st gvr objRef.namespace objRef.name = (.ok workload, st1) →
      NeedCleanupClaimMetadata workload.meta target = true →
      env.DynamicUpdate st1 gvr (cleanupFunc workload.meta).namespace
        { workload with meta := cleanupFunc workload.meta } = (.error err, st2) →
      err.IsNotFound = true →
      (CleanupResourceTemplateClaimMetadata env objRef target cleanupFunc w).1
        = Outcome.returned (some err)) ∧
    (∀ (σ : Type) (env : Env σ) (gvr : GroupVersionResource) (workload : Unstructured)
        (target : StringMap) (cleanupFunc : ObjectMeta → ObjectMeta) (w : World σ)
        (st : σ) (err : Err),
      NeedCleanupClaimMetadata workload.meta target = true →
      env.DynamicUpdate w.store gvr (cleanupFunc workload.meta).namespace
        { workload with meta := cleanupFunc workload.meta } = (.error err, st) →
      err.IsNotFound = true →
      (cleanupResourceTemplateClaimMetadata env gvr workload target cleanupFunc w).1
        = Outcome.returned (some err)) ∧
    (∀ (σ : Type) (env : Env σ) (gvr : GroupVersionResource) (objRef : ObjectReference)
        (target : StringMap) (cleanupFunc : ObjectMeta → ObjectMeta) (steps : Nat)
        (lastErr : Option Err) (w : World σ) (st1 : σ) (err : Err),
      env.DynamicGet w.store gvr objRef.namespace objRef.name = (.error err, st1) →
      err.IsNotFound = true →
      RetryOnConflictLoop
          (CleanupResourceTemplateClaimMetadata.attempt env gvr objRef target cleanupFunc)
          (steps + 1) lastErr () w
        = (Outcome.returned none, (), w.withStore st1)) ∧
    (∀ (σ : Type) (env : Env σ) (gvr : GroupVersionResource) (objRef : ObjectReference)
        (target : StringMap) (cleanupFunc : ObjectMeta → ObjectMeta) (steps : Nat)
        (lastErr : Option Err) (w : World σ) (workload : Unstructured) (st1 st2 : σ) (err : Err),
      env.DynamicGet w.store gvr objRef.namespace objRef.name = (.ok workload, st1) →
      NeedCleanupClaimMetadata workload.meta target = true →
      env.DynamicUpdate st1 gvr (cleanupFunc workload.meta).namespace
        { workload with meta := cleanupFunc workload.meta } = (.error err, st2) →
      err.IsNotFound = true →
      (RetryOnConflictLoop
          (CleanupResourceTemplateClaimMetadata.attempt env gvr objRef target cleanupFunc)
          (steps + 1) lastErr () w).1
        = Outcome.returned (some err)) := by
  refine ⟨?_, ?_, ?_, ?_, ?_, ?_⟩
  · intro σ env objRef target cleanupFunc w gvr st st1 err hgvr hget hnf
    have hattempt : CleanupResourceTemplateClaimMetadata.attempt env gvr objRef target cleanupFunc ()
        (w.withStore st) = (Outcome.returned none, (), (w.withStore st).withStore st1) := by
      simp [CleanupResourceTemplateClaimMetadata.attempt, World.withStore, hget, hnf]
    unfold CleanupResourceTemplateClaimMetadata
    rw [hgvr]
    simp only
    rw [RetryOnConflict_first_nil _ _ _ _ _ hattempt]
    rfl
  · intro σ env gvr workload target cleanupFunc w st st1 err err1 hneed hupd hc hget hnf
    have hattempt : cleanupResourceTemplateClaimMetadata.attempt env gvr target cleanupFunc
        (some workload) w = (Outcome.returned none, none,
          (w.emit (Event.DynamicUpdate gvr (cleanupFunc workload.meta).namespace
            { workload with meta := cleanupFunc workload.meta })).withStore st1) := by
      simp [cleanupResourceTemplateClaimMetadata.attempt, World.withStore, World.emit, hneed,
        hupd, hc, hget, hnf]
    unfold cleanupResourceTemplateClaimMetadata
    rw [RetryOnConflict_first_nil _ _ _ _ _ hattempt]
  · intro σ env objRef target cleanupFunc w gvr workload st st1 st2 err hgvr hget hneed hupd hnf
    have hattempt : CleanupResourceTemplateClaimMetadata.attempt env gvr objRef target cleanupFunc ()
        (w.withStore st) = (Outcome.returned (some err), (),
          (((w.withStore st).withStore st1).emit (Event.DynamicUpdate gvr
            (cleanupFunc workload.meta).namespace
            { workload with meta := cleanupFunc workload.meta })).withStore st2) := by
      simp [CleanupResourceTemplateClaimMetadata.attempt, World.withStore, World.emit, hget,
        hneed, hupd]
    unfold CleanupResourceTemplateClaimMetadata
    rw [hgvr]
    simp only
    rw [RetryOnConflict_first_error _ _ _ _ _ _ hattempt (Err.not_conflict_of_notFound err hnf)]
  · intro σ env gvr workload target cleanupFunc w st err hneed hupd hnf
    have hattempt : cleanupResourceTemplateClaimMetadata.attempt env gvr target cleanupFunc
        (some workload) w = (Outcome.returned (some err),
          some { workload with meta := cleanupFunc workload.meta },
          (w.emit (Event.DynamicUpdate gvr (cleanupFunc workload.meta).namespace
            { workload with meta := cleanupFunc workload.meta })).withStore st) := by
      simp [cleanupResourceTemplateClaimMetadata.attempt, World.withStore, World.emit, hneed,
        hupd, Err.not_conflict_of_notFound err hnf]
    unfold cleanupResourceTemplateClaimMetadata
    rw [RetryOnConflict_first_error _ _ _ _ _ _ hattempt (Err.not_conflict_of_notFound err hnf)]
  · intro σ env gvr objRef target cleanupFunc steps lastErr w st1 err hget hnf
    have hattempt : CleanupResourceTemplateClaimMetadata.attempt env gvr objRef target cleanupFunc ()
        w = (Outcome.returned none, (), w.withStore st1) := by
      simp [CleanupResourceTemplateClaimMetadata.attempt, hget, hnf]
    simp [RetryOnConflictLoop, hattempt]
  · intro σ env gvr objRef target cleanupFunc steps lastErr w workload st1 st2 err hget hneed
      hupd hnf
    have hattempt : CleanupResourceTemplateClaimMetadata.attempt env gvr objRef target cleanupFunc ()
        w = (Outcome.returned (some err), (),
          ((w.withStore st1).emit (Event.DynamicUpdate gvr
            (cleanupFunc workload.meta).namespace
            { workload with meta := cleanupFunc workload.meta })).withStore st2) := by
      simp [CleanupResourceTemplateClaimMetadata.attempt, World.withStore, World.emit, hget,
        hneed, hupd]
    simp [RetryOnConflictLoop, hattempt, Err.not_conflict_of_notFound err hnf]

/-- Witness of the amended C10: the template is gone when it is fetched. -/
theorem cleanup_notFound_witness :
    CleanupResourceTemplateClaimMetadata quietEnv webRef claimOfP1 CleanupPPClaimMetadata quietWorld
      = (Outcome.returned none, quietWorld.withStore ()) :=
  cleanup_notFound.1 Unit quietEnv webRef claimOfP1 CleanupPPClaimMetadata quietWorld
    deploymentsGVR () () (Err.notFound "web") rfl rfl rfl


/-! ### The synchronised fields -/

/-- C13 on the code: the ClusterResourceBinding of `team-a` exists with
`PropagateDeps` false, the policy now asks for `PropagateDeps` true and a new
placement.  `ApplyClusterPolicy` succeeds with an update, and the updated binding
has the new placement and still `PropagateDeps` false.  The same edit on a
ResourceBinding, by either Apply function, writes `PropagateDeps` true. -/
theorem crb_update_keeps_stale_propagateDeps :
    editedC1.spec.propagateDeps = true ∧
    (ApplyClusterPolicy boundEnv claimedTeamTemplate false editedC1 quietWorld).1.1.isNil = true ∧
    (ApplyClusterPolicy boundEnv claimedTeamTemplate false editedC1 quietWorld).1.2
      = OperationResult.Updated ∧
    (ApplyClusterPolicy boundEnv claimedTeamTemplate false editedC1 quietWorld).2.log
      = [Event.UpdateCRB { storedTeamBinding with
          spec := { storedTeamBinding.spec with placement := some { raw := "new" } } }] ∧
    (ApplyClusterPolicy boundEnv claimedByC1Template false editedC1 quietWorld).2.log
      = [Event.UpdateRB { storedWebBinding with
          meta := { storedWebBinding.meta with
            labels := claimOfP1 ++ claimOfC1
            annotations := storedWebBinding.meta.annotations ++
              [( ClusterPropagationPolicyAnnotation, "c1")] }
          spec := { storedWebBinding.spec with
            placement := some { raw := "new" }, propagateDeps := true } }] ∧
    (ApplyPolicy boundEnv claimedByP1Template false editedP1 quietWorld).2.log
      = [Event.UpdateRB { storedWebBinding with
          spec := { storedWebBinding.spec with
            placement := some { raw := "new" }, propagateDeps := true } }] := by
  decide

/-- C14 on the code: the existing binding carries a dispatching suspension, the
policy declares no suspension (and a new placement).  The Apply functions succeed
with an update, and the updated binding still carries the dispatching suspension,
for a ResourceBinding as for a ClusterResourceBinding. -/
theorem update_keeps_dropped_suspension :
    editedP1.spec.suspension = none ∧
    storedWebBinding.spec.suspension = some { suspension := { dispatching := some true } } ∧
    (ApplyPolicy boundEnv claimedByP1Template false editedP1 quietWorld).1.1.isNil = true ∧
    (ApplyPolicy boundEnv claimedByP1Template false editedP1 quietWorld).1.2
      = OperationResult.Updated ∧
    ((ApplyPolicy boundEnv claimedByP1Template false editedP1 quietWorld).2.log.map
        (fun e => match e with
          | Event.UpdateRB rb => rb.spec.suspension
          | _ => none))
      = [some { suspension := { dispatching := some true } }] ∧
    (ApplyClusterPolicy boundEnv claimedTeamTemplate false editedC1 quietWorld).1.2
      = OperationResult.Updated ∧
    ((ApplyClusterPolicy boundEnv claimedTeamTemplate false editedC1 quietWorld).2.log.map
        (fun e => match e with
          | Event.UpdateCRB crb => crb.spec.suspension
          | _ => none))
      = [some { suspension := { dispatching := some true } }] := by
  decide


/-! ### The update path of create-or-update -/

/-- When the mutation fails on the stored object, `CreateOrUpdate` returns its error
with operation result none and issues no write. -/
theorem CreateOrUpdate_mutation_error {σ β : Type} [DecidableEq β] (c : ObjectClient σ β)
    (f : β → Option Err × β) (obj stored after : β) (w : World σ) (st : σ) (err : Err)
    (hget : c.get w.store (c.key obj) = (.ok stored, st))
    (hf : f stored = (some err, after)) :
    CreateOrUpdate c f obj w = ((OperationResult.None, some err), after, w.withStore st) := by
  simp [CreateOrUpdate, hget, mutate, hf]

/-- When the mutation leaves the stored object as it is, `CreateOrUpdate` reports
operation result none and issues no write. -/
theorem CreateOrUpdate_unchanged {σ β : Type} [DecidableEq β] (c : ObjectClient σ β)
    (f : β → Option Err × β) (obj stored : β) (w : World σ) (st : σ)
    (hget : c.get w.store (c.key obj) = (.ok stored, st))
    (hf : f stored = (none, stored)) (hkey : c.key stored = c.key obj) :
    CreateOrUpdate c f obj w = ((OperationResult.None, none), stored, w.withStore st) := by
  simp [CreateOrUpdate, hget, mutate, hf, hkey]

/-- Past the claim step and the lazy skip, with the binding built, `ApplyPolicy` is
the retried create-or-update of that binding. -/
theorem ApplyPolicy_of_build_ok {σ : Type} (env : Env σ) (object : Unstructured) (flag : Bool)
    (policy : PropagationPolicy) (w : World σ) (binding : ResourceBinding) (st : σ)
    (hclaim : (ClaimPolicyForObject env object policy w).1.2.2 = none)
    (hlazy : (flag && IsLazyActivationEnabled policy.spec.activationPreference) = false)
    (hbuild : BuildResourceBinding env (ClaimPolicyForObject env object policy w).1.1 policy.spec
        (ClaimPolicyForObject env object policy w).1.2.1 policy.meta AddPPClaimMetadata
        (ClaimPolicyForObject env object policy w).2.store = (.ok binding, st)) :
    ApplyPolicy env object flag policy w
      = applyResult (RetryOnConflict (applyAttempt env.rbClient
          (ApplyPolicy.mutateFn (ClaimPolicyForObject env object policy w).1.1.meta.uid binding))
          (binding, OperationResult.None)
          ((ClaimPolicyForObject env object policy w).2.withStore st)) := by
  unfold ApplyPolicy
  generalize ClaimPolicyForObject env object policy w = c at *
  obtain ⟨⟨o, id, e⟩, w1⟩ := c
  simp only at hclaim hbuild
  subst hclaim
  simp [hbuild, hlazy, applyResult]

/-- Past the claim step and the lazy skip, for a namespaced template with the
binding built, `ApplyClusterPolicy` is the retried create-or-update of that binding. -/
theorem ApplyClusterPolicy_of_build_ok_rb {σ : Type} (env : Env σ) (object : Unstructured)
    (flag : Bool) (policy : ClusterPropagationPolicy) (w : World σ) (binding : ResourceBinding)
    (st : σ)
    (hclaim : (ClaimClusterPolicyForObject env object policy w).1.2.2 = none)
    (hlazy : (flag && IsLazyActivationEnabled policy.spec.activationPreference) = false)
    (hns : (ClaimClusterPolicyForObject env object policy w).1.1.meta.namespace ≠ "")
    (hbuild : BuildResourceBinding env (ClaimClusterPolicyForObject env object policy w).1.1
        policy.spec (ClaimClusterPolicyForObject env object policy w).1.2.1 policy.meta
        AddCPPClaimMetadata (ClaimClusterPolicyForObject env object policy w).2.store
          = (.ok binding, st)) :
    ApplyClusterPolicy env object flag policy w
      = applyResult (RetryOnConflict (applyAttempt env.rbClient
          (ApplyClusterPolicy.mutateFnRB
            (ClaimClusterPolicyForObject env object policy w).1.1.meta.uid binding))
          (binding, OperationResult.None)
          ((ClaimClusterPolicyForObject env object policy w).2.withStore st)) := by
  unfold ApplyClusterPolicy
  generalize ClaimClusterPolicyForObject env object policy w = c at *
  obtain ⟨⟨o, id, e⟩, w1⟩ := c
  simp only at hclaim hbuild hns
  subst hclaim
  simp [hbuild, hlazy, hns, applyResult]

/-- Past the claim step and the lazy skip, for a cluster-scoped template with the
binding built, `ApplyClusterPolicy` is the retried create-or-update of that binding. -/
theorem ApplyClusterPolicy_of_build_ok_crb {σ : Type} (env : Env σ) (object : Unstructured)
    (flag : Bool) (policy : ClusterPropagationPolicy) (w : World σ)
    (binding : ClusterResourceBinding) (st : σ)
    (hclaim : (ClaimClusterPolicyForObject env object policy w).1.2.2 = none)
    (hlazy : (flag && IsLazyActivationEnabled policy.spec.activationPreference) = false)
    (hns : (ClaimClusterPolicyForObject env object policy w).1.1.meta.namespace = "")
    (hbuild : BuildClusterResourceBinding env (ClaimClusterPolicyForObject env object policy w).1.1
        policy.spec (ClaimClusterPolicyForObject env object policy w).1.2.1 policy.meta
        (ClaimClusterPolicyForObject env object policy w).2.store = (.ok binding, st)) :
    ApplyClusterPolicy env object flag policy w
      = applyResult (RetryOnConflict (applyAttempt env.crbClient
          (ApplyClusterPolicy.mutateFnCRB
            (ClaimClusterPolicyForObject env object policy w).1.1.meta.uid binding))
          (binding, OperationResult.None)
          ((ClaimClusterPolicyForObject env object policy w).2.withStore st)) := by
  unfold ApplyClusterPolicy
  generalize ClaimClusterPolicyForObject env object policy w = c at *
  obtain ⟨⟨o, id, e⟩, w1⟩ := c
  simp only at hclaim hbuild hns
  subst hclaim
  simp [hbuild, hlazy, hns, applyResult]

/-- A retried create-or-update whose first mutation fails with an error that is not
a conflict ends with that error, operation result none and no write. -/
theorem retried_apply_mutation_error {σ β : Type} [DecidableEq β] (c : ObjectClient σ β)
    (f : β → Option Err × β) (obj stored after : β) (w : World σ) (st : σ) (err : Err)
    (hget : c.get w.store (c.key obj) = (.ok stored, st))
    (hf : f stored = (some err, after)) (hc : err.IsConflict = false) :
    applyResult (RetryOnConflict (applyAttempt c f) (obj, OperationResult.None) w)
      = ((Outcome.returned (some err), OperationResult.None), w.withStore st) := by
  have hattempt : applyAttempt c f (obj, OperationResult.None) w
      = (Outcome.returned (some err), (after, OperationResult.None), w.withStore st) := by
    simp [applyAttempt, CreateOrUpdate_mutation_error c f obj stored after w st err hget hf]
  rw [RetryOnConflict_first_error _ _ _ _ _ _ hattempt hc]
  rfl

/-- A retried create-or-update whose first mutation leaves the stored object as it
is ends with nil, operation result none and no write. -/
theorem retried_apply_unchanged {σ β : Type} [DecidableEq β] (c : ObjectClient σ β)
    (f : β → Option Err × β) (obj stored : β) (w : World σ) (st : σ)
    (hget : c.get w.store (c.key obj) = (.ok stored, st))
    (hf : f stored = (none, stored)) (hkey : c.key stored = c.key obj) :
    applyResult (RetryOnConflict (applyAttempt c f) (obj, OperationResult.None) w)
      = ((Outcome.returned none, OperationResult.None), w.withStore st) := by
  have hattempt : applyAttempt c f (obj, OperationResult.None) w
      = (Outcome.returned none, (stored, OperationResult.None), w.withStore st) := by
    simp [applyAttempt, CreateOrUpdate_unchanged c f obj stored w st hget hf hkey]
  rw [RetryOnConflict_first_nil _ _ _ _ _ hattempt]
  rfl

/-- The owner check of the update mutations: a controller owner reference with
another UID. -/
theorem owner_filter_of_mismatch (meta : ObjectMeta) (uid : String) (ownerRef : OwnerReference)
    (hown : GetControllerOfNoCopy meta = some ownerRef) (hne : ownerRef.uid ≠ uid) :
    (GetControllerOfNoCopy meta).filter (fun ownerRef => ownerRef.uid != uid) = some ownerRef := by
  simp [hown, Option.filter, hne]

theorem ApplyPolicy_mutateFn_of_mismatch (uid : String) (binding bindingCopy : ResourceBinding)
    (ownerRef : OwnerReference) (hown : GetControllerOfNoCopy bindingCopy.meta = some ownerRef)
    (hne : ownerRef.uid ≠ uid) :
    ApplyPolicy.mutateFn uid binding bindingCopy = (some differentOwnerErr, bindingCopy) := by
  unfold ApplyPolicy.mutateFn
  rw [owner_filter_of_mismatch _ _ _ hown hne]

theorem ApplyClusterPolicy_mutateFnRB_of_mismatch (uid : String)
    (binding bindingCopy : ResourceBinding) (ownerRef : OwnerReference)
    (hown : GetControllerOfNoCopy bindingCopy.meta = some ownerRef) (hne : ownerRef.uid ≠ uid) :
    ApplyClusterPolicy.mutateFnRB uid binding bindingCopy = (some differentOwnerErr, bindingCopy) := by
  unfold ApplyClusterPolicy.mutateFnRB
  rw [owner_filter_of_mismatch _ _ _ hown hne]

theorem ApplyClusterPolicy_mutateFnCRB_of_mismatch (uid : String)
    (binding bindingCopy : ClusterResourceBinding) (ownerRef : OwnerReference)
    (hown : GetControllerOfNoCopy bindingCopy.meta = some ownerRef) (hne : ownerRef.uid ≠ uid) :
    ApplyClusterPolicy.mutateFnCRB uid binding bindingCopy = (some differentOwnerErr, bindingCopy) := by
  unfold ApplyClusterPolicy.mutateFnCRB
  rw [owner_filter_of_mismatch _ _ _ hown hne]

/-- C15: when the existing binding has a controller owner reference whose UID is not
the template's, each update mutation returns the owner error and the binding as it
was; the create-or-update that ran it issues no write; and the Apply call that reads
such a binding returns that error, with operation result none and the log of writes
as the claim step left it. -/
theorem owner_mismatch_aborts_update :
    (∀ (uid : String) (binding bindingCopy : ResourceBinding)
        (clusterBinding clusterBindingCopy : ClusterResourceBinding) (ownerRef clusterOwnerRef : OwnerReference),
      GetControllerOfNoCopy bindingCopy.meta = some ownerRef → ownerRef.uid ≠ uid →
      GetControllerOfNoCopy clusterBindingCopy.meta = some clusterOwnerRef →
      clusterOwnerRef.uid ≠ uid →
      ApplyPolicy.mutateFn uid binding bindingCopy = (some differentOwnerErr, bindingCopy) ∧
      ApplyClusterPolicy.mutateFnRB uid binding bindingCopy = (some differentOwnerErr, bindingCopy) ∧
      ApplyClusterPolicy.mutateFnCRB uid clusterBinding clusterBindingCopy
        = (some differentOwnerErr, clusterBindingCopy)) ∧
    (∀ (σ : Type) (env : Env σ) (uid : String) (binding obj existing : ResourceBinding)
        (w : World σ) (st : σ) (ownerRef : OwnerReference),
      env.GetRB w.store obj.meta.namespace obj.meta.name = (.ok existing, st) →
      GetControllerOfNoCopy existing.meta = some ownerRef → ownerRef.uid ≠ uid →
      CreateOrUpdate env.rbClient (ApplyPolicy.mutateFn uid binding) obj w
        = ((OperationResult.None, some differentOwnerErr), existing, w.withStore st) ∧
      CreateOrUpdate env.rbClient (ApplyClusterPolicy.mutateFnRB uid binding) obj w
        = ((OperationResult.None, some differentOwnerErr), existing, w.withStore st)) ∧
    (∀ (σ : Type) (env : Env σ) (uid : String) (binding obj existing : ClusterResourceBinding)
        (w : World σ) (st : σ) (ownerRef : OwnerReference),
      env.GetCRB w.store obj.meta.name = (.ok existing, st) →
      GetControllerOfNoCopy existing.meta = some ownerRef → ownerRef.uid ≠ uid →
      CreateOrUpdate env.crbClient (ApplyClusterPolicy.mutateFnCRB uid binding) obj w
        = ((OperationResult.None, some differentOwnerErr), existing, w.withStore st)) ∧
    (∀ (σ : Type) (env : Env σ) (object : Unstructured) (flag : Bool) (policy : PropagationPolicy)
        (w : World σ) (binding existing : ResourceBinding) (st st1 : σ) (ownerRef : OwnerReference),
      (ClaimPolicyForObject env object policy w).1.2.2 = none →
      (flag && IsLazyActivationEnabled policy.spec.activationPreference) = false →
      BuildResourceBinding env (ClaimPolicyForObject env object policy w).1.1 policy.spec
        (ClaimPolicyForObject env object policy w).1.2.1 policy.meta AddPPClaimMetadata
        (ClaimPolicyForObject env object policy w).2.store = (.ok binding, st) →
      env.GetRB st binding.meta.namespace binding.meta.name = (.ok existing, st1) →
      GetControllerOfNoCopy existing.meta = some ownerRef →
      ownerRef.uid ≠ (ClaimPolicyForObject env object policy w).1.1.meta.uid →
      ApplyPolicy env object flag policy w
        = ((Outcome.returned (some differentOwnerErr), OperationResult.None),
            (ClaimPolicyForObject env object policy w).2.withStore st1)) ∧
    (∀ (σ : Type) (env : Env σ) (object : Unstructured) (flag : Bool)
        (policy : ClusterPropagationPolicy) (w : World σ) (binding existing : ResourceBinding)
        (st st1 : σ) (ownerRef : OwnerReference),
      (ClaimClusterPolicyForObject env object policy w).1.2.2 = none →
      (flag && IsLazyActivationEnabled policy.spec.activationPreference) = false →
      (ClaimClusterPolicyForObject env object policy w).1.1.meta.namespace ≠ "" →
      BuildResourceBinding env (ClaimClusterPolicyForObject env object policy w).1.1 policy.spec
        (ClaimClusterPolicyForObject env object policy w).1.2.1 policy.meta AddCPPClaimMetadata
        (ClaimClusterPolicyForObject env object policy w).2.store = (.ok binding, st) →
      env.GetRB st binding.meta.namespace binding.meta.name = (.ok existing, st1) →
      GetControllerOfNoCopy existing.meta = some ownerRef →
      ownerRef.uid ≠ (ClaimClusterPolicyForObject env object policy w).1.1.meta.uid →
      ApplyClusterPolicy env object flag policy w
        = ((Outcome.returned (some differentOwnerErr), OperationResult.None),
            (ClaimClusterPolicyForObject env object policy w).2.withStore st1)) ∧
    (∀ (σ : Type) (env : Env σ) (object : Unstructured) (flag : Bool)
        (policy : ClusterPropagationPolicy) (w : World σ)
        (binding existing : ClusterResourceBinding) (st st1 : σ) (ownerRef : OwnerReference),
      (ClaimClusterPolicyForObject env object policy w).1.2.2 = none →
      (flag && IsLazyActivationEnabled policy.spec.activationPreference) = false →
      (ClaimClusterPolicyForObject env object policy w).1.1.meta.namespace = "" →
      BuildClusterResourceBinding env (ClaimClusterPolicyForObject env object policy w).1.1
        policy.spec (ClaimClusterPolicyForObject env object policy w).1.2.1 policy.meta
        (ClaimClusterPolicyForObject env object policy w).2.store = (.ok binding, st) →
      env.GetCRB st binding.meta.name = (.ok existing, st1) →
      GetControllerOfNoCopy existing.meta = some ownerRef →
      ownerRef.uid ≠ (ClaimClusterPolicyForObject env object policy w).1.1.meta.uid →
      ApplyClusterPolicy env object flag policy w
        = ((Outcome.returned (some differentOwnerErr), OperationResult.None),
            (ClaimClusterPolicyForObject env object policy w).2.withStore st1)) := by
  refine ⟨?_, ?_, ?_, ?_, ?_, ?_⟩
  · intro uid binding bindingCopy clusterBinding clusterBindingCopy ownerRef clusterOwnerRef
      hown hne hcown hcne
    exact ⟨ApplyPolicy_mutateFn_of_mismatch uid binding bindingCopy ownerRef hown hne,
      ApplyClusterPolicy_mutateFnRB_of_mismatch uid binding bindingCopy ownerRef hown hne,
      ApplyClusterPolicy_mutateFnCRB_of_mismatch uid clusterBinding clusterBindingCopy
        clusterOwnerRef hcown hcne⟩
  · intro σ env uid binding obj existing w st ownerRef hget hown hne
    exact ⟨CreateOrUpdate_mutation_error env.rbClient _ obj existing existing w st _ hget
        (ApplyPolicy_mutateFn_of_mismatch uid binding existing ownerRef hown hne),
      CreateOrUpdate_mutation_error env.rbClient _ obj existing existing w st _ hget
        (ApplyClusterPolicy_mutateFnRB_of_mismatch uid binding existing ownerRef hown hne)⟩
  · intro σ env uid binding obj existing w st ownerRef hget hown hne
    exact CreateOrUpdate_mutation_error env.crbClient _ obj existing existing w st _ hget
      (ApplyClusterPolicy_mutateFnCRB_of_mismatch uid binding existing ownerRef hown hne)
  · intro σ env object flag policy w binding existing st st1 ownerRef hclaim hlazy hbuild hget
      hown hne
    rw [ApplyPolicy_of_build_ok env object flag policy w binding st hclaim hlazy hbuild]
    exact retried_apply_mutation_error env.rbClient _ binding existing existing _ st1 _ hget
      (ApplyPolicy_mutateFn_of_mismatch _ binding existing ownerRef hown hne) rfl
  · intro σ env object flag policy w binding existing st st1 ownerRef hclaim hlazy hns hbuild
      hget hown hne
    rw [ApplyClusterPolicy_of_build_ok_rb env object flag policy w binding st hclaim hlazy hns
      hbuild]
    exact retried_apply_mutation_error env.rbClient _ binding existing existing _ st1 _ hget
      (ApplyClusterPolicy_mutateFnRB_of_mismatch _ binding existing ownerRef hown hne) rfl
  · intro σ env object flag policy w binding existing st st1 ownerRef hclaim hlazy hns hbuild
      hget hown hne
    rw [ApplyClusterPolicy_of_build_ok_crb env object flag policy w binding st hclaim hlazy hns
      hbuild]
    exact retried_apply_mutation_error env.crbClient _ binding existing existing _ st1 _ hget
      (ApplyClusterPolicy_mutateFnCRB_of_mismatch _ binding existing ownerRef hown hne) rfl

/-- Witness of C15: the stored binding of `web` is controlled by an object with
another UID; `ApplyPolicy` returns the owner error and writes nothing. -/
theorem owner_mismatch_aborts_update_witness :
    ApplyPolicy foreignOwnedEnv claimedByP1Template false editedP1 quietWorld
      = ((Outcome.returned (some differentOwnerErr), OperationResult.None),
          (ClaimPolicyForObject foreignOwnedEnv claimedByP1Template editedP1 quietWorld).2.withStore ()) ∧
    (ApplyPolicy foreignOwnedEnv claimedByP1Template false editedP1 quietWorld).2.log = [] :=
  have h := owner_mismatch_aborts_update.2.2.2.1 Unit foreignOwnedEnv claimedByP1Template false
    editedP1 quietWorld
    (BuildResourceBinding foreignOwnedEnv claimedByP1Template editedP1.spec "pp-1" editedP1.meta
      AddPPClaimMetadata ()).1.toOption.get!
    foreignOwnedWebBinding () ()
    { NewControllerRef webTemplate webTemplate.GroupVersionKind with uid := "uid-previous-web" }
    rfl rfl rfl rfl rfl (by decide)
  ⟨h, by rw [h]; rfl⟩


/-! ### String maps and finalizer lists -/

theorem StringMap.lookup_set_self (m : StringMap) (k v : String) :
    (StringMap.set m k v).lookup k = some v := by
  induction m with
  | nil => simp [StringMap.set, List.lookup]
  | cons kv rest ih =>
    obtain ⟨k0, v0⟩ := kv
    by_cases h : k0 = k
    · simp [StringMap.set, h, List.lookup]
    · have h2 : (k == k0) = false := by
        simp; exact fun h3 => h h3.symm
      simp only [StringMap.set, h, if_false, List.lookup, h2]
      exact ih

theorem StringMap.lookup_set_ne (m : StringMap) (k v k1 : String) (hne : k1 ≠ k) :
    (StringMap.set m k v).lookup k1 = m.lookup k1 := by
  induction m with
  | nil =>
    have h2 : (k1 == k) = false := by simp [hne]
    simp [StringMap.set, List.lookup, h2]
  | cons kv rest ih =>
    obtain ⟨k0, v0⟩ := kv
    by_cases h : k0 = k
    · subst h
      have h2 : (k1 == k0) = false := by simp [hne]
      simp [StringMap.set, List.lookup, h2]
    · simp only [StringMap.set, h, if_false, List.lookup]
      cases hk : (k1 == k0) with
      | true => rfl
      | false => exact ih

theorem StringMap.set_eq_self (m : StringMap) (k v : String) (h : m.lookup k = some v) :
    StringMap.set m k v = m := by
  induction m with
  | nil => simp [List.lookup] at h
  | cons kv rest ih =>
    obtain ⟨k0, v0⟩ := kv
    by_cases hk : k0 = k
    · subst hk
      simp [List.lookup] at h
      simp [StringMap.set, h]
    · have h2 : (k == k0) = false := by
        simp; exact fun h3 => hk h3.symm
      simp only [List.lookup, h2] at h
      simp [StringMap.set, hk, ih h]

theorem StringMap.lookup_del_ne (m : StringMap) (k k1 : String) (hne : k1 ≠ k) :
    (StringMap.del m k).lookup k1 = m.lookup k1 := by
  induction m with
  | nil => rfl
  | cons kv rest ih =>
    obtain ⟨k0, v0⟩ := kv
    by_cases hk : k0 = k
    · subst hk
      have h2 : (k1 == k0) = false := by simp [hne]
      simp only [StringMap.del, List.lookup, h2] at ih ⊢
      simpa [List.filter] using ih
    · have h3 : ((k0, v0).1 != k) = true := by simp [hk]
      simp only [StringMap.del, List.filter, h3, List.lookup] at ih ⊢
      cases hk1 : (k1 == k0) with
      | true => rfl
      | false => exact ih

theorem StringMap.lookup_del_self (m : StringMap) (k : String) :
    (StringMap.del m k).lookup k = none := by
  induction m with
  | nil => rfl
  | cons kv rest ih =>
    obtain ⟨k0, v0⟩ := kv
    by_cases hk : k0 = k
    · subst hk
      simp only [StringMap.del] at ih ⊢
      simpa [List.filter] using ih
    · have h3 : ((k0, v0).1 != k) = true := by simp [hk]
      have h2 : (k == k0) = false := by
        simp; exact fun h4 => hk h4.symm
      simp only [StringMap.del, List.filter, h3, List.lookup, h2] at ih ⊢
      exact ih

theorem StringMap.has_del_self (m : StringMap) (k : String) : (StringMap.del m k).has k = false := by
  simp [StringMap.has, StringMap.lookup_del_self]

theorem StringMap.ne_nil_of_lookup (m : StringMap) (k v : String) (h : m.lookup k = some v) :
    m.isEmpty = false := by
  cases m with
  | nil => simp [List.lookup] at h
  | cons a l => rfl

theorem List.union_union_self {α : Type} [DecidableEq α] (a b : List α) : (a ∪ b) ∪ b = a ∪ b := by
  induction a with
  | nil =>
    simp only [List.nil_union]
    induction b with
    | nil => rfl
    | cons x xs _ =>
      apply List.Subset.union_eq_right
      exact List.Subset.refl _
  | cons x xs ih =>
    rw [List.cons_union]
    by_cases hx : x ∈ xs ∪ b
    · rw [List.insert_of_mem hx, ih]
    · rw [List.insert_of_not_mem hx, List.cons_union, ih, List.insert_of_not_mem hx]

theorem DedupeAndMergeFinalizers_idem (existFinalizers newFinalizers : List String) :
    DedupeAndMergeFinalizers (DedupeAndMergeFinalizers existFinalizers newFinalizers) newFinalizers
      = DedupeAndMergeFinalizers existFinalizers newFinalizers := by
  simp only [DedupeAndMergeFinalizers, List.dedup_append]
  exact List.union_union_self _ _

theorem mutateSuspension_idem (desired current : Option Suspension) :
    mutateSuspension desired (mutateSuspension desired current) = mutateSuspension desired current := by
  cases desired <;> cases current <;> rfl

/-! ### The shape of the mutations and of the built bindings -/

theorem ApplyPolicy_mutateFn_of_owner_ok (uid : String) (binding bindingCopy : ResourceBinding)
    (hown : (GetControllerOfNoCopy bindingCopy.meta).filter (fun ownerRef => ownerRef.uid != uid)
      = none) :
    ApplyPolicy.mutateFn uid binding bindingCopy
      = (none, { meta := ApplyPolicy.mutatedMeta binding.meta bindingCopy.meta
                 spec := mutatedSpecRB binding.spec bindingCopy.spec }) := by
  unfold ApplyPolicy.mutateFn
  rw [hown]
  rfl

theorem ApplyClusterPolicy_mutateFnRB_of_owner_ok (uid : String)
    (binding bindingCopy : ResourceBinding)
    (hown : (GetControllerOfNoCopy bindingCopy.meta).filter (fun ownerRef => ownerRef.uid != uid)
      = none) :
    ApplyClusterPolicy.mutateFnRB uid binding bindingCopy
      = (none, { meta := ApplyClusterPolicy.mutatedMeta binding.meta bindingCopy.meta
                 spec := mutatedSpecRB binding.spec bindingCopy.spec }) := by
  unfold ApplyClusterPolicy.mutateFnRB
  rw [hown]
  rfl

theorem ApplyClusterPolicy_mutateFnCRB_of_owner_ok (uid : String)
    (binding bindingCopy : ClusterResourceBinding)
    (hown : (GetControllerOfNoCopy bindingCopy.meta).filter (fun ownerRef => ownerRef.uid != uid)
      = none) :
    ApplyClusterPolicy.mutateFnCRB uid binding bindingCopy
      = (none, { meta := ApplyClusterPolicy.mutatedMeta binding.meta bindingCopy.meta
                 spec := mutatedSpecCRB binding.spec bindingCopy.spec }) := by
  unfold ApplyClusterPolicy.mutateFnCRB
  rw [hown]
  rfl

theorem ApplyPolicy_mutateFn_of_owner_bad (uid : String) (binding bindingCopy : ResourceBinding)
    (ownerRef : OwnerReference)
    (hown : (GetControllerOfNoCopy bindingCopy.meta).filter (fun ownerRef => ownerRef.uid != uid)
      = some ownerRef) :
    ApplyPolicy.mutateFn uid binding bindingCopy = (some differentOwnerErr, bindingCopy) := by
  unfold ApplyPolicy.mutateFn
  rw [hown]

theorem ApplyClusterPolicy_mutateFnRB_of_owner_bad (uid : String)
    (binding bindingCopy : ResourceBinding) (ownerRef : OwnerReference)
    (hown : (GetControllerOfNoCopy bindingCopy.meta).filter (fun ownerRef => ownerRef.uid != uid)
      = some ownerRef) :
    ApplyClusterPolicy.mutateFnRB uid binding bindingCopy = (some differentOwnerErr, bindingCopy) := by
  unfold ApplyClusterPolicy.mutateFnRB
  rw [hown]

theorem ApplyClusterPolicy_mutateFnCRB_of_owner_bad (uid : String)
    (binding bindingCopy : ClusterResourceBinding) (ownerRef : OwnerReference)
    (hown : (GetControllerOfNoCopy bindingCopy.meta).filter (fun ownerRef => ownerRef.uid != uid)
      = some ownerRef) :
    ApplyClusterPolicy.mutateFnCRB uid binding bindingCopy
      = (some differentOwnerErr, bindingCopy) := by
  unfold ApplyClusterPolicy.mutateFnCRB
  rw [hown]

theorem mutatedSpecRB_idem (desired s : ResourceBindingSpec) :
    mutatedSpecRB desired (mutatedSpecRB desired s) = mutatedSpecRB desired s := by
  simp [mutatedSpecRB, mutateSuspension_idem]

theorem mutatedSpecCRB_idem (desired s : ResourceBindingSpec) :
    mutatedSpecCRB desired (mutatedSpecCRB desired s) = mutatedSpecCRB desired s := by
  simp [mutatedSpecCRB, mutateSuspension_idem]

theorem BuildResourceBinding_meta {σ : Type} (env : Env σ) (object : Unstructured)
    (policySpec : PropagationSpec) (policyID : String) (policyMeta : ObjectMeta)
    (claimFunc : ObjectMeta → String → ObjectMeta → ObjectMeta) (st st1 : σ)
    (binding : ResourceBinding)
    (h : BuildResourceBinding env object policySpec policyID policyMeta claimFunc st
      = (.ok binding, st1)) :
    binding.meta
      = claimFunc (builtMeta env object BindingControllerFinalizer object.meta.namespace)
          policyID policyMeta := by
  unfold BuildResourceBinding at h
  simp only at h
  split at h
  · simp at h
  · split at h
    · simp at h
    · simp only [Prod.mk.injEq, Except.ok.injEq] at h
      rw [← h.1]
      cases policySpec.suspension <;> rfl

theorem BuildClusterResourceBinding_meta {σ : Type} (env : Env σ) (object : Unstructured)
    (policySpec : PropagationSpec) (policyID : String) (policyMeta : ObjectMeta) (st st1 : σ)
    (binding : ClusterResourceBinding)
    (h : BuildClusterResourceBinding env object policySpec policyID policyMeta st
      = (.ok binding, st1)) :
    binding.meta
      = AddCPPClaimMetadata (builtMeta env object ClusterResourceBindingControllerFinalizer "")
          policyID policyMeta := by
  unfold BuildClusterResourceBinding at h
  simp only at h
  split at h
  · simp at h
  · simp only [Prod.mk.injEq, Except.ok.injEq] at h
    rw [← h.1]
    cases policySpec.suspension <;> rfl

/-! ### Idempotence of the metadata merge -/

theorem merge_single_lookup (m : StringMap) (k v : String) :
    (DedupeAndMergeLabels m [(k, v)]).lookup k = some v := by
  unfold DedupeAndMergeLabels
  split
  · simp [List.lookup]
  · simp [List.foldl, StringMap.lookup_set_self]

theorem merge_single_lookup_ne (m : StringMap) (k v k1 : String) (hne : k1 ≠ k) :
    (DedupeAndMergeLabels m [(k, v)]).lookup k1 = m.lookup k1 := by
  unfold DedupeAndMergeLabels
  split
  · rename_i hm
    have : m = [] := by simpa using hm
    subst this
    have h2 : (k1 == k) = false := by simp [hne]
    simp [List.lookup, h2]
  · simp [List.foldl, StringMap.lookup_set_ne _ _ _ _ hne]

theorem merge_single_fixed (m : StringMap) (k v : String) (h : m.lookup k = some v) :
    DedupeAndMergeLabels m [(k, v)] = m := by
  unfold DedupeAndMergeLabels
  rw [StringMap.ne_nil_of_lookup m k v h]
  simp [List.foldl, StringMap.set_eq_self m k v h]

theorem merge_pair_lookup_fst (m : StringMap) (k1 v1 k2 v2 : String) (hne : k1 ≠ k2) :
    (DedupeAndMergeAnnotations m [(k1, v1), (k2, v2)]).lookup k1 = some v1 := by
  unfold DedupeAndMergeAnnotations
  split
  · simp [List.lookup]
  · simp [List.foldl, StringMap.lookup_set_ne _ _ _ _ hne, StringMap.lookup_set_self]

theorem merge_pair_lookup_snd (m : StringMap) (k1 v1 k2 v2 : String) (hne : k1 ≠ k2) :
    (DedupeAndMergeAnnotations m [(k1, v1), (k2, v2)]).lookup k2 = some v2 := by
  unfold DedupeAndMergeAnnotations
  split
  · have h2 : (k2 == k1) = false := by
      simp; exact fun h3 => hne h3.symm
    simp [List.lookup, h2]
  · simp [List.foldl, StringMap.lookup_set_self]

theorem merge_pair_fixed (m : StringMap) (k1 v1 k2 v2 : String)
    (h1 : m.lookup k1 = some v1) (h2 : m.lookup k2 = some v2) :
    DedupeAndMergeAnnotations m [(k1, v1), (k2, v2)] = m := by
  unfold DedupeAndMergeAnnotations
  rw [StringMap.ne_nil_of_lookup m k1 v1 h1]
  simp [List.foldl, StringMap.set_eq_self m k1 v1 h1, StringMap.set_eq_self m k2 v2 h2]

theorem merge_annotations_single_lookup (m : StringMap) (k v : String) :
    (DedupeAndMergeAnnotations m [(k, v)]).lookup k = some v :=
  merge_single_lookup m k v

theorem merge_annotations_single_fixed (m : StringMap) (k v : String) (h : m.lookup k = some v) :
    DedupeAndMergeAnnotations m [(k, v)] = m :=
  merge_single_fixed m k v h

/-- A metadata on which the mutation of `ApplyPolicy` has nothing left to do. -/
theorem ApplyPolicy_mutatedMeta_fixed (desired b : ObjectMeta) (id ns nm : String)
    (hl : desired.labels = [(PropagationPolicyPermanentIDLabel, id)])
    (ha : desired.annotations
      = [( PropagationPolicyNamespaceAnnotation, ns), ( PropagationPolicyNameAnnotation, nm)])
    (h1 : b.labels.lookup PropagationPolicyPermanentIDLabel = some id)
    (h2 : b.labels.has ClusterPropagationPolicyPermanentIDLabel = false)
    (h3 : b.annotations.lookup PropagationPolicyNamespaceAnnotation = some ns)
    (h4 : b.annotations.lookup PropagationPolicyNameAnnotation = some nm)
    (h5 : DedupeAndMergeFinalizers b.finalizers desired.finalizers = b.finalizers)
    (h6 : b.ownerReferences = desired.ownerReferences) :
    ApplyPolicy.mutatedMeta desired b = b := by
  unfold ApplyPolicy.mutatedMeta
  simp only [hl, ha, merge_single_fixed _ _ _ h1, merge_pair_fixed _ _ _ _ _ h3 h4, h5, ← h6]
  simp [excludeClusterPolicy, h2]

/-- What the mutation of `ApplyPolicy` establishes on every metadata. -/
theorem ApplyPolicy_mutatedMeta_settles (desired m : ObjectMeta) (id ns nm : String)
    (hl : desired.labels = [(PropagationPolicyPermanentIDLabel, id)])
    (ha : desired.annotations
      = [( PropagationPolicyNamespaceAnnotation, ns), ( PropagationPolicyNameAnnotation, nm)]) :
    (ApplyPolicy.mutatedMeta desired m).labels.lookup PropagationPolicyPermanentIDLabel = some id ∧
    (ApplyPolicy.mutatedMeta desired m).labels.has ClusterPropagationPolicyPermanentIDLabel = false ∧
    (ApplyPolicy.mutatedMeta desired m).annotations.lookup PropagationPolicyNamespaceAnnotation
      = some ns ∧
    (ApplyPolicy.mutatedMeta desired m).annotations.lookup PropagationPolicyNameAnnotation
      = some nm ∧
    DedupeAndMergeFinalizers (ApplyPolicy.mutatedMeta desired m).finalizers desired.finalizers
      = (ApplyPolicy.mutatedMeta desired m).finalizers ∧
    (ApplyPolicy.mutatedMeta desired m).ownerReferences = desired.ownerReferences := by
  have hPC : PropagationPolicyPermanentIDLabel ≠ ClusterPropagationPolicyPermanentIDLabel := by
    decide
  have hNC : PropagationPolicyNamespaceAnnotation ≠ ClusterPropagationPolicyAnnotation := by decide
  have hMC : PropagationPolicyNameAnnotation ≠ ClusterPropagationPolicyAnnotation := by decide
  have hNM : PropagationPolicyNamespaceAnnotation ≠ PropagationPolicyNameAnnotation := by decide
  unfold ApplyPolicy.mutatedMeta
  simp only [hl, ha]
  unfold excludeClusterPolicy
  simp only
  split
  · rename_i hhas
    simp only [Bool.not_eq_true', Bool.not_eq_eq_eq_not, Bool.not_true] at hhas
    refine ⟨merge_single_lookup _ _ _, ?_, merge_pair_lookup_fst _ _ _ _ _ hNM,
      merge_pair_lookup_snd _ _ _ _ _ hNM, DedupeAndMergeFinalizers_idem _ _, rfl⟩
    simpa using hhas
  · refine ⟨?_, ?_, ?_, ?_, DedupeAndMergeFinalizers_idem _ _, rfl⟩
    · simp only [CleanupCPPClaimMetadata]
      rw [StringMap.lookup_del_ne _ _ _ hPC]
      exact merge_single_lookup _ _ _
    · simp only [CleanupCPPClaimMetadata]
      exact StringMap.has_del_self _ _
    · simp only [CleanupCPPClaimMetadata]
      rw [StringMap.lookup_del_ne _ _ _ hNC]
      exact merge_pair_lookup_fst _ _ _ _ _ hNM
    · simp only [CleanupCPPClaimMetadata]
      rw [StringMap.lookup_del_ne _ _ _ hMC]
      exact merge_pair_lookup_snd _ _ _ _ _ hNM

theorem ApplyPolicy_mutatedMeta_idem (desired m : ObjectMeta) (id ns nm : String)
    (hl : desired.labels = [(PropagationPolicyPermanentIDLabel, id)])
    (ha : desired.annotations
      = [( PropagationPolicyNamespaceAnnotation, ns), ( PropagationPolicyNameAnnotation, nm)]) :
    ApplyPolicy.mutatedMeta desired (ApplyPolicy.mutatedMeta desired m)
      = ApplyPolicy.mutatedMeta desired m := by
  obtain ⟨h1, h2, h3, h4, h5, h6⟩ := ApplyPolicy_mutatedMeta_settles desired m id ns nm hl ha
  exact ApplyPolicy_mutatedMeta_fixed desired _ id ns nm hl ha h1 h2 h3 h4 h5 h6

/-- A metadata on which the mutations of `ApplyClusterPolicy` have nothing left to do. -/
theorem ApplyClusterPolicy_mutatedMeta_fixed (desired b : ObjectMeta) (id nm : String)
    (hl : desired.labels = [(ClusterPropagationPolicyPermanentIDLabel, id)])
    (ha : desired.annotations = [( ClusterPropagationPolicyAnnotation, nm)])
    (h1 : b.labels.lookup ClusterPropagationPolicyPermanentIDLabel = some id)
    (h3 : b.annotations.lookup ClusterPropagationPolicyAnnotation = some nm)
    (h5 : DedupeAndMergeFinalizers b.finalizers desired.finalizers = b.finalizers)
    (h6 : b.ownerReferences = desired.ownerReferences) :
    ApplyClusterPolicy.mutatedMeta desired b = b := by
  unfold ApplyClusterPolicy.mutatedMeta
  simp only [hl, ha, merge_single_fixed _ _ _ h1, merge_annotations_single_fixed _ _ _ h3, h5,
    ← h6]

theorem ApplyClusterPolicy_mutatedMeta_idem (desired m : ObjectMeta) (id nm : String)
    (hl : desired.labels = [(ClusterPropagationPolicyPermanentIDLabel, id)])
    (ha : desired.annotations = [( ClusterPropagationPolicyAnnotation, nm)]) :
    ApplyClusterPolicy.mutatedMeta desired (ApplyClusterPolicy.mutatedMeta desired m)
      = ApplyClusterPolicy.mutatedMeta desired m := by
  apply ApplyClusterPolicy_mutatedMeta_fixed desired _ id nm hl ha
  · simp only [ApplyClusterPolicy.mutatedMeta, hl]
    exact merge_single_lookup _ _ _
  · simp only [ApplyClusterPolicy.mutatedMeta, ha]
    exact merge_annotations_single_lookup _ _ _
  · simp only [ApplyClusterPolicy.mutatedMeta]
    exact DedupeAndMergeFinalizers_idem _ _
  · rfl

/-! ### Idempotence of the update mutations -/

theorem ApplyPolicy_mutateFn_idem (uid : String) (binding e : ResourceBinding) (id ns nm : String)
    (hl : binding.meta.labels = [(PropagationPolicyPermanentIDLabel, id)])
    (ha : binding.meta.annotations
      = [( PropagationPolicyNamespaceAnnotation, ns), ( PropagationPolicyNameAnnotation, nm)]) :
    (ApplyPolicy.mutateFn uid binding (ApplyPolicy.mutateFn uid binding e).2).2
      = (ApplyPolicy.mutateFn uid binding e).2 := by
  cases h1 : (GetControllerOfNoCopy e.meta).filter (fun ownerRef => ownerRef.uid != uid) with
  | some r =>
    rw [ApplyPolicy_mutateFn_of_owner_bad _ binding e r h1]
    simp only
    rw [ApplyPolicy_mutateFn_of_owner_bad _ binding e r h1]
  | none =>
    rw [ApplyPolicy_mutateFn_of_owner_ok _ binding e h1]
    simp only
    cases h2 : (GetControllerOfNoCopy (ApplyPolicy.mutatedMeta binding.meta e.meta)).filter
        (fun ownerRef => ownerRef.uid != uid) with
    | some r =>
      rw [ApplyPolicy_mutateFn_of_owner_bad uid binding
        { meta := ApplyPolicy.mutatedMeta binding.meta e.meta
          spec := mutatedSpecRB binding.spec e.spec } r h2]
    | none =>
      rw [ApplyPolicy_mutateFn_of_owner_ok uid binding
        { meta := ApplyPolicy.mutatedMeta binding.meta e.meta
          spec := mutatedSpecRB binding.spec e.spec } h2]
      simp only [ApplyPolicy_mutatedMeta_idem _ _ id ns nm hl ha, mutatedSpecRB_idem]

theorem ApplyClusterPolicy_mutateFnRB_idem (uid : String) (binding e : ResourceBinding)
    (id nm : String)
    (hl : binding.meta.labels = [(ClusterPropagationPolicyPermanentIDLabel, id)])
    (ha : binding.meta.annotations = [( ClusterPropagationPolicyAnnotation, nm)]) :
    (ApplyClusterPolicy.mutateFnRB uid binding (ApplyClusterPolicy.mutateFnRB uid binding e).2).2
      = (ApplyClusterPolicy.mutateFnRB uid binding e).2 := by
  cases h1 : (GetControllerOfNoCopy e.meta).filter (fun ownerRef => ownerRef.uid != uid) with
  | some r =>
    rw [ApplyClusterPolicy_mutateFnRB_of_owner_bad _ binding e r h1]
    simp only
    rw [ApplyClusterPolicy_mutateFnRB_of_owner_bad _ binding e r h1]
  | none =>
    rw [ApplyClusterPolicy_mutateFnRB_of_owner_ok _ binding e h1]
    simp only
    cases h2 : (GetControllerOfNoCopy (ApplyClusterPolicy.mutatedMeta binding.meta e.meta)).filter
        (fun ownerRef => ownerRef.uid != uid) with
    | some r =>
      rw [ApplyClusterPolicy_mutateFnRB_of_owner_bad uid binding
        { meta := ApplyClusterPolicy.mutatedMeta binding.meta e.meta
          spec := mutatedSpecRB binding.spec e.spec } r h2]
    | none =>
      rw [ApplyClusterPolicy_mutateFnRB_of_owner_ok uid binding
        { meta := ApplyClusterPolicy.mutatedMeta binding.meta e.meta
          spec := mutatedSpecRB binding.spec e.spec } h2]
      simp only [ApplyClusterPolicy_mutatedMeta_idem _ _ id nm hl ha, mutatedSpecRB_idem]

theorem ApplyClusterPolicy_mutateFnCRB_idem (uid : String) (binding e : ClusterResourceBinding)
    (id nm : String)
    (hl : binding.meta.labels = [(ClusterPropagationPolicyPermanentIDLabel, id)])
    (ha : binding.meta.annotations = [( ClusterPropagationPolicyAnnotation, nm)]) :
    (ApplyClusterPolicy.mutateFnCRB uid binding (ApplyClusterPolicy.mutateFnCRB uid binding e).2).2
      = (ApplyClusterPolicy.mutateFnCRB uid binding e).2 := by
  cases h1 : (GetControllerOfNoCopy e.meta).filter (fun ownerRef => ownerRef.uid != uid) with
  | some r =>
    rw [ApplyClusterPolicy_mutateFnCRB_of_owner_bad _ binding e r h1]
    simp only
    rw [ApplyClusterPolicy_mutateFnCRB_of_owner_bad _ binding e r h1]
  | none =>
    rw [ApplyClusterPolicy_mutateFnCRB_of_owner_ok _ binding e h1]
    simp only
    cases h2 : (GetControllerOfNoCopy (ApplyClusterPolicy.mutatedMeta binding.meta e.meta)).filter
        (fun ownerRef => ownerRef.uid != uid) with
    | some r =>
      rw [ApplyClusterPolicy_mutateFnCRB_of_owner_bad uid binding
        { meta := ApplyClusterPolicy.mutatedMeta binding.meta e.meta
          spec := mutatedSpecCRB binding.spec e.spec } r h2]
    | none =>
      rw [ApplyClusterPolicy_mutateFnCRB_of_owner_ok uid binding
        { meta := ApplyClusterPolicy.mutatedMeta binding.meta e.meta
          spec := mutatedSpecCRB binding.spec e.spec } h2]
      simp only [ApplyClusterPolicy_mutatedMeta_idem _ _ id nm hl ha, mutatedSpecCRB_idem]

theorem AddPPClaimMetadata_built_labels {σ : Type} (env : Env σ) (object : Unstructured)
    (finalizer ns policyID : String) (policyMeta : ObjectMeta) :
    (AddPPClaimMetadata (builtMeta env object finalizer ns) policyID policyMeta).labels
      = [(PropagationPolicyPermanentIDLabel, policyID)] := rfl

theorem AddPPClaimMetadata_built_annotations {σ : Type} (env : Env σ) (object : Unstructured)
    (finalizer ns policyID : String) (policyMeta : ObjectMeta) :
    (AddPPClaimMetadata (builtMeta env object finalizer ns) policyID policyMeta).annotations
      = [( PropagationPolicyNamespaceAnnotation, policyMeta.namespace),
         ( PropagationPolicyNameAnnotation, policyMeta.name)] := by
  have hNM : PropagationPolicyNamespaceAnnotation ≠ PropagationPolicyNameAnnotation := by decide
  simp [AddPPClaimMetadata, builtMeta, StringMap.set, hNM]

theorem AddCPPClaimMetadata_built_labels {σ : Type} (env : Env σ) (object : Unstructured)
    (finalizer ns policyID : String) (policyMeta : ObjectMeta) :
    (AddCPPClaimMetadata (builtMeta env object finalizer ns) policyID policyMeta).labels
      = [(ClusterPropagationPolicyPermanentIDLabel, policyID)] := rfl

theorem AddCPPClaimMetadata_built_annotations {σ : Type} (env : Env σ) (object : Unstructured)
    (finalizer ns policyID : String) (policyMeta : ObjectMeta) :
    (AddCPPClaimMetadata (builtMeta env object finalizer ns) policyID policyMeta).annotations
      = [( ClusterPropagationPolicyAnnotation, policyMeta.name)] := rfl

/-- The owner check passes on a metadata whose owner references are those of a built
binding, against the UID of the template it was built from. -/
theorem owner_filter_of_built (meta : ObjectMeta) (object : Unstructured) (gvk : GroupVersionKind)
    (h : meta.ownerReferences = [NewControllerRef object gvk]) :
    (GetControllerOfNoCopy meta).filter (fun ownerRef => ownerRef.uid != object.meta.uid) = none := by
  simp [GetControllerOfNoCopy, h, NewControllerRef, List.find?, Option.filter]

theorem filter_none_of_mutateFn_ok (uid : String) (binding e : ResourceBinding)
    (h : (ApplyPolicy.mutateFn uid binding e).1 = none) :
    (GetControllerOfNoCopy e.meta).filter (fun ownerRef => ownerRef.uid != uid) = none := by
  cases h1 : (GetControllerOfNoCopy e.meta).filter (fun ownerRef => ownerRef.uid != uid) with
  | none => rfl
  | some r =>
    rw [ApplyPolicy_mutateFn_of_owner_bad _ binding e r h1] at h
    simp at h

theorem filter_none_of_mutateFnRB_ok (uid : String) (binding e : ResourceBinding)
    (h : (ApplyClusterPolicy.mutateFnRB uid binding e).1 = none) :
    (GetControllerOfNoCopy e.meta).filter (fun ownerRef => ownerRef.uid != uid) = none := by
  cases h1 : (GetControllerOfNoCopy e.meta).filter (fun ownerRef => ownerRef.uid != uid) with
  | none => rfl
  | some r =>
    rw [ApplyClusterPolicy_mutateFnRB_of_owner_bad _ binding e r h1] at h
    simp at h

theorem filter_none_of_mutateFnCRB_ok (uid : String) (binding e : ClusterResourceBinding)
    (h : (ApplyClusterPolicy.mutateFnCRB uid binding e).1 = none) :
    (GetControllerOfNoCopy e.meta).filter (fun ownerRef => ownerRef.uid != uid) = none := by
  cases h1 : (GetControllerOfNoCopy e.meta).filter (fun ownerRef => ownerRef.uid != uid) with
  | none => rfl
  | some r =>
    rw [ApplyClusterPolicy_mutateFnCRB_of_owner_bad _ binding e r h1] at h
    simp at h

/-- On the result of an earlier successful mutation with the same built binding, the
mutation of `ApplyPolicy` succeeds and changes nothing. -/
theorem ApplyPolicy_mutateFn_converged {σ : Type} (env : Env σ) (object : Unstructured)
    (policySpec : PropagationSpec) (policyID : String) (policyMeta : ObjectMeta) (st st1 : σ)
    (binding e : ResourceBinding)
    (hbuild : BuildResourceBinding env object policySpec policyID policyMeta AddPPClaimMetadata st
      = (.ok binding, st1))
    (hfirst : (ApplyPolicy.mutateFn object.meta.uid binding e).1 = none) :
    ApplyPolicy.mutateFn object.meta.uid binding (ApplyPolicy.mutateFn object.meta.uid binding e).2
      = (none, (ApplyPolicy.mutateFn object.meta.uid binding e).2) := by
  have hmeta := BuildResourceBinding_meta env object policySpec policyID policyMeta _ st st1
    binding hbuild
  have hl : binding.meta.labels = [(PropagationPolicyPermanentIDLabel, policyID)] := by
    rw [hmeta]; exact AddPPClaimMetadata_built_labels env object _ _ policyID policyMeta
  have ha := AddPPClaimMetadata_built_annotations env object BindingControllerFinalizer
    object.meta.namespace policyID policyMeta
  rw [← hmeta] at ha
  have h1 := filter_none_of_mutateFn_ok _ binding e hfirst
  have hown : binding.meta.ownerReferences = [NewControllerRef object object.GroupVersionKind] := by
    rw [hmeta]; rfl
  rw [ApplyPolicy_mutateFn_of_owner_ok _ binding e h1]
  simp only
  have hsettled := ApplyPolicy_mutatedMeta_settles binding.meta e.meta policyID
    policyMeta.namespace policyMeta.name hl ha
  have h2 := owner_filter_of_built (ApplyPolicy.mutatedMeta binding.meta e.meta) object
    object.GroupVersionKind (by rw [hsettled.2.2.2.2.2, hown])
  rw [ApplyPolicy_mutateFn_of_owner_ok object.meta.uid binding
    { meta := ApplyPolicy.mutatedMeta binding.meta e.meta
      spec := mutatedSpecRB binding.spec e.spec } h2]
  simp only [ApplyPolicy_mutatedMeta_idem _ _ policyID policyMeta.namespace policyMeta.name hl ha,
    mutatedSpecRB_idem]

theorem ApplyClusterPolicy_mutatedMeta_owner (desired m : ObjectMeta) :
    (ApplyClusterPolicy.mutatedMeta desired m).ownerReferences = desired.ownerReferences := rfl

/-- On the result of an earlier successful mutation with the same built binding, the
ResourceBinding mutation of `ApplyClusterPolicy` succeeds and changes nothing. -/
theorem ApplyClusterPolicy_mutateFnRB_converged {σ : Type} (env : Env σ) (object : Unstructured)
    (policySpec : PropagationSpec) (policyID : String) (policyMeta : ObjectMeta) (st st1 : σ)
    (binding e : ResourceBinding)
    (hbuild : BuildResourceBinding env object policySpec policyID policyMeta AddCPPClaimMetadata st
      = (.ok binding, st1))
    (hfirst : (ApplyClusterPolicy.mutateFnRB object.meta.uid binding e).1 = none) :
    ApplyClusterPolicy.mutateFnRB object.meta.uid binding
        (ApplyClusterPolicy.mutateFnRB object.meta.uid binding e).2
      = (none, (ApplyClusterPolicy.mutateFnRB object.meta.uid binding e).2) := by
  have hmeta := BuildResourceBinding_meta env object policySpec policyID policyMeta _ st st1
    binding hbuild
  have hl : binding.meta.labels = [(ClusterPropagationPolicyPermanentIDLabel, policyID)] := by
    rw [hmeta]; rfl
  have ha : binding.meta.annotations = [( ClusterPropagationPolicyAnnotation, policyMeta.name)] := by
    rw [hmeta]; rfl
  have h1 := filter_none_of_mutateFnRB_ok _ binding e hfirst
  have hown : binding.meta.ownerReferences = [NewControllerRef object object.GroupVersionKind] := by
    rw [hmeta]; rfl
  rw [ApplyClusterPolicy_mutateFnRB_of_owner_ok _ binding e h1]
  simp only
  have h2 := owner_filter_of_built (ApplyClusterPolicy.mutatedMeta binding.meta e.meta) object
    object.GroupVersionKind (by rw [ApplyClusterPolicy_mutatedMeta_owner, hown])
  rw [ApplyClusterPolicy_mutateFnRB_of_owner_ok object.meta.uid binding
    { meta := ApplyClusterPolicy.mutatedMeta binding.meta e.meta
      spec := mutatedSpecRB binding.spec e.spec } h2]
  simp only [ApplyClusterPolicy_mutatedMeta_idem _ _ policyID policyMeta.name hl ha,
    mutatedSpecRB_idem]

/-- On the result of an earlier successful mutation with the same built binding, the
ClusterResourceBinding mutation of `ApplyClusterPolicy` succeeds and changes nothing. -/
theorem ApplyClusterPolicy_mutateFnCRB_converged {σ : Type} (env : Env σ) (object : Unstructured)
    (policySpec : PropagationSpec) (policyID : String) (policyMeta : ObjectMeta) (st st1 : σ)
    (binding e : ClusterResourceBinding)
    (hbuild : BuildClusterResourceBinding env object policySpec policyID policyMeta st
      = (.ok binding, st1))
    (hfirst : (ApplyClusterPolicy.mutateFnCRB object.meta.uid binding e).1 = none) :
    ApplyClusterPolicy.mutateFnCRB object.meta.uid binding
        (ApplyClusterPolicy.mutateFnCRB object.meta.uid binding e).2
      = (none, (ApplyClusterPolicy.mutateFnCRB object.meta.uid binding e).2) := by
  have hmeta := BuildClusterResourceBinding_meta env object policySpec policyID policyMeta st st1
    binding hbuild
  have hl : binding.meta.labels = [(ClusterPropagationPolicyPermanentIDLabel, policyID)] := by
    rw [hmeta]; rfl
  have ha : binding.meta.annotations = [( ClusterPropagationPolicyAnnotation, policyMeta.name)] := by
    rw [hmeta]; rfl
  have h1 := filter_none_of_mutateFnCRB_ok _ binding e hfirst
  have hown : binding.meta.ownerReferences = [NewControllerRef object object.GroupVersionKind] := by
    rw [hmeta]; rfl
  rw [ApplyClusterPolicy_mutateFnCRB_of_owner_ok _ binding e h1]
  simp only
  have h2 := owner_filter_of_built (ApplyClusterPolicy.mutatedMeta binding.meta e.meta) object
    object.GroupVersionKind (by rw [ApplyClusterPolicy_mutatedMeta_owner, hown])
  rw [ApplyClusterPolicy_mutateFnCRB_of_owner_ok object.meta.uid binding
    { meta := ApplyClusterPolicy.mutatedMeta binding.meta e.meta
      spec := mutatedSpecCRB binding.spec e.spec } h2]
  simp only [ApplyClusterPolicy_mutatedMeta_idem _ _ policyID policyMeta.name hl ha,
    mutatedSpecCRB_idem]

/-- C16: the update mutations are idempotent on every existing binding, for every
desired binding the builders return; and when the store holds the result of an
earlier successful mutation with the same desired binding, the Apply call reports
operation result none, returns nil and issues no write beyond the claim step. -/
theorem mutation_idempotent :
    (∀ (σ : Type) (env : Env σ) (object : Unstructured) (policySpec : PropagationSpec)
        (policyID : String) (policyMeta : ObjectMeta) (st st1 : σ) (binding e : ResourceBinding)
        (uid : String),
      BuildResourceBinding env object policySpec policyID policyMeta AddPPClaimMetadata st
        = (.ok binding, st1) →
      (ApplyPolicy.mutateFn uid binding (ApplyPolicy.mutateFn uid binding e).2).2
        = (ApplyPolicy.mutateFn uid binding e).2) ∧
    (∀ (σ : Type) (env : Env σ) (object : Unstructured) (policySpec : PropagationSpec)
        (policyID : String) (policyMeta : ObjectMeta) (st st1 : σ) (binding e : ResourceBinding)
        (uid : String),
      BuildResourceBinding env object policySpec policyID policyMeta AddCPPClaimMetadata st
        = (.ok binding, st1) →
      (ApplyClusterPolicy.mutateFnRB uid binding (ApplyClusterPolicy.mutateFnRB uid binding e).2).2
        = (ApplyClusterPolicy.mutateFnRB uid binding e).2) ∧
    (∀ (σ : Type) (env : Env σ) (object : Unstructured) (policySpec : PropagationSpec)
        (policyID : String) (policyMeta : ObjectMeta) (st st1 : σ)
        (binding e : ClusterResourceBinding) (uid : String),
      BuildClusterResourceBinding env object policySpec policyID policyMeta st
        = (.ok binding, st1) →
      (ApplyClusterPolicy.mutateFnCRB uid binding
          (ApplyClusterPolicy.mutateFnCRB uid binding e).2).2
        = (ApplyClusterPolicy.mutateFnCRB uid binding e).2) ∧
    (∀ (σ : Type) (env : Env σ) (object : Unstructured) (flag : Bool) (policy : PropagationPolicy)
        (w : World σ) (binding e : ResourceBinding) (st st1 : σ),
      (ClaimPolicyForObject env object policy w).1.2.2 = none →
      (flag && IsLazyActivationEnabled policy.spec.activationPreference) = false →
      BuildResourceBinding env (ClaimPolicyForObject env object policy w).1.1 policy.spec
        (ClaimPolicyForObject env object policy w).1.2.1 policy.meta AddPPClaimMetadata
        (ClaimPolicyForObject env object policy w).2.store = (.ok binding, st) →
      (ApplyPolicy.mutateFn (ClaimPolicyForObject env object policy w).1.1.meta.uid binding e).1
        = none →
      env.GetRB st binding.meta.namespace binding.meta.name
        = (.ok (ApplyPolicy.mutateFn (ClaimPolicyForObject env object policy w).1.1.meta.uid
            binding e).2, st1) →
      env.rbClient.key (ApplyPolicy.mutateFn (ClaimPolicyForObject env object policy w).1.1.meta.uid
          binding e).2 = env.rbClient.key binding →
      ApplyPolicy env object flag policy w
        = ((Outcome.returned none, OperationResult.None),
            (ClaimPolicyForObject env object policy w).2.withStore st1)) ∧
    (∀ (σ : Type) (env : Env σ) (object : Unstructured) (flag : Bool)
        (policy : ClusterPropagationPolicy) (w : World σ) (binding e : ResourceBinding)
        (st st1 : σ),
      (ClaimClusterPolicyForObject env object policy w).1.2.2 = none →
      (flag && IsLazyActivationEnabled policy.spec.activationPreference) = false →
      (ClaimClusterPolicyForObject env object policy w).1.1.meta.namespace ≠ "" →
      BuildResourceBinding env (ClaimClusterPolicyForObject env object policy w).1.1 policy.spec
        (ClaimClusterPolicyForObject env object policy w).1.2.1 policy.meta AddCPPClaimMetadata
        (ClaimClusterPolicyForObject env object policy w).2.store = (.ok binding, st) →
      (ApplyClusterPolicy.mutateFnRB (ClaimClusterPolicyForObject env object policy w).1.1.meta.uid
          binding e).1 = none →
      env.GetRB st binding.meta.namespace binding.meta.name
        = (.ok (ApplyClusterPolicy.mutateFnRB
            (ClaimClusterPolicyForObject env object policy w).1.1.meta.uid binding e).2, st1) →
      env.rbClient.key (ApplyClusterPolicy.mutateFnRB
          (ClaimClusterPolicyForObject env object policy w).1.1.meta.uid binding e).2
        = env.rbClient.key binding →
      ApplyClusterPolicy env object flag policy w
        = ((Outcome.returned none, OperationResult.None),
            (ClaimClusterPolicyForObject env object policy w).2.withStore st1)) ∧
    (∀ (σ : Type) (env : Env σ) (object : Unstructured) (flag : Bool)
        (policy : ClusterPropagationPolicy) (w : World σ) (binding e : ClusterResourceBinding)
        (st st1 : σ),
      (ClaimClusterPolicyForObject env object policy w).1.2.2 = none →
      (flag && IsLazyActivationEnabled policy.spec.activationPreference) = false →
      (ClaimClusterPolicyForObject env object policy w).1.1.meta.namespace = "" →
      BuildClusterResourceBinding env (ClaimClusterPolicyForObject env object policy w).1.1
        policy.spec (ClaimClusterPolicyForObject env object policy w).1.2.1 policy.meta
        (ClaimClusterPolicyForObject env object policy w).2.store = (.ok binding, st) →
      (ApplyClusterPolicy.mutateFnCRB (ClaimClusterPolicyForObject env object policy w).1.1.meta.uid
          binding e).1 = none →
      env.GetCRB st binding.meta.name
        = (.ok (ApplyClusterPolicy.mutateFnCRB
            (ClaimClusterPolicyForObject env object policy w).1.1.meta.uid binding e).2, st1) →
      env.crbClient.key (ApplyClusterPolicy.mutateFnCRB
          (ClaimClusterPolicyForObject env object policy w).1.1.meta.uid binding e).2
        = env.crbClient.key binding →
      ApplyClusterPolicy env object flag policy w
        = ((Outcome.returned none, OperationResult.None),
            (ClaimClusterPolicyForObject env object policy w).2.withStore st1)) := by
  refine ⟨?_, ?_, ?_, ?_, ?_, ?_⟩
  · intro σ env object policySpec policyID policyMeta st st1 binding e uid hbuild
    have hmeta := BuildResourceBinding_meta env object policySpec policyID policyMeta _ st st1
      binding hbuild
    have ha := AddPPClaimMetadata_built_annotations env object BindingControllerFinalizer
      object.meta.namespace policyID policyMeta
    rw [← hmeta] at ha
    exact ApplyPolicy_mutateFn_idem uid binding e policyID policyMeta.namespace policyMeta.name
      (by rw [hmeta]; rfl) ha
  · intro σ env object policySpec policyID policyMeta st st1 binding e uid hbuild
    have hmeta := BuildResourceBinding_meta env object policySpec policyID policyMeta _ st st1
      binding hbuild
    exact ApplyClusterPolicy_mutateFnRB_idem uid binding e policyID policyMeta.name
      (by rw [hmeta]; rfl) (by rw [hmeta]; rfl)
  · intro σ env object policySpec policyID policyMeta st st1 binding e uid hbuild
    have hmeta := BuildClusterResourceBinding_meta env object policySpec policyID policyMeta st st1
      binding hbuild
    exact ApplyClusterPolicy_mutateFnCRB_idem uid binding e policyID policyMeta.name
      (by rw [hmeta]; rfl) (by rw [hmeta]; rfl)
  · intro σ env object flag policy w binding e st st1 hclaim hlazy hbuild hfirst hget hkey
    rw [ApplyPolicy_of_build_ok env object flag policy w binding st hclaim hlazy hbuild]
    exact retried_apply_unchanged env.rbClient _ binding _ _ st1 hget
      (ApplyPolicy_mutateFn_converged env _ policy.spec _ policy.meta _ st binding e hbuild hfirst)
      hkey
  · intro σ env object flag policy w binding e st st1 hclaim hlazy hns hbuild hfirst hget hkey
    rw [ApplyClusterPolicy_of_build_ok_rb env object flag policy w binding st hclaim hlazy hns
      hbuild]
    exact retried_apply_unchanged env.rbClient _ binding _ _ st1 hget
      (ApplyClusterPolicy_mutateFnRB_converged env _ policy.spec _ policy.meta _ st binding e
        hbuild hfirst) hkey
  · intro σ env object flag policy w binding e st st1 hclaim hlazy hns hbuild hfirst hget hkey
    rw [ApplyClusterPolicy_of_build_ok_crb env object flag policy w binding st hclaim hlazy hns
      hbuild]
    exact retried_apply_unchanged env.crbClient _ binding _ _ st1 hget
      (ApplyClusterPolicy_mutateFnCRB_converged env _ policy.spec _ policy.meta _ st binding e
        hbuild hfirst) hkey

/-- Witness of C16: the store holds the binding of `web` as the last sync under the
edited `p1` left it; a second `ApplyPolicy` returns nil with operation result none
and writes nothing. -/
theorem mutation_idempotent_witness :
    ApplyPolicy convergedEnv claimedByP1Template false editedP1 quietWorld
      = ((Outcome.returned none, OperationResult.None),
          (ClaimPolicyForObject convergedEnv claimedByP1Template editedP1 quietWorld).2.withStore ()) ∧
    (ApplyPolicy convergedEnv claimedByP1Template false editedP1 quietWorld).2.log = [] :=
  have h := mutation_idempotent.2.2.2.1 Unit convergedEnv claimedByP1Template false editedP1
    quietWorld
    (BuildResourceBinding convergedEnv claimedByP1Template editedP1.spec "pp-1" editedP1.meta
      AddPPClaimMetadata ()).1.toOption.get!
    convergedWebBinding () () rfl rfl rfl rfl rfl (by decide)
  ⟨h, by rw [h]; rfl⟩


/-! ### What the builders put into the spec -/

theorem interpretReplicas_resource {σ : Type} (env : Env σ) (object : Unstructured)
    (spec spec1 : ResourceBindingSpec) (st st1 : σ)
    (h : interpretReplicas env object spec st = (.ok spec1, st1)) :
    spec1.resource = spec.resource ∧ spec1.schedulePriority = spec.schedulePriority := by
  unfold interpretReplicas at h
  split at h
  · split at h
    · simp at h
    · simp only [Prod.mk.injEq, Except.ok.injEq] at h
      rw [← h.1]
      exact ⟨rfl, rfl⟩
  · simp only [Prod.mk.injEq, Except.ok.injEq] at h
    rw [← h.1]
    exact ⟨rfl, rfl⟩

theorem resolveSchedulePriority_resource {σ : Type} (env : Env σ) (policySpec : PropagationSpec)
    (spec spec1 : ResourceBindingSpec) (st st1 : σ)
    (h : resolveSchedulePriority env policySpec spec st = (.ok spec1, st1)) :
    spec1.resource = spec.resource := by
  unfold resolveSchedulePriority at h
  split at h
  · split at h
    · split at h
      · split at h
        · simp at h
        · simp only [Prod.mk.injEq, Except.ok.injEq] at h
          rw [← h.1]
      · split at h
        · simp at h
        · split at h <;> simp at h
    · simp only [Prod.mk.injEq, Except.ok.injEq] at h
      rw [← h.1]
  · simp only [Prod.mk.injEq, Except.ok.injEq] at h
    rw [← h.1]

/-- With the feature disabled or no schedule priority declared, the schedule-priority
step does nothing. -/
theorem resolveSchedulePriority_skipped {σ : Type} (env : Env σ) (policySpec : PropagationSpec)
    (spec : ResourceBindingSpec) (st : σ)
    (h : env.PriorityBasedSchedulingEnabled = false ∨ policySpec.schedulePriority = none) :
    resolveSchedulePriority env policySpec spec st = (.ok spec, st) := by
  unfold resolveSchedulePriority
  cases hsp : policySpec.schedulePriority with
  | none => rfl
  | some sp =>
    rcases h with h | h
    · simp [h]
    · rw [hsp] at h
      simp at h

/-- With the feature enabled and a source other than KubePriorityClass, the
schedule-priority step fails. -/
theorem resolveSchedulePriority_unsupported {σ : Type} (env : Env σ) (policySpec : PropagationSpec)
    (spec : ResourceBindingSpec) (st : σ) (sp : PolicySchedulePriority)
    (hen : env.PriorityBasedSchedulingEnabled = true) (hsp : policySpec.schedulePriority = some sp)
    (hsrc : sp.priorityClassSource ≠ KubePriorityClass) :
    ∃ err, resolveSchedulePriority env policySpec spec st = (.error err, st) := by
  unfold resolveSchedulePriority
  rw [hsp]
  simp only [hen, if_true, hsrc, if_false]
  split
  · exact ⟨_, rfl⟩
  · split
    · exact ⟨_, rfl⟩
    · exact ⟨_, rfl⟩

theorem BuildResourceBinding_unsupported {σ : Type} (env : Env σ) (object : Unstructured)
    (policySpec : PropagationSpec) (policyID : String) (policyMeta : ObjectMeta)
    (claimFunc : ObjectMeta → String → ObjectMeta → ObjectMeta) (st : σ)
    (sp : PolicySchedulePriority)
    (hen : env.PriorityBasedSchedulingEnabled = true) (hsp : policySpec.schedulePriority = some sp)
    (hsrc : sp.priorityClassSource ≠ KubePriorityClass) :
    ∃ err st1, BuildResourceBinding env object policySpec policyID policyMeta claimFunc st
      = (.error err, st1) := by
  unfold BuildResourceBinding
  simp only
  split
  · exact ⟨_, _, rfl⟩
  · rename_i spec1 st1 _
    obtain ⟨err, herr⟩ := resolveSchedulePriority_unsupported env policySpec spec1 st1 sp hen hsp hsrc
    rw [herr]
    exact ⟨_, _, rfl⟩

theorem BuildResourceBinding_spec {σ : Type} (env : Env σ) (object : Unstructured)
    (policySpec : PropagationSpec) (policyID : String) (policyMeta : ObjectMeta)
    (claimFunc : ObjectMeta → String → ObjectMeta → ObjectMeta) (st st1 : σ)
    (binding : ResourceBinding)
    (h : BuildResourceBinding env object policySpec policyID policyMeta claimFunc st
      = (.ok binding, st1)) :
    binding.spec.resource = templateReference object ∧
    (env.PriorityBasedSchedulingEnabled = false ∨ policySpec.schedulePriority = none →
      binding.spec.schedulePriority = none) := by
  unfold BuildResourceBinding at h
  simp only at h
  split at h
  · simp at h
  · rename_i spec1 st2 hrep
    split at h
    · simp at h
    · rename_i spec2 st3 hprio
      simp only [Prod.mk.injEq, Except.ok.injEq] at h
      rw [← h.1]
      have h1 := interpretReplicas_resource env object _ spec1 st st2 hrep
      constructor
      · simp only
        rw [resolveSchedulePriority_resource env policySpec spec1 spec2 st2 st3 hprio, h1.1]
        cases policySpec.suspension <;> rfl
      · intro hskip
        rw [resolveSchedulePriority_skipped env policySpec spec1 st2 hskip] at hprio
        simp only [Prod.mk.injEq, Except.ok.injEq] at hprio
        simp only
        rw [← hprio.1, h1.2]
        cases policySpec.suspension <;> rfl

theorem BuildClusterResourceBinding_spec {σ : Type} (env : Env σ) (object : Unstructured)
    (policySpec : PropagationSpec) (policyID : String) (policyMeta : ObjectMeta) (st st1 : σ)
    (binding : ClusterResourceBinding)
    (h : BuildClusterResourceBinding env object policySpec policyID policyMeta st
      = (.ok binding, st1)) :
    binding.spec.resource = { templateReference object with «namespace» := "" } ∧
    binding.spec.schedulePriority = none := by
  unfold BuildClusterResourceBinding at h
  simp only at h
  split at h
  · simp at h
  · rename_i spec1 st2 hrep
    simp only [Prod.mk.injEq, Except.ok.injEq] at h
    rw [← h.1]
    have h1 := interpretReplicas_resource env object _ spec1 st st2 hrep
    constructor
    · simp only
      rw [h1.1]
      cases policySpec.suspension <;> rfl
    · simp only
      rw [h1.2]
      cases policySpec.suspension <;> rfl

/-- C17: a binding returned by `BuildResourceBinding` refers to the template by
apiVersion, kind, namespace, name, UID and resource version; so does a binding
returned by `BuildClusterResourceBinding` for a template without a namespace, the
namespace of the reference being empty like the template's; each update mutation
that passes the owner check overwrites `Spec.Resource` of the existing binding with
the desired binding's reference; and `ApplyClusterPolicy` builds a ResourceBinding
for a template with a namespace and a ClusterResourceBinding for a template
without one (detector.go 560, 616), so the binding it creates or updates refers to
the template it was built from in either case. -/
theorem binding_resource_reference :
    (∀ (σ : Type) (env : Env σ) (object : Unstructured) (policySpec : PropagationSpec)
        (policyID : String) (policyMeta : ObjectMeta)
        (claimFunc : ObjectMeta → String → ObjectMeta → ObjectMeta) (st st1 : σ)
        (binding : ResourceBinding),
      BuildResourceBinding env object policySpec policyID policyMeta claimFunc st
        = (.ok binding, st1) →
      binding.spec.resource = templateReference object) ∧
    (∀ (σ : Type) (env : Env σ) (object : Unstructured) (policySpec : PropagationSpec)
        (policyID : String) (policyMeta : ObjectMeta) (st st1 : σ)
        (binding : ClusterResourceBinding),
      object.meta.namespace = "" →
      BuildClusterResourceBinding env object policySpec policyID policyMeta st
        = (.ok binding, st1) →
      binding.spec.resource = templateReference object ∧
      binding.spec.resource.namespace = "") ∧
    (∀ (uid : String) (binding e : ResourceBinding),
      (ApplyPolicy.mutateFn uid binding e).1 = none →
      (ApplyPolicy.mutateFn uid binding e).2.spec.resource = binding.spec.resource) ∧
    (∀ (uid : String) (binding e : ResourceBinding),
      (ApplyClusterPolicy.mutateFnRB uid binding e).1 = none →
      (ApplyClusterPolicy.mutateFnRB uid binding e).2.spec.resource = binding.spec.resource) ∧
    (∀ (uid : String) (binding e : ClusterResourceBinding),
      (ApplyClusterPolicy.mutateFnCRB uid binding e).1 = none →
      (ApplyClusterPolicy.mutateFnCRB uid binding e).2.spec.resource = binding.spec.resource) ∧
    (∀ (σ : Type) (env : Env σ) (object : Unstructured) (flag : Bool)
        (policy : ClusterPropagationPolicy) (w : World σ) (binding : ResourceBinding) (st : σ),
      (ClaimClusterPolicyForObject env object policy w).1.2.2 = none →
      (flag && IsLazyActivationEnabled policy.spec.activationPreference) = false →
      (ClaimClusterPolicyForObject env object policy w).1.1.meta.namespace ≠ "" →
      BuildResourceBinding env (ClaimClusterPolicyForObject env object policy w).1.1 policy.spec
        (ClaimClusterPolicyForObject env object policy w).1.2.1 policy.meta AddCPPClaimMetadata
        (ClaimClusterPolicyForObject env object policy w).2.store = (.ok binding, st) →
      ApplyClusterPolicy env object flag policy w
        = applyResult (RetryOnConflict (applyAttempt env.rbClient
            (ApplyClusterPolicy.mutateFnRB
              (ClaimClusterPolicyForObject env object policy w).1.1.meta.uid binding))
            (binding, OperationResult.None)
            ((ClaimClusterPolicyForObject env object policy w).2.withStore st)) ∧
      binding.spec.resource
        = templateReference (ClaimClusterPolicyForObject env object policy w).1.1) ∧
    (∀ (σ : Type) (env : Env σ) (object : Unstructured) (flag : Bool)
        (policy : ClusterPropagationPolicy) (w : World σ) (binding : ClusterResourceBinding)
        (st : σ),
      (ClaimClusterPolicyForObject env object policy w).1.2.2 = none →
      (flag && IsLazyActivationEnabled policy.spec.activationPreference) = false →
      (ClaimClusterPolicyForObject env object policy w).1.1.meta.namespace = "" →
      BuildClusterResourceBinding env (ClaimClusterPolicyForObject env object policy w).1.1
        policy.spec (ClaimClusterPolicyForObject env object policy w).1.2.1 policy.meta
        (ClaimClusterPolicyForObject env object policy w).2.store = (.ok binding, st) →
      ApplyClusterPolicy env object flag policy w
        = applyResult (RetryOnConflict (applyAttempt env.crbClient
            (ApplyClusterPolicy.mutateFnCRB
              (ClaimClusterPolicyForObject env object policy w).1.1.meta.uid binding))
            (binding, OperationResult.None)
            ((ClaimClusterPolicyForObject env object policy w).2.withStore st)) ∧
      binding.spec.resource
        = templateReference (ClaimClusterPolicyForObject env object policy w).1.1) := by
  refine ⟨?_, ?_, ?_, ?_, ?_, ?_, ?_⟩
  · intro σ env object policySpec policyID policyMeta claimFunc st st1 binding h
    exact (BuildResourceBinding_spec env object policySpec policyID policyMeta claimFunc st st1
      binding h).1
  · intro σ env object policySpec policyID policyMeta st st1 binding hns h
    have h1 := (BuildClusterResourceBinding_spec env object policySpec policyID policyMeta st st1
      binding h).1
    rw [h1]
    refine ⟨?_, rfl⟩
    simp [templateReference, hns]
  · intro uid binding e h
    rw [ApplyPolicy_mutateFn_of_owner_ok uid binding e (filter_none_of_mutateFn_ok uid binding e h)]
    rfl
  · intro uid binding e h
    rw [ApplyClusterPolicy_mutateFnRB_of_owner_ok uid binding e
      (filter_none_of_mutateFnRB_ok uid binding e h)]
    rfl
  · intro uid binding e h
    rw [ApplyClusterPolicy_mutateFnCRB_of_owner_ok uid binding e
      (filter_none_of_mutateFnCRB_ok uid binding e h)]
    rfl
  · intro σ env object flag policy w binding st hclaim hlazy hns hbuild
    exact ⟨ApplyClusterPolicy_of_build_ok_rb env object flag policy w binding st hclaim hlazy hns
        hbuild,
      (BuildResourceBinding_spec env _ policy.spec _ policy.meta AddCPPClaimMetadata _ st binding
        hbuild).1⟩
  · intro σ env object flag policy w binding st hclaim hlazy hns hbuild
    have h1 := (BuildClusterResourceBinding_spec env _ policy.spec _ policy.meta _ st binding
      hbuild).1
    refine ⟨ApplyClusterPolicy_of_build_ok_crb env object flag policy w binding st hclaim hlazy
      hns hbuild, ?_⟩
    rw [h1]
    simp [templateReference, hns]

/-- Witness of C17: the binding built for `web` under `p1`. -/
theorem binding_resource_reference_witness :
    ((BuildResourceBinding quietEnv webTemplate policyP1.spec "pp-1" policyP1.meta
        AddPPClaimMetadata ()).1.toOption.get!).spec.resource = templateReference webTemplate :=
  binding_resource_reference.1 Unit quietEnv webTemplate policyP1.spec "pp-1" policyP1.meta
    AddPPClaimMetadata () () _ rfl

/-- C18, as stated, fails for cluster-scoped bindings: with the feature enabled and
the source PodPriorityClass, `BuildClusterResourceBinding` returns a binding and no
error. -/
theorem cluster_binding_ignores_schedule_priority :
    priorityEnv.PriorityBasedSchedulingEnabled = true ∧
    policyPodPriority.spec.schedulePriority
      = some { priorityClassSource := PodPriorityClass, priorityClassName := "high" } ∧
    PodPriorityClass ≠ KubePriorityClass ∧
    (BuildClusterResourceBinding priorityEnv clusterScopedTemplate policyPodPriority.spec "cpp-1"
        clusterPolicyC1.meta ()).1.toOption.isSome = true := by
  decide

/-- C18, amended: `BuildResourceBinding` returns an error and no binding whenever the
feature is enabled and the declared source is not KubePriorityClass; with the
feature disabled or no schedule priority declared, the schedule-priority step passes
the spec on untouched and the built binding has no schedule priority.
`BuildClusterResourceBinding` looks neither at the feature nor at the declared
schedule priority, and the binding it returns has no schedule priority. -/
theorem schedule_priority_resolution :
    (∀ (σ : Type) (env : Env σ) (object : Unstructured) (policySpec : PropagationSpec)
        (policyID : String) (policyMeta : ObjectMeta)
        (claimFunc : ObjectMeta → String → ObjectMeta → ObjectMeta) (st : σ)
        (sp : PolicySchedulePriority),
      env.PriorityBasedSchedulingEnabled = true → policySpec.schedulePriority = some sp →
      sp.priorityClassSource ≠ KubePriorityClass →
      ∃ err st1, BuildResourceBinding env object policySpec policyID policyMeta claimFunc st
        = (.error err, st1)) ∧
    (∀ (σ : Type) (env : Env σ) (object : Unstructured) (policySpec : PropagationSpec)
        (policyID : String) (policyMeta : ObjectMeta)
        (claimFunc : ObjectMeta → String → ObjectMeta → ObjectMeta) (st : σ),
      env.PriorityBasedSchedulingEnabled = false ∨ policySpec.schedulePriority = none →
      (∀ spec : ResourceBindingSpec, resolveSchedulePriority env policySpec spec st = (.ok spec, st)) ∧
      (∀ (binding : ResourceBinding) (st1 : σ),
        BuildResourceBinding env object policySpec policyID policyMeta claimFunc st
          = (.ok binding, st1) → binding.spec.schedulePriority = none)) ∧
    (∀ (σ : Type) (env : Env σ) (object : Unstructured) (policySpec : PropagationSpec)
        (policyID : String) (policyMeta : ObjectMeta) (st : σ) (enabled : Bool)
        (declared : Option PolicySchedulePriority),
      BuildClusterResourceBinding { env with PriorityBasedSchedulingEnabled := enabled } object
          { policySpec with schedulePriority := declared } policyID policyMeta st
        = BuildClusterResourceBinding env object policySpec policyID policyMeta st ∧
      (∀ (binding : ClusterResourceBinding) (st1 : σ),
        BuildClusterResourceBinding env object policySpec policyID policyMeta st
          = (.ok binding, st1) → binding.spec.schedulePriority = none)) := by
  refine ⟨?_, ?_, ?_⟩
  · intro σ env object policySpec policyID policyMeta claimFunc st sp hen hsp hsrc
    exact BuildResourceBinding_unsupported env object policySpec policyID policyMeta claimFunc st
      sp hen hsp hsrc
  · intro σ env object policySpec policyID policyMeta claimFunc st hskip
    refine ⟨fun spec => resolveSchedulePriority_skipped env policySpec spec st hskip, ?_⟩
    intro binding st1 h
    exact (BuildResourceBinding_spec env object policySpec policyID policyMeta claimFunc st st1
      binding h).2 hskip
  · intro σ env object policySpec policyID policyMeta st enabled declared
    refine ⟨rfl, ?_⟩
    intro binding st1 h
    exact (BuildClusterResourceBinding_spec env object policySpec policyID policyMeta st st1
      binding h).2

/-- Witness of the amended C18: the feature enabled, the source PodPriorityClass. -/
theorem schedule_priority_resolution_witness :
    ∃ err st1, BuildResourceBinding priorityEnv webTemplate policyPodPriority.spec "pp-1"
      policyPodPriority.meta AddPPClaimMetadata () = (.error err, st1) :=
  schedule_priority_resolution.1 Unit priorityEnv webTemplate policyPodPriority.spec "pp-1"
    policyPodPriority.meta AddPPClaimMetadata ()
    { priorityClassSource := PodPriorityClass, priorityClassName := "high" } rfl rfl (by decide)


/-! ### The merge of labels, annotations and finalizers -/

theorem StringMap.lookup_none_of_not_mem (m : StringMap) (k : String)
    (h : k ∉ m.map Prod.fst) : m.lookup k = none := by
  induction m with
  | nil => rfl
  | cons kv rest ih =>
    obtain ⟨k0, v0⟩ := kv
    simp only [List.map, List.mem_cons, not_or] at h
    have h2 : (k == k0) = false := by simp [h.1]
    simp only [List.lookup, h2]
    exact ih h.2

theorem StringMap.lookup_foldl_set (d m : StringMap) (k : String)
    (hd : (d.map Prod.fst).Nodup) :
    (d.foldl (fun m kv => StringMap.set m kv.1 kv.2) m).lookup k = mergedLookup m d k := by
  induction d generalizing m with
  | nil => rfl
  | cons kv rest ih =>
    obtain ⟨k0, v0⟩ := kv
    simp only [List.map, List.nodup_cons] at hd
    simp only [List.foldl]
    rw [ih _ hd.2]
    unfold mergedLookup
    by_cases hk : k = k0
    · subst hk
      rw [StringMap.lookup_none_of_not_mem rest k hd.1]
      simp [List.lookup, StringMap.lookup_set_self]
    · have h2 : (k == k0) = false := by simp [hk]
      simp only [List.lookup, h2]
      rw [StringMap.lookup_set_ne _ _ _ _ hk]

theorem DedupeAndMergeLabels_lookup (existLabel newLabel : StringMap) (k : String)
    (hd : (newLabel.map Prod.fst).Nodup) :
    (DedupeAndMergeLabels existLabel newLabel).lookup k = mergedLookup existLabel newLabel k := by
  unfold DedupeAndMergeLabels
  split
  · rename_i hm
    have : existLabel = [] := by simpa using hm
    subst this
    unfold mergedLookup
    cases newLabel.lookup k <;> rfl
  · exact StringMap.lookup_foldl_set newLabel existLabel k hd

theorem DedupeAndMergeAnnotations_lookup (existing desired : StringMap) (k : String)
    (hd : (desired.map Prod.fst).Nodup) :
    (DedupeAndMergeAnnotations existing desired).lookup k = mergedLookup existing desired k :=
  DedupeAndMergeLabels_lookup existing desired k hd

theorem DedupeAndMergeFinalizers_mem (existFinalizers newFinalizers : List String) (f : String) :
    f ∈ DedupeAndMergeFinalizers existFinalizers newFinalizers
      ↔ f ∈ existFinalizers ∨ f ∈ newFinalizers := by
  simp [DedupeAndMergeFinalizers]

theorem DedupeAndMergeFinalizers_nodup (existFinalizers newFinalizers : List String) :
    (DedupeAndMergeFinalizers existFinalizers newFinalizers).Nodup := by
  simp [DedupeAndMergeFinalizers, List.nodup_dedup]

/-- The merge that the mutations of `ApplyClusterPolicy` leave in the metadata. -/
theorem ApplyClusterPolicy_mutatedMeta_merge (desired m : ObjectMeta)
    (hl : (desired.labels.map Prod.fst).Nodup) (ha : (desired.annotations.map Prod.fst).Nodup) :
    (∀ k, (ApplyClusterPolicy.mutatedMeta desired m).labels.lookup k
      = mergedLookup m.labels desired.labels k) ∧
    (∀ k, (ApplyClusterPolicy.mutatedMeta desired m).annotations.lookup k
      = mergedLookup m.annotations desired.annotations k) ∧
    (ApplyClusterPolicy.mutatedMeta desired m).finalizers.Nodup ∧
    (∀ f, f ∈ (ApplyClusterPolicy.mutatedMeta desired m).finalizers
      ↔ f ∈ m.finalizers ∨ f ∈ desired.finalizers) :=
  ⟨fun k => DedupeAndMergeLabels_lookup _ _ k hl,
   fun k => DedupeAndMergeAnnotations_lookup _ _ k ha,
   DedupeAndMergeFinalizers_nodup _ _,
   fun f => DedupeAndMergeFinalizers_mem _ _ f⟩

/-- The mutation of `ApplyPolicy` is `ApplyPolicy.mutateFnWith` at the assumed body
of `excludeClusterPolicy`. -/
theorem ApplyPolicy_mutateFn_eq_with (uid : String) (binding bindingCopy : ResourceBinding) :
    ApplyPolicy.mutateFn uid binding bindingCopy
      = ApplyPolicy.mutateFnWith excludeClusterPolicy uid binding bindingCopy := rfl

/-- Whatever the body of `excludeClusterPolicy`: a mutation of `ApplyPolicy` that
passes the owner check hands the merged metadata to it and keeps what it leaves. -/
theorem ApplyPolicy_mutateFnWith_meta (exclude : ObjectMeta → Bool × ObjectMeta) (uid : String)
    (binding e : ResourceBinding) (h : (ApplyPolicy.mutateFnWith exclude uid binding e).1 = none) :
    (ApplyPolicy.mutateFnWith exclude uid binding e).2.meta
      = (exclude (ApplyClusterPolicy.mutatedMeta binding.meta e.meta)).2 := by
  unfold ApplyPolicy.mutateFnWith at h ⊢
  cases hf : (GetControllerOfNoCopy e.meta).filter (fun ownerRef => ownerRef.uid != uid) with
  | some r => rw [hf] at h; simp at h
  | none => rfl

/-- C19: after an update mutation that passes the owner check, every finalizer of
either binding is present once, and every label and annotation key holds the
desired value when the desired binding has the key and the existing value
otherwise: for the two mutations of `ApplyClusterPolicy` as they stand, and for the
mutation of `ApplyPolicy`, which hands the merged metadata to `excludeClusterPolicy`
as its last step (detector.go 501), whatever the body of that helper, as long as it
leaves the merged metadata as it is.  The desired maps are Go maps: no key occurs
twice. -/
theorem mutation_merges_metadata :
    (∀ (uid : String) (binding e : ResourceBinding),
      (binding.meta.labels.map Prod.fst).Nodup → (binding.meta.annotations.map Prod.fst).Nodup →
      (ApplyClusterPolicy.mutateFnRB uid binding e).1 = none →
      (∀ k, (ApplyClusterPolicy.mutateFnRB uid binding e).2.meta.labels.lookup k
        = mergedLookup e.meta.labels binding.meta.labels k) ∧
      (∀ k, (ApplyClusterPolicy.mutateFnRB uid binding e).2.meta.annotations.lookup k
        = mergedLookup e.meta.annotations binding.meta.annotations k) ∧
      (ApplyClusterPolicy.mutateFnRB uid binding e).2.meta.finalizers.Nodup ∧
      (∀ f, f ∈ (ApplyClusterPolicy.mutateFnRB uid binding e).2.meta.finalizers
        ↔ f ∈ e.meta.finalizers ∨ f ∈ binding.meta.finalizers)) ∧
    (∀ (uid : String) (binding e : ClusterResourceBinding),
      (binding.meta.labels.map Prod.fst).Nodup → (binding.meta.annotations.map Prod.fst).Nodup →
      (ApplyClusterPolicy.mutateFnCRB uid binding e).1 = none →
      (∀ k, (ApplyClusterPolicy.mutateFnCRB uid binding e).2.meta.labels.lookup k
        = mergedLookup e.meta.labels binding.meta.labels k) ∧
      (∀ k, (ApplyClusterPolicy.mutateFnCRB uid binding e).2.meta.annotations.lookup k
        = mergedLookup e.meta.annotations binding.meta.annotations k) ∧
      (ApplyClusterPolicy.mutateFnCRB uid binding e).2.meta.finalizers.Nodup ∧
      (∀ f, f ∈ (ApplyClusterPolicy.mutateFnCRB uid binding e).2.meta.finalizers
        ↔ f ∈ e.meta.finalizers ∨ f ∈ binding.meta.finalizers)) ∧
    (∀ (exclude : ObjectMeta → Bool × ObjectMeta) (uid : String) (binding e : ResourceBinding),
      (binding.meta.labels.map Prod.fst).Nodup → (binding.meta.annotations.map Prod.fst).Nodup →
      (ApplyPolicy.mutateFnWith exclude uid binding e).1 = none →
      (exclude (ApplyClusterPolicy.mutatedMeta binding.meta e.meta)).2
        = ApplyClusterPolicy.mutatedMeta binding.meta e.meta →
      (∀ k, (ApplyPolicy.mutateFnWith exclude uid binding e).2.meta.labels.lookup k
        = mergedLookup e.meta.labels binding.meta.labels k) ∧
      (∀ k, (ApplyPolicy.mutateFnWith exclude uid binding e).2.meta.annotations.lookup k
        = mergedLookup e.meta.annotations binding.meta.annotations k) ∧
      (ApplyPolicy.mutateFnWith exclude uid binding e).2.meta.finalizers.Nodup ∧
      (∀ f, f ∈ (ApplyPolicy.mutateFnWith exclude uid binding e).2.meta.finalizers
        ↔ f ∈ e.meta.finalizers ∨ f ∈ binding.meta.finalizers)) := by
  refine ⟨?_, ?_, ?_⟩
  · intro uid binding e hl ha hok
    rw [ApplyClusterPolicy_mutateFnRB_of_owner_ok uid binding e
      (filter_none_of_mutateFnRB_ok uid binding e hok)]
    exact ApplyClusterPolicy_mutatedMeta_merge binding.meta e.meta hl ha
  · intro uid binding e hl ha hok
    rw [ApplyClusterPolicy_mutateFnCRB_of_owner_ok uid binding e
      (filter_none_of_mutateFnCRB_ok uid binding e hok)]
    exact ApplyClusterPolicy_mutatedMeta_merge binding.meta e.meta hl ha
  · intro exclude uid binding e hl ha hok hsame
    rw [ApplyPolicy_mutateFnWith_meta exclude uid binding e hok, hsame]
    exact ApplyClusterPolicy_mutatedMeta_merge binding.meta e.meta hl ha

/-- Witness of C19: the desired binding of `web` under `p1` merged into an existing
binding that carries a label of its own, the helper changing nothing. -/
theorem mutation_merges_metadata_witness :
    (ApplyPolicy.mutateFnWith excludeNothing "uid-web" desiredWebBinding
        clusterClaimedWebBinding).2.meta.labels.lookup "team"
      = mergedLookup clusterClaimedWebBinding.meta.labels desiredWebBinding.meta.labels "team" :=
  (mutation_merges_metadata.2.2 excludeNothing "uid-web" desiredWebBinding
    clusterClaimedWebBinding (by decide) (by decide) rfl rfl).1 "team"

/-! ### Template cleanup before binding cleanup -/

theorem RetryOnConflictLoop_log {σ α : Type} (P : Event → Prop)
    (fn : α → World σ → Outcome × α × World σ)
    (hfn : ∀ a w, ∃ l, (fn a w).2.2.log = w.log ++ l ∧ ∀ ev ∈ l, P ev) :
    ∀ (steps : Nat) (lastErr : Option Err) (a : α) (w : World σ),
      ∃ l, (RetryOnConflictLoop fn steps lastErr a w).2.2.log = w.log ++ l ∧ ∀ ev ∈ l, P ev := by
  intro steps
  induction steps with
  | zero =>
    intro lastErr a w
    exact ⟨[], by simp [RetryOnConflictLoop], by simp⟩
  | succ n ih =>
    intro lastErr a w
    obtain ⟨l, hl, hP⟩ := hfn a w
    unfold RetryOnConflictLoop
    rcases hr : fn a w with ⟨o, a1, w1⟩
    rw [hr] at hl
    simp only at hl
    cases o with
    | panicked reason => exact ⟨l, hl, hP⟩
    | returned e =>
      cases e with
      | none => exact ⟨l, hl, hP⟩
      | some err =>
        simp only
        split
        · obtain ⟨l2, hl2, hP2⟩ := ih (some err) a1 w1
          refine ⟨l ++ l2, ?_, ?_⟩
          · rw [hl2, hl, List.append_assoc]
          · intro ev hev
            rcases List.mem_append.1 hev with h | h
            · exact hP ev h
            · exact hP2 ev h
        · exact ⟨l, hl, hP⟩

theorem RetryOnConflictLoop_no_panic {σ α : Type}
    (fn : α → World σ → Outcome × α × World σ)
    (hfn : ∀ a w, (fn a w).1.isPanic = false) :
    ∀ (steps : Nat) (lastErr : Option Err) (a : α) (w : World σ),
      (RetryOnConflictLoop fn steps lastErr a w).1.isPanic = false := by
  intro steps
  induction steps with
  | zero => intro lastErr a w; rfl
  | succ n ih =>
    intro lastErr a w
    have h := hfn a w
    unfold RetryOnConflictLoop
    rcases hr : fn a w with ⟨o, a1, w1⟩
    rw [hr] at h
    cases o with
    | panicked reason => simp [Outcome.isPanic] at h
    | returned e =>
      cases e with
      | none => rfl
      | some err =>
        simp only
        split
        · exact ih (some err) a1 w1
        · rfl

theorem CleanupResourceTemplateClaimMetadata_attempt_log {σ : Type} (env : Env σ)
    (gvr : GroupVersionResource) (objRef : ObjectReference) (target : StringMap)
    (cleanupFunc : ObjectMeta → ObjectMeta) (u : Unit) (w : World σ) :
    ∃ l, (CleanupResourceTemplateClaimMetadata.attempt env gvr objRef target cleanupFunc u w).2.2.log
        = w.log ++ l ∧ ∀ ev ∈ l, ev.isDynamicUpdate = true := by
  unfold CleanupResourceTemplateClaimMetadata.attempt
  split
  · split
    · exact ⟨[], by simp [World.withStore], by simp⟩
    · exact ⟨[], by simp [World.withStore], by simp⟩
  · simp only
    split
    · exact ⟨[], by simp [World.withStore], by simp⟩
    · split
      · exact ⟨[_], rfl, by intro ev hev; simp only [List.mem_singleton] at hev; subst hev; rfl⟩
      · exact ⟨[_], rfl, by intro ev hev; simp only [List.mem_singleton] at hev; subst hev; rfl⟩

theorem CleanupResourceTemplateClaimMetadata_attempt_no_panic {σ : Type} (env : Env σ)
    (gvr : GroupVersionResource) (objRef : ObjectReference) (target : StringMap)
    (cleanupFunc : ObjectMeta → ObjectMeta) (u : Unit) (w : World σ) :
    (CleanupResourceTemplateClaimMetadata.attempt env gvr objRef target cleanupFunc u w).1.isPanic
      = false := by
  unfold CleanupResourceTemplateClaimMetadata.attempt
  split
  · split <;> rfl
  · simp only
    split
    · rfl
    · split <;> rfl

/-- The template cleanup writes nothing but updates of resource templates. -/
theorem CleanupResourceTemplateClaimMetadata_log {σ : Type} (env : Env σ)
    (objRef : ObjectReference) (target : StringMap) (cleanupFunc : ObjectMeta → ObjectMeta)
    (w : World σ) :
    ∃ l, (CleanupResourceTemplateClaimMetadata env objRef target cleanupFunc w).2.log = w.log ++ l ∧
      ∀ ev ∈ l, ev.isDynamicUpdate = true := by
  unfold CleanupResourceTemplateClaimMetadata
  split
  · exact ⟨[], by simp [World.withStore], by simp⟩
  · rename_i gvr st _
    have h := RetryOnConflictLoop_log (fun ev => ev.isDynamicUpdate = true)
      (CleanupResourceTemplateClaimMetadata.attempt env gvr objRef target cleanupFunc)
      (CleanupResourceTemplateClaimMetadata_attempt_log env gvr objRef target cleanupFunc)
      DefaultRetrySteps none () (w.withStore st)
    exact h

/-- The template cleanup does not panic. -/
theorem CleanupResourceTemplateClaimMetadata_no_panic {σ : Type} (env : Env σ)
    (objRef : ObjectReference) (target : StringMap) (cleanupFunc : ObjectMeta → ObjectMeta)
    (w : World σ) :
    (CleanupResourceTemplateClaimMetadata env objRef target cleanupFunc w).1.isPanic = false := by
  unfold CleanupResourceTemplateClaimMetadata
  split
  · rfl
  · rename_i gvr st _
    exact RetryOnConflictLoop_no_panic
      (CleanupResourceTemplateClaimMetadata.attempt env gvr objRef target cleanupFunc)
      (CleanupResourceTemplateClaimMetadata_attempt_no_panic env gvr objRef target cleanupFunc)
      DefaultRetrySteps none () (w.withStore st)

/-- C20: in both loops of `HandleClusterPropagationPolicyDeletion` the step for a
listed binding starts with the claim-metadata cleanup of its resource template,
which returns (it does not panic) and writes nothing but template updates.  When it
returns an error, the step is over: the loop goes on with the remaining bindings
from the world the template cleanup left, so no update of the binding was issued
(the ClusterResourceBinding loop leaves the error list as it was, the
ResourceBinding loop appends the error).  When it returns nil, the binding's own
cleanup runs next, from the world the template cleanup left. -/
theorem template_cleanup_gates_binding_cleanup :
    (∀ (σ : Type) (env : Env σ) (labelSet : StringMap) (binding : ClusterResourceBinding)
        (rest : List ClusterResourceBinding) (errs : List (Option Err)) (w w1 : World σ) (err : Err),
      CleanupResourceTemplateClaimMetadata env binding.spec.resource labelSet
          CleanupCPPClaimMetadata w = (Outcome.returned (some err), w1) →
      HandleClusterPropagationPolicyDeletion.crbs env labelSet (binding :: rest) errs w
        = HandleClusterPropagationPolicyDeletion.crbs env labelSet rest errs w1 ∧
      ∃ l, w1.log = w.log ++ l ∧ ∀ ev ∈ l, ev.isDynamicUpdate = true) ∧
    (∀ (σ : Type) (env : Env σ) (labelSet : StringMap) (binding : ClusterResourceBinding)
        (rest : List ClusterResourceBinding) (errs : List (Option Err)) (w w1 : World σ),
      CleanupResourceTemplateClaimMetadata env binding.spec.resource labelSet
          CleanupCPPClaimMetadata w = (Outcome.returned none, w1) →
      HandleClusterPropagationPolicyDeletion.crbs env labelSet (binding :: rest) errs w
        = (match CleanupClusterResourceBindingClaimMetadata env binding labelSet w1 with
          | (.panicked reason, w2) => (.error reason, w2)
          | (.returned (some err), w2) =>
            HandleClusterPropagationPolicyDeletion.crbs env labelSet rest (errs ++ [some err]) w2
          | (.returned none, w2) =>
            HandleClusterPropagationPolicyDeletion.crbs env labelSet rest errs w2) ∧
      ∃ l, w1.log = w.log ++ l ∧ ∀ ev ∈ l, ev.isDynamicUpdate = true) ∧
    (∀ (σ : Type) (env : Env σ) (labelSet : StringMap) (binding : ResourceBinding)
        (rest : List ResourceBinding) (errs : List (Option Err)) (w w1 : World σ) (err : Err),
      CleanupResourceTemplateClaimMetadata env binding.spec.resource labelSet
          CleanupCPPClaimMetadata w = (Outcome.returned (some err), w1) →
      HandleClusterPropagationPolicyDeletion.rbs env labelSet (binding :: rest) errs w
        = HandleClusterPropagationPolicyDeletion.rbs env labelSet rest (errs ++ [some err]) w1 ∧
      ∃ l, w1.log = w.log ++ l ∧ ∀ ev ∈ l, ev.isDynamicUpdate = true) ∧
    (∀ (σ : Type) (env : Env σ) (labelSet : StringMap) (binding : ResourceBinding)
        (rest : List ResourceBinding) (errs : List (Option Err)) (w w1 : World σ),
      CleanupResourceTemplateClaimMetadata env binding.spec.resource labelSet
          CleanupCPPClaimMetadata w = (Outcome.returned none, w1) →
      HandleClusterPropagationPolicyDeletion.rbs env labelSet (binding :: rest) errs w
        = (match CleanupResourceBindingClaimMetadata env binding labelSet
              CleanupCPPClaimMetadata w1 with
          | (.panicked reason, w2) => (.error reason, w2)
          | (.returned (some err), w2) =>
            HandleClusterPropagationPolicyDeletion.rbs env labelSet rest (errs ++ [some err]) w2
          | (.returned none, w2) =>
            HandleClusterPropagationPolicyDeletion.rbs env labelSet rest errs w2) ∧
      ∃ l, w1.log = w.log ++ l ∧ ∀ ev ∈ l, ev.isDynamicUpdate = true) ∧
    (∀ (σ : Type) (env : Env σ) (labelSet : StringMap) (objRef : ObjectReference) (w : World σ),
      (CleanupResourceTemplateClaimMetadata env objRef labelSet CleanupCPPClaimMetadata w).1.isPanic
        = false) := by
  refine ⟨?_, ?_, ?_, ?_, ?_⟩
  · intro σ env labelSet binding rest errs w w1 err h
    refine ⟨?_, ?_⟩
    · rw [HandleClusterPropagationPolicyDeletion.crbs, h]
    · have hl := CleanupResourceTemplateClaimMetadata_log env binding.spec.resource labelSet
        CleanupCPPClaimMetadata w
      rw [h] at hl
      exact hl
  · intro σ env labelSet binding rest errs w w1 h
    refine ⟨?_, ?_⟩
    · rw [HandleClusterPropagationPolicyDeletion.crbs, h]
    · have hl := CleanupResourceTemplateClaimMetadata_log env binding.spec.resource labelSet
        CleanupCPPClaimMetadata w
      rw [h] at hl
      exact hl
  · intro σ env labelSet binding rest errs w w1 err h
    refine ⟨?_, ?_⟩
    · rw [HandleClusterPropagationPolicyDeletion.rbs, h]
    · have hl := CleanupResourceTemplateClaimMetadata_log env binding.spec.resource labelSet
        CleanupCPPClaimMetadata w
      rw [h] at hl
      exact hl
  · intro σ env labelSet binding rest errs w w1 h
    refine ⟨?_, ?_⟩
    · rw [HandleClusterPropagationPolicyDeletion.rbs, h]
    · have hl := CleanupResourceTemplateClaimMetadata_log env binding.spec.resource labelSet
        CleanupCPPClaimMetadata w
      rw [h] at hl
      exact hl
  · intro σ env labelSet objRef w
    exact CleanupResourceTemplateClaimMetadata_no_panic env objRef labelSet CleanupCPPClaimMetadata w

/-- Witness of C20: the template of `web` cannot be read; the ResourceBinding loop
records the error and moves on without a write. -/
theorem template_cleanup_gates_binding_cleanup_witness :
    HandleClusterPropagationPolicyDeletion.rbs deletingC1RBEnv claimOfC1 [webBindingOfC1] []
        quietWorld
      = HandleClusterPropagationPolicyDeletion.rbs deletingC1RBEnv claimOfC1 []
          ([] ++ [some (Err.other "server unavailable")]) quietWorld ∧
    ∃ l, quietWorld.log = quietWorld.log ++ l ∧ ∀ ev ∈ l, ev.isDynamicUpdate = true :=
  template_cleanup_gates_binding_cleanup.2.2.1 Unit deletingC1RBEnv claimOfC1 webBindingOfC1 [] []
    quietWorld quietWorld (Err.other "server unavailable") rfl


/-! ### Matching, filtering and the waiting list -/

theorem LookForMatchedPolicy_loop_eq (items policies : List PropagationPolicy) :
    LookForMatchedPolicy.loop items policies
      = policies ++ items.filter (fun p => DeletionTimestampIsZero p.meta) := by
  induction items generalizing policies with
  | nil => simp [LookForMatchedPolicy.loop]
  | cons p rest ih =>
    unfold LookForMatchedPolicy.loop
    by_cases hz : DeletionTimestampIsZero p.meta = true
    · simp [hz, ih]
    · simp [hz, ih]

theorem LookForMatchedClusterPolicy_loop_eq (items policies : List ClusterPropagationPolicy) :
    LookForMatchedClusterPolicy.loop items policies
      = policies ++ items.filter (fun p => DeletionTimestampIsZero p.meta) := by
  induction items generalizing policies with
  | nil => simp [LookForMatchedClusterPolicy.loop]
  | cons p rest ih =>
    unfold LookForMatchedClusterPolicy.loop
    by_cases hz : DeletionTimestampIsZero p.meta = true
    · simp [hz, ih]
    · simp [hz, ih]

/-- C21: for a namespaced key and a non-empty list of policies,
`LookForMatchedPolicy` returns what the highest-priority selection makes of exactly
the listed policies with a zero deletion timestamp, in list order, and so does
`LookForMatchedClusterPolicy` for the listed cluster policies; hence, the selection
returning one of the policies it is handed, the returned policy is a listed one that
is not being deleted. -/
theorem deleting_policies_are_filtered_out :
    (∀ (σ : Type) (m : MatchEnv σ) (object : Unstructured) (objectKey : ClusterWideKey)
        (st st1 : σ) (items : List PropagationPolicy),
      objectKey.namespace.length ≠ 0 → m.ListPP st objectKey.namespace = (.ok items, st1) →
      items ≠ [] →
      LookForMatchedPolicy m object objectKey st
        = (.ok (m.getHighestPriorityPropagationPolicy
            (items.filter (fun p => DeletionTimestampIsZero p.meta)) object objectKey), st1)) ∧
    (∀ (σ : Type) (m : MatchEnv σ) (object : Unstructured) (objectKey : ClusterWideKey)
        (st st1 : σ) (items : List ClusterPropagationPolicy),
      m.ListCPP st = (.ok items, st1) → items ≠ [] →
      LookForMatchedClusterPolicy m object objectKey st
        = (.ok (m.getHighestPriorityClusterPropagationPolicy
            (items.filter (fun p => DeletionTimestampIsZero p.meta)) object objectKey), st1)) ∧
    (∀ (σ : Type) (m : MatchEnv σ) (object : Unstructured) (objectKey : ClusterWideKey)
        (st st1 : σ) (policy : PropagationPolicy),
      (∀ policies p, m.getHighestPriorityPropagationPolicy policies object objectKey = some p →
        p ∈ policies) →
      LookForMatchedPolicy m object objectKey st = (.ok (some policy), st1) →
      DeletionTimestampIsZero policy.meta = true ∧
      ∃ items, m.ListPP st objectKey.namespace = (.ok items, st1) ∧ policy ∈ items) ∧
    (∀ (σ : Type) (m : MatchEnv σ) (object : Unstructured) (objectKey : ClusterWideKey)
        (st st1 : σ) (policy : ClusterPropagationPolicy),
      (∀ policies p, m.getHighestPriorityClusterPropagationPolicy policies object objectKey = some p →
        p ∈ policies) →
      LookForMatchedClusterPolicy m object objectKey st = (.ok (some policy), st1) →
      DeletionTimestampIsZero policy.meta = true ∧
      ∃ items, m.ListCPP st = (.ok items, st1) ∧ policy ∈ items) := by
  refine ⟨?_, ?_, ?_, ?_⟩
  · intro σ m object objectKey st st1 items hns hlist hne
    have hlen : ¬ items.length = 0 := by
      intro h; exact hne (List.length_eq_zero.1 h)
    unfold LookForMatchedPolicy
    rw [if_neg hns, hlist]
    simp only [if_neg hlen, LookForMatchedPolicy_loop_eq, List.nil_append]
  · intro σ m object objectKey st st1 items hlist hne
    have hlen : ¬ items.length = 0 := by
      intro h; exact hne (List.length_eq_zero.1 h)
    unfold LookForMatchedClusterPolicy
    rw [hlist]
    simp only [if_neg hlen, LookForMatchedClusterPolicy_loop_eq, List.nil_append]
  · intro σ m object objectKey st st1 policy hsel hres
    unfold LookForMatchedPolicy at hres
    split at hres
    · simp at hres
    · rcases hl : m.ListPP st objectKey.namespace with ⟨r, st2⟩
      rw [hl] at hres
      cases r with
      | error err => simp at hres
      | ok items =>
        simp only at hres
        split at hres
        · simp at hres
        · simp only [LookForMatchedPolicy_loop_eq, List.nil_append, Prod.mk.injEq,
            Except.ok.injEq] at hres
          have hmem := hsel _ _ hres.1
          rw [List.mem_filter] at hmem
          exact ⟨hmem.2, items, by rw [hres.2], hmem.1⟩
  · intro σ m object objectKey st st1 policy hsel hres
    unfold LookForMatchedClusterPolicy at hres
    rcases hl : m.ListCPP st with ⟨r, st2⟩
    rw [hl] at hres
    cases r with
    | error err => simp at hres
    | ok items =>
      simp only at hres
      split at hres
      · simp at hres
      · simp only [LookForMatchedClusterPolicy_loop_eq, List.nil_append, Prod.mk.injEq,
          Except.ok.injEq] at hres
        have hmem := hsel _ _ hres.1
        rw [List.mem_filter] at hmem
        exact ⟨hmem.2, items, by rw [hres.2], hmem.1⟩

/-- Witness of C21: `dyingP1` is listed first and is being deleted; the selection is
handed `policyP2` alone. -/
theorem deleting_policies_are_filtered_out_witness :
    LookForMatchedPolicy listingEnv webTemplate webKey ()
      = (.ok (listingEnv.getHighestPriorityPropagationPolicy
          ([dyingP1, policyP2].filter (fun p => DeletionTimestampIsZero p.meta)) webTemplate webKey),
        ()) :=
  deleting_policies_are_filtered_out.1 Unit listingEnv webTemplate webKey () () [dyingP1, policyP2]
    (by decide) rfl (by simp)

theorem EventFilter_skipped_eq_false (patterns : List Regexp) (ns : String) :
    EventFilter.skipped patterns ns = false ↔ ∀ r ∈ patterns, r.MatchString ns = false := by
  induction patterns with
  | nil => simp [EventFilter.skipped]
  | cons r rest ih =>
    unfold EventFilter.skipped
    by_cases hr : r.MatchString ns = true
    · simp [hr]
    · simp [hr, ih]

/-- C22: `EventFilter` returns true exactly when the key function yields a
cluster-wide key whose namespace is not reserved and is matched by none of the
skipped-namespace patterns, and which is not the key of the ConfigMap
`extension-apiserver-authentication` in `kube-system`. -/
theorem event_filter_accepts_exactly :
    ∀ (d : FilterEnv) (obj : RuntimeObject),
      EventFilter d obj = true ↔
        ∃ k : ClusterWideKey, d.ClusterWideKeyFunc obj = .ok (QueueKey.clusterWideKey k) ∧
          d.IsReservedNamespace k.namespace = false ∧
          (∀ r ∈ d.SkippedPropagatingNamespaces, r.MatchString k.namespace = false) ∧
          ¬ (k.namespace = "kube-system" ∧ k.kind = "ConfigMap" ∧
              k.name = "extension-apiserver-authentication") := by
  intro d obj
  unfold EventFilter
  rcases hk : d.ClusterWideKeyFunc obj with err | key
  · simp
  · cases key with
    | clusterWideKey k =>
      simp only [Except.ok.injEq, QueueKey.clusterWideKey.injEq, exists_eq_left']
      by_cases hres : d.IsReservedNamespace k.namespace = true
      · simp [hres]
      · by_cases hskip : EventFilter.skipped d.SkippedPropagatingNamespaces k.namespace = true
        · have : ¬ ∀ r ∈ d.SkippedPropagatingNamespaces, r.MatchString k.namespace = false := by
            rw [← EventFilter_skipped_eq_false]; simp [hskip]
          simp [hres, hskip, this]
        · have hall : ∀ r ∈ d.SkippedPropagatingNamespaces, r.MatchString k.namespace = false := by
            rw [← EventFilter_skipped_eq_false]; simpa using hskip
          simp only [Bool.not_eq_true] at hres hskip
          simp only [hres, hskip, Bool.false_eq_true, if_false, true_and]
          have hiff : (k.namespace == "kube-system" && k.kind == "ConfigMap" &&
              k.name == "extension-apiserver-authentication") = true ↔
              (k.namespace = "kube-system" ∧ k.kind = "ConfigMap" ∧
                k.name = "extension-apiserver-authentication") := by
            simp [and_assoc]
          by_cases hcm : (k.namespace == "kube-system" && k.kind == "ConfigMap" &&
              k.name == "extension-apiserver-authentication") = true
          · rw [if_pos hcm]
            constructor
            · intro h; exact absurd h (by decide)
            · intro h; exact absurd (hiff.1 hcm) h.2
          · rw [if_neg hcm]
            constructor
            · intro _; exact ⟨hall, fun h => hcm (hiff.2 h)⟩
            · intro _; rfl
    | clusterWideKeyWithConfig k => simp
    | namespacedKey k => simp
    | foreign tag => simp


/-- C23: the waiting list is a set of keys.  After `AddWaiting` the key is waiting,
after `RemoveWaiting` it is not, the membership of every other key is untouched by
either, adding a waiting key or removing a key that is not waiting leaves the world
as it was, and neither touches the store or the log. -/
theorem waiting_list_is_a_set :
    (∀ (σ : Type) (w : World σ) (k : ClusterWideKey), isWaiting (AddWaiting k w) k = true) ∧
    (∀ (σ : Type) (w : World σ) (k : ClusterWideKey), isWaiting (RemoveWaiting k w) k = false) ∧
    (∀ (σ : Type) (w : World σ) (k other : ClusterWideKey), other ≠ k →
      isWaiting (AddWaiting k w) other = isWaiting w other ∧
      isWaiting (RemoveWaiting k w) other = isWaiting w other) ∧
    (∀ (σ : Type) (w : World σ) (k : ClusterWideKey), isWaiting w k = true → AddWaiting k w = w) ∧
    (∀ (σ : Type) (w : World σ) (k : ClusterWideKey), isWaiting w k = false →
      RemoveWaiting k w = w) ∧
    (∀ (σ : Type) (w : World σ) (k : ClusterWideKey),
      (AddWaiting k w).store = w.store ∧ (AddWaiting k w).log = w.log ∧
      (RemoveWaiting k w).store = w.store ∧ (RemoveWaiting k w).log = w.log) := by
  refine ⟨?_, ?_, ?_, ?_, ?_, ?_⟩
  · intro σ w k
    simp [isWaiting, AddWaiting]
  · intro σ w k
    simp [isWaiting, RemoveWaiting]
  · intro σ w k other hne
    constructor
    · simp [isWaiting, AddWaiting, hne]
    · simp [isWaiting, RemoveWaiting, hne]
  · intro σ w k hk
    have hmem : k ∈ w.waitingObjects := by simpa [isWaiting] using hk
    cases w
    simp only [AddWaiting, World.mk.injEq, true_and, and_true]
    exact Finset.insert_eq_of_mem hmem
  · intro σ w k hk
    have hmem : k ∉ w.waitingObjects := by simpa [isWaiting] using hk
    cases w
    simp only [RemoveWaiting, World.mk.injEq, true_and, and_true]
    exact Finset.erase_eq_of_not_mem hmem
  · intro σ w k
    exact ⟨rfl, rfl, rfl, rfl⟩

/-- Witness of C23: adding `webKey` to a waiting list that holds it changes nothing. -/
theorem waiting_list_is_a_set_witness : AddWaiting webKey waitingWorld = waitingWorld :=
  waiting_list_is_a_set.2.2.2.1 Unit waitingWorld webKey (by decide)

/-- The loop of `GetMatching` over a store that reads leave alone: the keys that
can be fetched and match are appended in range order. -/
theorem GetMatching_loop_eq {σ : Type} (env : Env σ) (h : HandlerEnv σ)
    (resourceSelectors : List ResourceSelector)
    (hread : ∀ k st, (GetUnstructuredObject env k st).2 = st)
    (keys matchedResult : List ClusterWideKey) (st : σ) :
    GetMatching.loop env h resourceSelectors keys matchedResult st
      = (matchedResult ++ keys.filter (fun k =>
          match (GetUnstructuredObject env k st).1 with
          | .ok waitObj => resourceSelectors.any (fun rs => h.ResourceMatches waitObj rs)
          | .error _ => false), st) := by
  induction keys generalizing matchedResult with
  | nil => simp [GetMatching.loop]
  | cons k rest ih =>
    unfold GetMatching.loop
    have hst := hread k st
    rcases hg : GetUnstructuredObject env k st with ⟨r, st1⟩
    rw [hg] at hst
    simp only at hst
    subst hst
    cases r with
    | error err => simp [ih, hg]
    | ok waitObj =>
      simp only
      by_cases hm : resourceSelectors.any (fun rs => h.ResourceMatches waitObj rs) = true
      · rw [if_pos hm, ih]
        simp [List.filter_cons, hg, hm]
      · rw [if_neg hm, ih]
        simp [List.filter_cons, hg, hm]

/-- The loop of `GetMatching` returns the store state only. -/
theorem GetMatching_world {σ : Type} (env : Env σ) (h : HandlerEnv σ)
    (resourceSelectors : List ResourceSelector) (w : World σ) :
    (GetMatching env h resourceSelectors w).2.waitingObjects = w.waitingObjects ∧
    (GetMatching env h resourceSelectors w).2.log = w.log := by
  unfold GetMatching
  exact ⟨rfl, rfl⟩

theorem GetMatching_loop_no_selector {σ : Type} (env : Env σ) (h : HandlerEnv σ)
    (keys matchedResult : List ClusterWideKey) (st : σ) :
    (GetMatching.loop env h [] keys matchedResult st).1 = matchedResult := by
  induction keys generalizing matchedResult st with
  | nil => rfl
  | cons k rest ih =>
    unfold GetMatching.loop
    rcases GetUnstructuredObject env k st with ⟨r, st1⟩
    cases r with
    | error err => exact ih matchedResult st1
    | ok waitObj => simpa using ih matchedResult st1

/-- C24: `GetMatching` leaves the waiting list (and the log) as it was and returns
no key for an empty selector list.  When the range over the waiting list visits every
waiting key once, as a Go range over a map does, and reading a template leaves the
store as it was, the result holds no key twice, and a key is in it exactly when it is
waiting, its object can be fetched, and the object matches one of the selectors. -/
theorem get_matching_returns_matching_waiting_keys :
    (∀ (σ : Type) (env : Env σ) (h : HandlerEnv σ) (resourceSelectors : List ResourceSelector)
        (w : World σ),
      (GetMatching env h resourceSelectors w).2.waitingObjects = w.waitingObjects ∧
      (GetMatching env h resourceSelectors w).2.log = w.log) ∧
    (∀ (σ : Type) (env : Env σ) (h : HandlerEnv σ) (w : World σ),
      (GetMatching env h [] w).1 = []) ∧
    (∀ (σ : Type) (env : Env σ) (h : HandlerEnv σ) (resourceSelectors : List ResourceSelector)
        (w : World σ),
      (h.rangeWaitingObjects w.waitingObjects).Nodup →
      (∀ k, k ∈ h.rangeWaitingObjects w.waitingObjects ↔ k ∈ w.waitingObjects) →
      (∀ k st, (GetUnstructuredObject env k st).2 = st) →
      (GetMatching env h resourceSelectors w).1.Nodup ∧
      (GetMatching env h resourceSelectors w).2 = w ∧
      ∀ k, k ∈ (GetMatching env h resourceSelectors w).1 ↔
        k ∈ w.waitingObjects ∧
        ∃ waitObj, (GetUnstructuredObject env k w.store).1 = .ok waitObj ∧
          ∃ rs ∈ resourceSelectors, h.ResourceMatches waitObj rs = true) := by
  refine ⟨?_, ?_, ?_⟩
  · intro σ env h resourceSelectors w
    exact GetMatching_world env h resourceSelectors w
  · intro σ env h w
    unfold GetMatching
    have := GetMatching_loop_no_selector env h (h.rangeWaitingObjects w.waitingObjects) [] w.store
    rcases hl : GetMatching.loop env h [] (h.rangeWaitingObjects w.waitingObjects) [] w.store
      with ⟨r, st⟩
    rw [hl] at this
    exact this
  · intro σ env h resourceSelectors w hnodup hmem hread
    unfold GetMatching
    rw [GetMatching_loop_eq env h resourceSelectors hread]
    simp only [List.nil_append]
    refine ⟨hnodup.filter _, ?_, ?_⟩
    · cases w; rfl
    · intro k
      rw [List.mem_filter, hmem]
      constructor
      · rintro ⟨hk, hm⟩
        refine ⟨hk, ?_⟩
        rcases hg : (GetUnstructuredObject env k w.store).1 with err | waitObj
        · rw [hg] at hm; simp at hm
        · rw [hg] at hm
          simp only [List.any_eq_true] at hm
          exact ⟨waitObj, rfl, hm⟩
      · rintro ⟨hk, waitObj, hg, hm⟩
        refine ⟨hk, ?_⟩
        rw [hg]
        simpa only [List.any_eq_true] using hm

/-- Witness of C24: the waiting list holds `webKey`, whose Deployment is cached. -/
theorem get_matching_returns_matching_waiting_keys_witness :
    (GetMatching cachedWebEnv (quietHandlerEnv [webKey])
        (deploymentPolicy "").spec.resourceSelectors waitingWorld).1.Nodup ∧
    (GetMatching cachedWebEnv (quietHandlerEnv [webKey])
        (deploymentPolicy "").spec.resourceSelectors waitingWorld).2 = waitingWorld ∧
    ∀ k, k ∈ (GetMatching cachedWebEnv (quietHandlerEnv [webKey])
        (deploymentPolicy "").spec.resourceSelectors waitingWorld).1 ↔
      k ∈ waitingWorld.waitingObjects ∧
      ∃ waitObj, (GetUnstructuredObject cachedWebEnv k waitingWorld.store).1 = .ok waitObj ∧
        ∃ rs ∈ (deploymentPolicy "").spec.resourceSelectors,
          (quietHandlerEnv [webKey]).ResourceMatches waitObj rs = true :=
  get_matching_returns_matching_waiting_keys.2.2 Unit cachedWebEnv (quietHandlerEnv [webKey])
    (deploymentPolicy "").spec.resourceSelectors waitingWorld (by decide)
    (by intro k; simp [quietHandlerEnv, waitingWorld]) (fun _ _ => rfl)

/-! ### Dependent overrides -/

theorem requeueDerived_waiting {σ : Type} (h : HandlerEnv σ) (resources : List ObjectReference)
    (w : World σ) :
    (requeueDerived h resources w).2.waitingObjects = w.waitingObjects ∧
    (requeueDerived h resources w).2.store = w.store := by
  induction resources generalizing w with
  | nil => exact ⟨rfl, rfl⟩
  | cons resource rest ih =>
    unfold requeueDerived
    cases h.ConstructClusterWideKey resource with
    | error err => exact ⟨rfl, rfl⟩
    | ok resourceKey => exact ih _

/-- C29: once the handler has found a matching waiting key and the check of the
dependent overrides does not answer that they are present (it fails, or answers
that they are absent), the handler returns the waiting-for-overrides error and the
world is the one `GetMatching` left, with the store as the check left it: the
waiting list is the one the handler had when it listed the derived bindings, the log
ends with the re-queues of the derived bindings, and neither the loop over the
matched keys nor the preemption handling has run. -/
theorem missing_overrides_stop_the_handler :
    (∀ (σ : Type) (env : Env σ) (h : HandlerEnv σ) (policy : PropagationPolicy)
        (w w1 w2 w3 w4 : World σ) (resourceBindings : List ResourceBinding)
        (matchedKeys : List ClusterWideKey),
      h.cleanPPUnmatchedRBs (policy.meta.labels.get PropagationPolicyPermanentIDLabel)
        policy.meta.namespace policy.meta.name policy.spec.resourceSelectors w
        = (Outcome.returned none, w1) →
      h.listPPDerivedRBs (policy.meta.labels.get PropagationPolicyPermanentIDLabel)
        policy.meta.namespace policy.meta.name w1 = (.ok resourceBindings, w2) →
      requeueDerived h (resourceBindings.map (fun rb => rb.spec.resource)) w2 = (none, w3) →
      GetMatching env h policy.spec.resourceSelectors w3 = (matchedKeys, w4) →
      matchedKeys ≠ [] →
      (h.IsDependentOverridesPresent w4.store policy).1 ≠ .ok true →
      HandlePropagationPolicyCreationOrUpdate env h policy w
        = (Outcome.returned (some waitingForOverridesErr),
            w4.withStore (h.IsDependentOverridesPresent w4.store policy).2) ∧
      (HandlePropagationPolicyCreationOrUpdate env h policy w).2.waitingObjects
        = w2.waitingObjects ∧
      (HandlePropagationPolicyCreationOrUpdate env h policy w).2.log = w3.log) ∧
    (∀ (σ : Type) (env : Env σ) (h : HandlerEnv σ) (policy : ClusterPropagationPolicy)
        (w w1 w2 w3 w4 w5 w6 w7 : World σ) (resourceBindings : List ResourceBinding)
        (clusterResourceBindings : List ClusterResourceBinding)
        (matchedKeys : List ClusterWideKey),
      h.cleanCPPUnmatchedRBs (policy.meta.labels.get ClusterPropagationPolicyPermanentIDLabel)
        policy.meta.name policy.spec.resourceSelectors w = (Outcome.returned none, w1) →
      h.cleanUnmatchedCRBs (policy.meta.labels.get ClusterPropagationPolicyPermanentIDLabel)
        policy.meta.name policy.spec.resourceSelectors w1 = (Outcome.returned none, w2) →
      h.listCPPDerivedRBs (policy.meta.labels.get ClusterPropagationPolicyPermanentIDLabel)
        policy.meta.name w2 = (.ok resourceBindings, w3) →
      h.listCPPDerivedCRBs (policy.meta.labels.get ClusterPropagationPolicyPermanentIDLabel)
        policy.meta.name w3 = (.ok clusterResourceBindings, w4) →
      requeueDerived h (resourceBindings.map (fun rb => rb.spec.resource)) w4 = (none, w5) →
      requeueDerived h (clusterResourceBindings.map (fun crb => crb.spec.resource)) w5
        = (none, w6) →
      GetMatching env h policy.spec.resourceSelectors w6 = (matchedKeys, w7) →
      matchedKeys ≠ [] →
      (h.IsDependentClusterOverridesPresent w7.store policy).1 ≠ .ok true →
      HandleClusterPropagationPolicyCreationOrUpdate env h policy w
        = (Outcome.returned (some waitingForOverridesErr),
            w7.withStore (h.IsDependentClusterOverridesPresent w7.store policy).2) ∧
      (HandleClusterPropagationPolicyCreationOrUpdate env h policy w).2.waitingObjects
        = w4.waitingObjects ∧
      (HandleClusterPropagationPolicyCreationOrUpdate env h policy w).2.log = w6.log) := by
  refine ⟨?_, ?_⟩
  · intro σ env h policy w w1 w2 w3 w4 resourceBindings matchedKeys hclean hlist hderived
      hmatch hne hdep
    have hlen : matchedKeys.length > 0 := List.length_pos.2 hne
    have heq : HandlePropagationPolicyCreationOrUpdate env h policy w
        = (Outcome.returned (some waitingForOverridesErr),
            w4.withStore (h.IsDependentOverridesPresent w4.store policy).2) := by
      unfold HandlePropagationPolicyCreationOrUpdate
      simp only [hclean, hlist, hderived, hmatch, if_pos hlen]
      rcases hd : h.IsDependentOverridesPresent w4.store policy with ⟨r, st⟩
      rw [hd] at hdep
      rcases r with err | present
      · rfl
      · cases present
        · rfl
        · exact absurd rfl hdep
    have hw4 := GetMatching_world env h policy.spec.resourceSelectors w3
    rw [hmatch] at hw4
    have hw3 := requeueDerived_waiting h (resourceBindings.map (fun rb => rb.spec.resource)) w2
    rw [hderived] at hw3
    refine ⟨heq, ?_, ?_⟩
    · rw [heq]
      show w4.waitingObjects = w2.waitingObjects
      rw [hw4.1]; exact hw3.1
    · rw [heq]
      exact hw4.2
  · intro σ env h policy w w1 w2 w3 w4 w5 w6 w7 resourceBindings clusterResourceBindings
      matchedKeys hclean hcleanc hlist hlistc hderived hderivedc hmatch hne hdep
    have hlen : matchedKeys.length > 0 := List.length_pos.2 hne
    have heq : HandleClusterPropagationPolicyCreationOrUpdate env h policy w
        = (Outcome.returned (some waitingForOverridesErr),
            w7.withStore (h.IsDependentClusterOverridesPresent w7.store policy).2) := by
      unfold HandleClusterPropagationPolicyCreationOrUpdate
      simp only [hclean, hcleanc, hlist, hlistc, hderived, hderivedc, hmatch, if_pos hlen]
      rcases hd : h.IsDependentClusterOverridesPresent w7.store policy with ⟨r, st⟩
      rw [hd] at hdep
      rcases r with err | present
      · rfl
      · cases present
        · rfl
        · exact absurd rfl hdep
    have hw7 := GetMatching_world env h policy.spec.resourceSelectors w6
    rw [hmatch] at hw7
    have hw6 := requeueDerived_waiting h
      (clusterResourceBindings.map (fun crb => crb.spec.resource)) w5
    rw [hderivedc] at hw6
    have hw5 := requeueDerived_waiting h (resourceBindings.map (fun rb => rb.spec.resource)) w4
    rw [hderived] at hw5
    refine ⟨heq, ?_, ?_⟩
    · rw [heq]
      show w7.waitingObjects = w4.waitingObjects
      rw [hw7.1, hw6.1]; exact hw5.1
    · rw [heq]
      exact hw7.2

/-- Witness of C29: `web` is waiting and matches the new policy, whose dependent
overrides are absent. -/
theorem missing_overrides_stop_the_handler_witness :
    HandlePropagationPolicyCreationOrUpdate cachedWebEnv (overridesAbsentEnv [webKey])
        (deploymentPolicy "") waitingWorld
      = (Outcome.returned (some waitingForOverridesErr),
          waitingWorld.withStore ((overridesAbsentEnv [webKey]).IsDependentOverridesPresent
            waitingWorld.store (deploymentPolicy "")).2) ∧
    (HandlePropagationPolicyCreationOrUpdate cachedWebEnv (overridesAbsentEnv [webKey])
        (deploymentPolicy "") waitingWorld).2.waitingObjects = waitingWorld.waitingObjects ∧
    (HandlePropagationPolicyCreationOrUpdate cachedWebEnv (overridesAbsentEnv [webKey])
        (deploymentPolicy "") waitingWorld).2.log = waitingWorld.log :=
  missing_overrides_stop_the_handler.1 Unit cachedWebEnv (overridesAbsentEnv [webKey])
    (deploymentPolicy "") waitingWorld waitingWorld waitingWorld waitingWorld waitingWorld []
    [webKey] rfl rfl rfl rfl (by decide) (fun h => Bool.noConfusion (Except.ok.inj h))


/-! ### The caller's template and the index entries -/

/-- C27, as stated, fails for `ClaimClusterPolicyForObject`: it writes the claim
into the object it is given, whether the store accepts the update or rejects it;
after the call the labels and annotations of the given object are not those passed
in. -/
theorem claim_modifies_the_given_object :
    webTemplate.meta.labels = [] ∧ webTemplate.meta.annotations = [] ∧
    (ClaimClusterPolicyForObject quietEnv webTemplate clusterPolicyC1 quietWorld).1.2.2.isNone
      = true ∧
    (ClaimClusterPolicyForObject quietEnv webTemplate clusterPolicyC1 quietWorld).1.1.meta.labels
      = [(ClusterPropagationPolicyPermanentIDLabel, "cpp-1")] ∧
    (ClaimClusterPolicyForObject quietEnv webTemplate clusterPolicyC1
        quietWorld).1.1.meta.annotations = [( ClusterPropagationPolicyAnnotation, "c1")] ∧
    (ClaimClusterPolicyForObject rejectingEnv webTemplate clusterPolicyC1
        quietWorld).1.2.2.isSome = true ∧
    (ClaimClusterPolicyForObject rejectingEnv webTemplate clusterPolicyC1
        quietWorld).1.1.meta.labels = [(ClusterPropagationPolicyPermanentIDLabel, "cpp-1")] ∧
    (ClaimClusterPolicyForObject rejectingEnv webTemplate clusterPolicyC1
        quietWorld).1.1.meta.annotations = [( ClusterPropagationPolicyAnnotation, "c1")] := by
  decide

/-- C27, amended: `ClaimClusterPolicyForObject` leaves the object it is given as it
is, and issues no write, when the object already carries the policy's ID under the
cluster-policy permanent-ID label.  Otherwise it adds the claim metadata to the
given object itself and sends that object to the store in one update: the object
sent carries the policy's ID under the permanent-ID label and the policy's name
under the cluster-policy annotation, and the caller's object after the call is the
server's answer when the update succeeded and the object sent when it failed. -/
theorem cluster_claim_is_written_into_the_given_object :
    (∀ (σ : Type) (env : Env σ) (object : Unstructured) (policy : ClusterPropagationPolicy)
        (w : World σ),
      GetLabelValue object.meta.labels ClusterPropagationPolicyPermanentIDLabel
        = policy.meta.labels.get ClusterPropagationPolicyPermanentIDLabel →
      ClaimClusterPolicyForObject env object policy w
        = ((object, policy.meta.labels.get ClusterPropagationPolicyPermanentIDLabel, none), w)) ∧
    (∀ (σ : Type) (env : Env σ) (object : Unstructured) (policy : ClusterPropagationPolicy)
        (w : World σ),
      GetLabelValue object.meta.labels ClusterPropagationPolicyPermanentIDLabel
        ≠ policy.meta.labels.get ClusterPropagationPolicyPermanentIDLabel →
      (ClaimClusterPolicyForObject env object policy w).2.log
        = w.log ++ [Event.UpdateTemplate (ClaimClusterPolicyForObject.sent object policy)] ∧
      (ClaimClusterPolicyForObject.sent object policy).meta
        = AddCPPClaimMetadata object.meta
            (policy.meta.labels.get ClusterPropagationPolicyPermanentIDLabel) policy.meta ∧
      (ClaimClusterPolicyForObject.sent object policy).meta.labels.get
          ClusterPropagationPolicyPermanentIDLabel
        = policy.meta.labels.get ClusterPropagationPolicyPermanentIDLabel ∧
      (ClaimClusterPolicyForObject.sent object policy).meta.annotations.get
          ClusterPropagationPolicyAnnotation = policy.meta.name ∧
      (∀ served st,
        env.UpdateTemplate w.store (ClaimClusterPolicyForObject.sent object policy)
          = (.ok served, st) →
        (ClaimClusterPolicyForObject env object policy w).1
          = (served, policy.meta.labels.get ClusterPropagationPolicyPermanentIDLabel, none)) ∧
      (∀ err st,
        env.UpdateTemplate w.store (ClaimClusterPolicyForObject.sent object policy)
          = (.error err, st) →
        (ClaimClusterPolicyForObject env object policy w).1
          = (ClaimClusterPolicyForObject.sent object policy,
              policy.meta.labels.get ClusterPropagationPolicyPermanentIDLabel, some err))) := by
  refine ⟨?_, ?_⟩
  · intro σ env object policy w h
    simp [ClaimClusterPolicyForObject, h]
  · intro σ env object policy w h
    refine ⟨?_, rfl, ClaimClusterPolicyForObject_sent_label object policy, ?_, ?_, ?_⟩
    · unfold ClaimClusterPolicyForObject
      simp only [if_neg h]
      split <;> rfl
    · simp [ClaimClusterPolicyForObject.sent, AddCPPClaimMetadata, StringMap.get_set_self]
    · intro served st hupd
      have hupd1 : env.UpdateTemplate
          (w.emit (Event.UpdateTemplate (ClaimClusterPolicyForObject.sent object policy))).store
          (ClaimClusterPolicyForObject.sent object policy) = (.ok served, st) := hupd
      unfold ClaimClusterPolicyForObject
      simp only [if_neg h]
      unfold ClaimClusterPolicyForObject.sent at hupd1
      rw [hupd1]
    · intro err st hupd
      have hupd1 : env.UpdateTemplate
          (w.emit (Event.UpdateTemplate (ClaimClusterPolicyForObject.sent object policy))).store
          (ClaimClusterPolicyForObject.sent object policy) = (.error err, st) := hupd
      unfold ClaimClusterPolicyForObject
      simp only [if_neg h]
      unfold ClaimClusterPolicyForObject.sent at hupd1
      rw [hupd1]
      rfl

/-- Witness of the amended C27: the unclaimed `web` claimed for `c1`. -/
theorem cluster_claim_is_written_into_the_given_object_witness :
    (ClaimClusterPolicyForObject quietEnv webTemplate clusterPolicyC1 quietWorld).2.log
      = quietWorld.log ++ [Event.UpdateTemplate
          (ClaimClusterPolicyForObject.sent webTemplate clusterPolicyC1)] :=
  (cluster_claim_is_written_into_the_given_object.2 Unit quietEnv webTemplate clusterPolicyC1
    quietWorld (by decide)).1

/-- C28 on the code: the index lists an entry that is not an unstructured object.
`cleanRT` does not return: building the error for that entry dereferences the nil
`rt`, and `HandlePropagationPolicyDeletion` goes down with it, before the cleanup of
the entry that follows is tried.  This holds whatever entries follow the foreign one. -/
theorem cleanRT_panics_on_foreign_entry :
    (cleanRT foreignEntryEnv "pp-1" deploymentsGVR CleanupPPClaimMetadata quietWorld).1.isPanic
      = true ∧
    (cleanRT foreignEntryEnv "pp-1" deploymentsGVR CleanupPPClaimMetadata quietWorld).2.log = [] ∧
    (HandlePropagationPolicyDeletion foreignEntryEnv "pp-1"
        [{ apiVersion := "apps/v1", kind := "Deployment" }] quietWorld).1.isPanic = true ∧
    (∀ (σ : Type) (env : Env σ) (gvr : GroupVersionResource) (claimMetadata : StringMap)
        (cleanupFunc : ObjectMeta → ObjectMeta) (tag : String) (objs : List RuntimeObject)
        (errs : List (Option Err)) (w : World σ),
      cleanRT.loop env gvr claimMetadata cleanupFunc (RuntimeObject.foreign tag :: objs) errs w
        = (.error "nil pointer dereference", w)) := by
  refine ⟨by decide, by decide, by decide, ?_⟩
  intro σ env gvr claimMetadata cleanupFunc tag objs errs w
  rfl


/-! ### The quota scheduling controller -/

theorem NewAggregate_filter_isSome (errs : List (Option Err)) :
    NewAggregate (errs.filter Option.isSome) = NewAggregate errs := by
  have h : (errs.filter Option.isSome).filterMap id = errs.filterMap id := by
    induction errs with
    | nil => rfl
    | cons e rest ih =>
      cases e with
      | none => simpa [List.filter_cons] using ih
      | some err => simp [List.filter_cons, ih]
  unfold NewAggregate
  rw [h]

/-- The loop of the quota controller, as an update of each flagged binding in turn. -/
theorem quota_loop_eq {σ : Type} (c : FederatedResourceQuotaSchedulingController σ)
    (items : List ResourceBinding) (errs : List (Option Err)) (w : World σ) :
    FederatedResourceQuotaSchedulingController.Reconcile.loop c items errs w
      = (errs ++ (updateEach c ((items.filter quotaFlagged).map quotaCleared) w.store).1.filter
            Option.isSome,
          { store := (updateEach c ((items.filter quotaFlagged).map quotaCleared) w.store).2
            waitingObjects := w.waitingObjects
            log := w.log ++ ((items.filter quotaFlagged).map quotaCleared).map Event.UpdateRB }) := by
  induction items generalizing errs w with
  | nil =>
    cases w
    simp [FederatedResourceQuotaSchedulingController.Reconcile.loop, updateEach]
  | cons rb rest ih =>
    unfold FederatedResourceQuotaSchedulingController.Reconcile.loop
    rcases hs : rb.spec.suspension with _ | suspension
    · have hf : quotaFlagged rb = false := by simp [quotaFlagged, hs]
      simp only [List.filter_cons, hf]
      exact ih errs w
    · rcases hq : suspension.schedulingDueToQuota with _ | flag
      · have hf : quotaFlagged rb = false := by simp [quotaFlagged, hs, hq]
        simp only [List.filter_cons, hf, hq]
        exact ih errs w
      · cases flag
        · have hf : quotaFlagged rb = false := by simp [quotaFlagged, hs, hq]
          simp only [List.filter_cons, hf, hq]
          exact ih errs w
        · have hf : quotaFlagged rb = true := by simp [quotaFlagged, hs, hq]
          have hc : ({ rb with spec := { rb.spec with
              suspension := some { suspension with schedulingDueToQuota := none } } } : ResourceBinding)
              = quotaCleared rb := by
            simp [quotaCleared, hs]
          simp only [List.filter_cons, hf, if_true, List.map_cons, updateEach, hq, hc]
          have hst : (w.emit (Event.UpdateRB (quotaCleared rb))).store = w.store := rfl
          rw [hst]
          rcases hu : c.ClientUpdate w.store (quotaCleared rb) with ⟨e, st⟩
          cases e with
          | none =>
            simp only
            rw [ih]
            simp [World.emit, World.withStore]
          | some err =>
            simp only
            rw [ih]
            simp [World.emit, World.withStore]

/-- C25: `Reconcile` issues one update for every listed binding whose suspension is
set with `SchedulingDueToQuota` true, in list order, and no update for any other
binding (flag unset or false, or no suspension); the updated binding is the listed
one with the flag reset, the pointer being nil, which the controller's own test
(line 65) reads as not true, and everything else as it was; every flagged binding
is updated whatever the earlier updates returned; the returned error is the
aggregate of the errors of these updates, nil when all succeed; and a failed list is
returned with no update. -/
theorem quota_reconcile_unsets_flags :
    (∀ (σ : Type) (c : FederatedResourceQuotaSchedulingController σ) (req : Request)
        (w : World σ) (items : List ResourceBinding) (st : σ),
      c.ClientList w.store req.namespace = (.ok items, st) →
      (FederatedResourceQuotaSchedulingController.Reconcile c req w).2.log
        = w.log ++ ((items.filter quotaFlagged).map quotaCleared).map Event.UpdateRB ∧
      (FederatedResourceQuotaSchedulingController.Reconcile c req w).1
        = ({}, NewAggregate (updateEach c ((items.filter quotaFlagged).map quotaCleared) st).1) ∧
      (FederatedResourceQuotaSchedulingController.Reconcile c req w).2.store
        = (updateEach c ((items.filter quotaFlagged).map quotaCleared) st).2 ∧
      ((∀ rb ∈ items, ∀ st1, (c.ClientUpdate st1 (quotaCleared rb)).1 = none) →
        (FederatedResourceQuotaSchedulingController.Reconcile c req w).1.2 = none)) ∧
    (∀ (rb : ResourceBinding), quotaFlagged rb = true →
      quotaFlagged (quotaCleared rb) = false ∧
      (quotaCleared rb).spec.suspension.bind (fun s => s.schedulingDueToQuota) = none ∧
      (quotaCleared rb).meta = rb.meta ∧
      { (quotaCleared rb).spec with suspension := rb.spec.suspension } = rb.spec ∧
      (quotaCleared rb).spec.suspension.map (fun s => (s.suspension, s.scheduling))
        = rb.spec.suspension.map (fun s => (s.suspension, s.scheduling))) ∧
    (∀ (σ : Type) (c : FederatedResourceQuotaSchedulingController σ) (req : Request)
        (w : World σ) (err : Err) (st : σ),
      c.ClientList w.store req.namespace = (.error err, st) →
      FederatedResourceQuotaSchedulingController.Reconcile c req w
        = (({}, some err), w.withStore st)) := by
  refine ⟨?_, ?_, ?_⟩
  · intro σ c req w items st hlist
    have heq : FederatedResourceQuotaSchedulingController.Reconcile c req w
        = (({}, NewAggregate (updateEach c ((items.filter quotaFlagged).map quotaCleared) st).1),
            { store := (updateEach c ((items.filter quotaFlagged).map quotaCleared) st).2
              waitingObjects := w.waitingObjects
              log := w.log ++ ((items.filter quotaFlagged).map quotaCleared).map Event.UpdateRB }) := by
      unfold FederatedResourceQuotaSchedulingController.Reconcile
      rw [hlist]
      simp only [quota_loop_eq, List.nil_append, NewAggregate_filter_isSome]
      rfl
    refine ⟨by rw [heq], by rw [heq], by rw [heq], ?_⟩
    intro hok
    rw [heq]
    simp only
    have hall : ∀ (l : List ResourceBinding) (st1 : σ), (∀ rb ∈ l, rb ∈ items) →
        NewAggregate (updateEach c (l.map quotaCleared) st1).1 = none := by
      intro l
      induction l with
      | nil => intro st1 _; rfl
      | cons rb rest ih =>
        intro st1 hsub
        have h1 := hok rb (hsub rb (List.mem_cons_self _ _)) st1
        have h2 := ih (c.ClientUpdate st1 (quotaCleared rb)).2
          (fun x hx => hsub x (List.mem_cons_of_mem _ hx))
        simp only [List.map_cons, updateEach, h1]
        unfold NewAggregate at h2 ⊢
        simpa using h2
    exact hall _ st (fun rb hrb => (List.mem_filter.1 hrb).1)
  · intro rb hflag
    refine ⟨?_, ?_⟩
    · unfold quotaFlagged quotaCleared
      rcases hs : rb.spec.suspension with _ | suspension
      · simp [hs]
      · simp
    · unfold quotaFlagged at hflag
      unfold quotaCleared
      rcases hs : rb.spec.suspension with _ | suspension
      · rw [hs] at hflag; simp at hflag
      · simp
        rw [← hs]
  · intro σ c req w err st hlist
    unfold FederatedResourceQuotaSchedulingController.Reconcile
    rw [hlist]

/-- Witness of C25: of the three listed bindings only the blocked one is updated. -/
theorem quota_reconcile_unsets_flags_witness :
    (FederatedResourceQuotaSchedulingController.Reconcile quotaEnv { «namespace» := "default" }
        quietWorld).2.log
      = quietWorld.log ++ (([plainBinding, blockedBinding, unblockedBinding].filter
          quotaFlagged).map quotaCleared).map Event.UpdateRB :=
  (quota_reconcile_unsets_flags.1 Unit quotaEnv { «namespace» := "default" } quietWorld
    [plainBinding, blockedBinding, unblockedBinding] () rfl).1


/-! ### Client certificates on the gRPC servers -/

/-- C26 on the code: with client-certificate authentication asked for
(`ClientCertAuth` true, `InsecureSkipClientVerify` false) construction succeeds and
the server verifies no client: `Config.NewServer` without a certificate file and
`ServerConfig.newServer` without a provider build a server with no transport
credentials at all, and `ServerConfig.newServer` without a client CA file builds a
TLS server that asks no client for a certificate. -/
theorem client_cert_auth_not_enforced :
    (Config.NewServer diskEnv { ClientCertAuth := true, TrustedCAFile := "ca.pem" }).toOption
      = some { creds := none } ∧
    noServingCertConfig.InsecureSkipClientVerify = false ∧
    (ServerConfig.newServer diskEnv noServingCertConfig none).toOption
      = some { creds := none } ∧
    noClientCAConfig.InsecureSkipClientVerify = false ∧
    (ServerConfig.newServer diskEnv noClientCAConfig (some servingProvider)).toOption
      = some { creds := some serverOnlyTLS } ∧
    serverOnlyTLS.clientAuth = ClientAuthType.NoClientCert ∧
    (ServerConfig.newServer diskEnv noClientCAConfig (some servingProvider)).toOption.map
        GrpcServer.verifiesClients = some false := by
  decide

/-- When the servers do verify clients: a server built by `ServerConfig.newServer`
requires and verifies a client certificate exactly when a serving-certificate
provider is given, the client CA file is named and `InsecureSkipClientVerify` is
false; a server built by `Config.NewServer` does so exactly when the certificate
file and the key file are named and `ClientCertAuth` is true.  In both cases the
certificates are verified against the pool parsed from the named CA file, over
TLS 1.3 or later. -/
theorem client_cert_auth_enforced_with_tls :
    (∀ (fs : FileEnv) (s : ServerConfig) (servingCertProvider : Option DynamicCertKeyPairContent)
        (srv : GrpcServer),
      ServerConfig.newServer fs s servingCertProvider = .ok srv →
      (srv.verifiesClients = true ↔
        servingCertProvider.isSome = true ∧ s.ClientAuthCAFile ≠ "" ∧
          s.InsecureSkipClientVerify = false) ∧
      (srv.verifiesClients = true →
        ∃ ca pool config, fs.ReadFile s.ClientAuthCAFile = .ok ca ∧
          fs.AppendCertsFromPEM {} ca = (true, pool) ∧ srv.creds = some config ∧
          config.clientAuth = ClientAuthType.RequireAndVerifyClientCert ∧
          config.clientCAs = some pool ∧ config.minVersion = VersionTLS13)) ∧
    (∀ (fs : FileEnv) (g : Config) (srv : GrpcServer),
      Config.NewServer fs g = .ok srv →
      (srv.verifiesClients = true ↔
        g.CertFile ≠ "" ∧ g.KeyFile ≠ "" ∧ g.ClientCertAuth = true) ∧
      (srv.verifiesClients = true →
        ∃ ca pool config, fs.ReadFile g.TrustedCAFile = .ok ca ∧
          fs.AppendCertsFromPEM {} ca = (true, pool) ∧ srv.creds = some config ∧
          config.clientAuth = ClientAuthType.RequireAndVerifyClientCert ∧
          config.clientCAs = some pool ∧ config.minVersion = VersionTLS13)) := by
  refine ⟨?_, ?_⟩
  · intro fs s servingCertProvider srv hsrv
    unfold ServerConfig.newServer at hsrv
    cases servingCertProvider with
    | none =>
      simp only [Except.ok.injEq] at hsrv
      subst hsrv
      simp [GrpcServer.verifiesClients]
    | some provider =>
      simp only at hsrv
      by_cases hca : s.ClientAuthCAFile = ""
      · simp only [hca, bne_self_eq_false, Bool.false_eq_true, if_false, Except.ok.injEq] at hsrv
        subst hsrv
        simp [GrpcServer.verifiesClients, hca]
      · have hne : (s.ClientAuthCAFile != "") = true := by simpa using hca
        rw [if_pos hne] at hsrv
        rcases hread : fs.ReadFile s.ClientAuthCAFile with err | ca
        · rw [hread] at hsrv; simp at hsrv
        · rw [hread] at hsrv
          simp only at hsrv
          rcases happ : fs.AppendCertsFromPEM {} ca with ⟨ok, pool⟩
          rw [happ] at hsrv
          cases ok with
          | false => simp at hsrv
          | true =>
            simp only [Except.ok.injEq] at hsrv
            subst hsrv
            cases hskip : s.InsecureSkipClientVerify
            · simp [GrpcServer.verifiesClients, hca, happ]
            · simp [GrpcServer.verifiesClients, hca]
  · intro fs g srv hsrv
    unfold Config.NewServer at hsrv
    by_cases hfiles : (g.CertFile == "" || g.KeyFile == "") = true
    · rw [if_pos hfiles] at hsrv
      simp only [Except.ok.injEq] at hsrv
      subst hsrv
      have : g.CertFile = "" ∨ g.KeyFile = "" := by simpa using hfiles
      constructor
      · constructor
        · intro h; simp [GrpcServer.verifiesClients] at h
        · intro h
          rcases this with h1 | h1
          · exact absurd h1 h.1
          · exact absurd h1 h.2.1
      · intro h; simp [GrpcServer.verifiesClients] at h
    · rw [if_neg hfiles] at hsrv
      have hboth : g.CertFile ≠ "" ∧ g.KeyFile ≠ "" := by simpa using hfiles
      rcases hload : fs.LoadX509KeyPair g.CertFile g.KeyFile with err | cert
      · rw [hload] at hsrv; simp at hsrv
      · rw [hload] at hsrv
        simp only at hsrv
        cases hauth : g.ClientCertAuth
        · simp only [hauth, Bool.false_eq_true, if_false, Except.ok.injEq] at hsrv
          subst hsrv
          simp [GrpcServer.verifiesClients]
        · simp only [hauth, if_true] at hsrv
          rcases hread : fs.ReadFile g.TrustedCAFile with err | ca
          · rw [hread] at hsrv; simp at hsrv
          · rw [hread] at hsrv
            simp only at hsrv
            rcases happ : fs.AppendCertsFromPEM {} ca with ⟨ok, pool⟩
            rw [happ] at hsrv
            cases ok with
            | false => simp at hsrv
            | true =>
              simp only [Except.ok.injEq] at hsrv
              subst hsrv
              simp [GrpcServer.verifiesClients, hboth.1, hboth.2, happ]

/-- An instance: a provider, a client CA file and verification not skipped. -/
theorem client_cert_auth_enforced_with_tls_witness :
    GrpcServer.verifiesClients { creds := some mutualTLS } = true ↔
      (some servingProvider).isSome = true ∧ mutualTLSServerConfig.ClientAuthCAFile ≠ "" ∧
        mutualTLSServerConfig.InsecureSkipClientVerify = false :=
  (client_cert_auth_enforced_with_tls.1 diskEnv mutualTLSServerConfig (some servingProvider)
    { creds := some mutualTLS } rfl).1


/-! ### Cluster names in the error message -/

theorem VerifyWhetherClustersExist_names_mem (items : List Cluster) (clusterSet : Finset String)
    (x : String) :
    x ∈ VerifyWhetherClustersExist.names items clusterSet
      ↔ x ∈ clusterSet ∨ x ∈ items.map Cluster.name := by
  induction items generalizing clusterSet with
  | nil => simp [VerifyWhetherClustersExist.names]
  | cons c rest ih =>
    unfold VerifyWhetherClustersExist.names
    rw [ih]
    simp only [Finset.mem_insert, List.map_cons, List.mem_cons]
    tauto

theorem VerifyWhetherClustersExist_missing_eq (clusterSet : Finset String)
    (input noneExistClusters : List String) :
    VerifyWhetherClustersExist.missing clusterSet input noneExistClusters
      = noneExistClusters ++ input.filter (fun name => !decide (name ∈ clusterSet)) := by
  induction input generalizing noneExistClusters with
  | nil => simp [VerifyWhetherClustersExist.missing]
  | cons name rest ih =>
    unfold VerifyWhetherClustersExist.missing
    by_cases h : name ∈ clusterSet
    · simp [h, ih]
    · simp [h, ih]

/-- The names collected by the second loop: the input names that no listed cluster
has, in input order and with repetitions. -/
theorem VerifyWhetherClustersExist_missing (input : List String) (clusters : ClusterList) :
    VerifyWhetherClustersExist.missing (VerifyWhetherClustersExist.names clusters.items ∅) input []
      = input.filter (fun name => !decide (name ∈ clusters.items.map Cluster.name)) := by
  rw [VerifyWhetherClustersExist_missing_eq, List.nil_append]
  apply List.filter_congr
  intro name _
  have := VerifyWhetherClustersExist_names_mem clusters.items ∅ name
  simp only [Finset.not_mem_empty, false_or] at this
  simp only [this]

/-- A format without a percent sign is printed as it is. -/
theorem doPrintf_loop_plain (fuel : Nat) (format buf : List Char)
    (h : ∀ c ∈ format, c ≠ '%') : doPrintf.loop (fuel + 1) format buf = buf ++ format := by
  have ht : format.takeWhile (fun c => c != '%') = format := by
    rw [List.takeWhile_eq_self_iff]
    intro c hc
    simpa using h c hc
  have hd : format.dropWhile (fun c => c != '%') = [] := by
    rw [List.dropWhile_eq_nil_iff]
    intro c hc
    simpa using h c hc
  unfold doPrintf.loop
  simp only [ht, hd]

theorem Errorf_plain (format : String) (h : ∀ c ∈ format.data, c ≠ '%') :
    Errorf format = Err.other format := by
  unfold Errorf
  rw [doPrintf_loop_plain _ _ _ h]
  rfl

theorem Join_plain (elems : List String) (h : ∀ s ∈ elems, ∀ c ∈ s.data, c ≠ '%') :
    ∀ c ∈ (Join elems ",").data, c ≠ '%' := by
  induction elems with
  | nil => intro c hc; simp [Join] at hc
  | cons a rest ih =>
    cases rest with
    | nil =>
      intro c hc
      exact h a (List.mem_cons_self _ _) c (by simpa [Join] using hc)
    | cons b rest =>
      intro c hc
      have hrest := ih (fun s hs => h s (List.mem_cons_of_mem _ hs))
      simp only [Join, String.data_append, List.mem_append] at hc
      rcases hc with (hc | hc) | hc
      · exact h a (List.mem_cons_self _ _) c hc
      · have : c = ',' := by simpa using hc
        rw [this]; decide
      · exact hrest c hc

/-- C30 on the code: the missing names are spliced into the format handed to
`fmt.Errorf`, so a missing name with a percent sign is read as a verb: for the
missing name `50%` the message ends in `50%!(NOVERB)`, for `a%b` in `a%!b(MISSING)`,
and for the missing names `a%` and `b` the separating comma is taken as the verb.
The rest of the claim holds: nil is returned exactly when every input name is the
name of a listed cluster, and when no missing name holds a percent sign the message
is `clusters don't exist: ` followed by the missing names in input order, repetitions
kept, joined by commas. -/
theorem missing_cluster_name_is_read_as_format :
    (VerifyWhetherClustersExist ["member1", "50%"] twoMembers).map Err.message
      = some "clusters don't exist: 50%!(NOVERB)" ∧
    (VerifyWhetherClustersExist ["a%b", "member2"] twoMembers).map Err.message
      = some "clusters don't exist: a%!b(MISSING)" ∧
    (VerifyWhetherClustersExist ["a%", "b"] twoMembers).map Err.message
      = some "clusters don't exist: a%!,(MISSING)b" ∧
    (∀ (input : List String) (clusters : ClusterList),
      VerifyWhetherClustersExist input clusters = none
        ↔ ∀ name ∈ input, name ∈ clusters.items.map Cluster.name) ∧
    (∀ (input : List String) (clusters : ClusterList),
      input.filter (fun name => !decide (name ∈ clusters.items.map Cluster.name)) ≠ [] →
      (∀ name ∈ input.filter (fun name => !decide (name ∈ clusters.items.map Cluster.name)),
        ∀ c ∈ name.data, c ≠ '%') →
      VerifyWhetherClustersExist input clusters
        = some (Err.other ("clusters don't exist: " ++
            Join (input.filter (fun name => !decide (name ∈ clusters.items.map Cluster.name)))
              ","))) := by
  refine ⟨by decide, by decide, by decide, ?_, ?_⟩
  · intro input clusters
    unfold VerifyWhetherClustersExist
    simp only [VerifyWhetherClustersExist_missing]
    constructor
    · intro h name hname
      by_contra hnot
      have hmem : name ∈ input.filter
          (fun name => !decide (name ∈ clusters.items.map Cluster.name)) := by
        rw [List.mem_filter]
        exact ⟨hname, by simpa using hnot⟩
      split at h
      · simp at h
      · rename_i hlen
        have : input.filter (fun name => !decide (name ∈ clusters.items.map Cluster.name)) = [] := by
          apply List.length_eq_zero.1
          simpa using hlen
        rw [this] at hmem
        simp at hmem
    · intro h
      have : input.filter (fun name => !decide (name ∈ clusters.items.map Cluster.name)) = [] := by
        rw [List.filter_eq_nil_iff]
        intro name hname
        simpa using h name hname
      rw [this]
      rfl
  · intro input clusters hne hplain
    unfold VerifyWhetherClustersExist
    simp only [VerifyWhetherClustersExist_missing]
    have hlen : (input.filter
        (fun name => !decide (name ∈ clusters.items.map Cluster.name))).length ≠ 0 := by
      intro h
      exact hne (List.length_eq_zero.1 h)
    rw [if_pos hlen, Errorf_plain]
    intro c hc
    simp only [String.data_append, List.mem_append] at hc
    rcases hc with hc | hc
    · revert c
      decide
    · exact Join_plain _ hplain c hc

/-- Witness of C30: two missing names without a percent sign. -/
theorem missing_cluster_name_is_read_as_format_witness :
    VerifyWhetherClustersExist ["member3", "member1", "member4"] twoMembers
      = some (Err.other ("clusters don't exist: " ++
          Join (["member3", "member1", "member4"].filter
            (fun name => !decide (name ∈ twoMembers.items.map Cluster.name))) ",")) :=
  missing_cluster_name_is_read_as_format.2.2.2.2 ["member3", "member1", "member4"] twoMembers
    (by decide) (by decide)


/-! ### The lazy-activation gate and the first create-or-update -/

/-- With the flag set and a lazy policy, `ApplyPolicy` ends after the claim step. -/
theorem ApplyPolicy_lazy_skip {σ : Type} (env : Env σ) (object : Unstructured)
    (policy : PropagationPolicy) (w : World σ)
    (hlazy : IsLazyActivationEnabled policy.spec.activationPreference = true) :
    ApplyPolicy env object true policy w
      = ((Outcome.returned (ClaimPolicyForObject env object policy w).1.2.2, OperationResult.None),
          (ClaimPolicyForObject env object policy w).2) := by
  unfold ApplyPolicy
  generalize ClaimPolicyForObject env object policy w = c
  obtain ⟨⟨o, id, e⟩, w1⟩ := c
  cases e <;> simp [hlazy]

/-- With the flag set and a lazy policy, `ApplyClusterPolicy` ends after the claim step. -/
theorem ApplyClusterPolicy_lazy_skip {σ : Type} (env : Env σ) (object : Unstructured)
    (policy : ClusterPropagationPolicy) (w : World σ)
    (hlazy : IsLazyActivationEnabled policy.spec.activationPreference = true) :
    ApplyClusterPolicy env object true policy w
      = ((Outcome.returned (ClaimClusterPolicyForObject env object policy w).1.2.2,
            OperationResult.None),
          (ClaimClusterPolicyForObject env object policy w).2) := by
  unfold ApplyClusterPolicy
  generalize ClaimClusterPolicyForObject env object policy w = c
  obtain ⟨⟨o, id, e⟩, w1⟩ := c
  cases e <;> simp [hlazy]

/-- Under a policy that is not lazy the flag makes no difference to `ApplyPolicy`. -/
theorem ApplyPolicy_flag_irrelevant {σ : Type} (env : Env σ) (object : Unstructured)
    (policy : PropagationPolicy) (w : World σ)
    (hlazy : IsLazyActivationEnabled policy.spec.activationPreference = false) :
    ApplyPolicy env object true policy w = ApplyPolicy env object false policy w := by
  unfold ApplyPolicy
  simp [hlazy]

/-- Under a policy that is not lazy the flag makes no difference to `ApplyClusterPolicy`. -/
theorem ApplyClusterPolicy_flag_irrelevant {σ : Type} (env : Env σ) (object : Unstructured)
    (policy : ClusterPropagationPolicy) (w : World σ)
    (hlazy : IsLazyActivationEnabled policy.spec.activationPreference = false) :
    ApplyClusterPolicy env object true policy w = ApplyClusterPolicy env object false policy w := by
  unfold ApplyClusterPolicy
  simp [hlazy]

/-- A create-or-update only appends to the log. -/
theorem CreateOrUpdate_log {σ β : Type} [DecidableEq β] (c : ObjectClient σ β)
    (f : β → Option Err × β) (obj : β) (w : World σ) :
    ∃ l, (CreateOrUpdate c f obj w).2.2.log = w.log ++ l := by
  unfold CreateOrUpdate
  simp only
  split
  · split
    · exact ⟨[], by simp [World.withStore]⟩
    · split
      · exact ⟨[], by simp [World.withStore]⟩
      · split
        · exact ⟨[_], rfl⟩
        · exact ⟨[_], rfl⟩
  · split
    · exact ⟨[], by simp [World.withStore]⟩
    · split
      · exact ⟨[], by simp [World.withStore]⟩
      · split
        · exact ⟨[_], rfl⟩
        · exact ⟨[_], rfl⟩

/-- The first run of a retried body is made, and what it wrote stays in the log. -/
theorem RetryOnConflict_after_first {σ α : Type} (fn : α → World σ → Outcome × α × World σ)
    (hfn : ∀ a w, ∃ l, (fn a w).2.2.log = w.log ++ l) (a : α) (w : World σ) :
    ∃ l, (RetryOnConflict fn a w).2.2.log = (fn a w).2.2.log ++ l := by
  unfold RetryOnConflict DefaultRetrySteps RetryOnConflictLoop
  rcases hr : fn a w with ⟨o, a1, w1⟩
  cases o with
  | panicked reason => exact ⟨[], by simp⟩
  | returned e =>
    cases e with
    | none => exact ⟨[], by simp⟩
    | some err =>
      simp only
      split
      · obtain ⟨l, hl, _⟩ := RetryOnConflictLoop_log (fun _ => True) fn
          (fun a w => by
            obtain ⟨l, hl⟩ := hfn a w
            exact ⟨l, hl, fun _ _ => trivial⟩) 4 (some err) a1 w1
        exact ⟨l, hl⟩
      · exact ⟨[], by simp⟩

/-- When the object is not in the store and the mutation passes, the create is issued. -/
theorem CreateOrUpdate_creates {σ β : Type} [DecidableEq β] (c : ObjectClient σ β)
    (f : β → Option Err × β) (obj m : β) (w : World σ) (st : σ) (err : Err)
    (hget : c.get w.store (c.key obj) = (.error err, st)) (hnf : err.IsNotFound = true)
    (hm : mutate c.key f (c.key obj) obj = (none, m)) :
    (CreateOrUpdate c f obj w).2.2.log = w.log ++ [c.created m] := by
  unfold CreateOrUpdate
  simp only [hget, hnf, hm]
  simp only [Bool.not_true, Bool.false_eq_true, if_false]
  split <;> rfl

/-- When the stored object differs from its mutation, the update is issued. -/
theorem CreateOrUpdate_updates {σ β : Type} [DecidableEq β] (c : ObjectClient σ β)
    (f : β → Option Err × β) (obj stored m : β) (w : World σ) (st : σ)
    (hget : c.get w.store (c.key obj) = (.ok stored, st))
    (hm : mutate c.key f (c.key obj) stored = (none, m)) (hne : stored ≠ m) :
    (CreateOrUpdate c f obj w).2.2.log = w.log ++ [c.updated m] := by
  unfold CreateOrUpdate
  simp only [hget, hm, if_neg hne]
  split <;> rfl

theorem applyAttempt_log {σ β : Type} [DecidableEq β] (c : ObjectClient σ β)
    (f : β → Option Err × β) (captured : β × OperationResult) (w : World σ) :
    (applyAttempt c f captured w).2.2.log = (CreateOrUpdate c f captured.1 w).2.2.log := by
  unfold applyAttempt
  rfl

/-- C12: with the flag set and a lazy policy, `ApplyPolicy` and `ApplyClusterPolicy`
end after the claim step: once that step returned nil the call returns nil with
operation result none and the world the claim step left, so no binding is built,
created or updated.  With the flag not set, whatever the activation preference, once
the claim step returned nil and the binding was built the call is the retried
create-or-update of that binding; and a retried create-or-update does run: its first
run decides the result unless it ends in a conflict, what that run wrote stays in
the log, an absent object whose mutation passes is created and a stored object that
its mutation changes is updated.  A user change under the lazy policy creates the
binding of `web`. -/
theorem lazy_activation_gate :
    (∀ (σ : Type) (env : Env σ) (object : Unstructured) (policy : PropagationPolicy) (w : World σ),
      IsLazyActivationEnabled policy.spec.activationPreference = true →
      (ClaimPolicyForObject env object policy w).1.2.2 = none →
      ApplyPolicy env object true policy w
        = ((Outcome.returned none, OperationResult.None),
            (ClaimPolicyForObject env object policy w).2) ∧
      ((ApplyPolicy env object true policy w).2.log = w.log ∨
        (ApplyPolicy env object true policy w).2.log
          = w.log ++ [Event.UpdateTemplate (ClaimPolicyForObject.sent object policy)])) ∧
    (∀ (σ : Type) (env : Env σ) (object : Unstructured) (policy : ClusterPropagationPolicy)
        (w : World σ),
      IsLazyActivationEnabled policy.spec.activationPreference = true →
      (ClaimClusterPolicyForObject env object policy w).1.2.2 = none →
      ApplyClusterPolicy env object true policy w
        = ((Outcome.returned none, OperationResult.None),
            (ClaimClusterPolicyForObject env object policy w).2) ∧
      ((ApplyClusterPolicy env object true policy w).2.log = w.log ∨
        (ApplyClusterPolicy env object true policy w).2.log
          = w.log ++ [Event.UpdateTemplate (ClaimClusterPolicyForObject.sent object policy)])) ∧
    (∀ (σ : Type) (env : Env σ) (object : Unstructured) (policy : PropagationPolicy) (w : World σ)
        (binding : ResourceBinding) (st : σ),
      (ClaimPolicyForObject env object policy w).1.2.2 = none →
      BuildResourceBinding env (ClaimPolicyForObject env object policy w).1.1 policy.spec
        (ClaimPolicyForObject env object policy w).1.2.1 policy.meta AddPPClaimMetadata
        (ClaimPolicyForObject env object policy w).2.store = (.ok binding, st) →
      ApplyPolicy env object false policy w
        = applyResult (RetryOnConflict (applyAttempt env.rbClient
              (ApplyPolicy.mutateFn (ClaimPolicyForObject env object policy w).1.1.meta.uid binding))
              (binding, OperationResult.None)
              ((ClaimPolicyForObject env object policy w).2.withStore st))) ∧
    (∀ (σ : Type) (env : Env σ) (object : Unstructured) (policy : ClusterPropagationPolicy)
        (w : World σ) (binding : ResourceBinding) (st : σ),
      (ClaimClusterPolicyForObject env object policy w).1.2.2 = none →
      (ClaimClusterPolicyForObject env object policy w).1.1.meta.namespace ≠ "" →
      BuildResourceBinding env (ClaimClusterPolicyForObject env object policy w).1.1 policy.spec
        (ClaimClusterPolicyForObject env object policy w).1.2.1 policy.meta AddCPPClaimMetadata
        (ClaimClusterPolicyForObject env object policy w).2.store = (.ok binding, st) →
      ApplyClusterPolicy env object false policy w
        = applyResult (RetryOnConflict (applyAttempt env.rbClient
              (ApplyClusterPolicy.mutateFnRB (ClaimClusterPolicyForObject env object policy w).1.1.meta.uid binding))
              (binding, OperationResult.None)
              ((ClaimClusterPolicyForObject env object policy w).2.withStore st))) ∧
    (∀ (σ : Type) (env : Env σ) (object : Unstructured) (policy : ClusterPropagationPolicy)
        (w : World σ) (binding : ClusterResourceBinding) (st : σ),
      (ClaimClusterPolicyForObject env object policy w).1.2.2 = none →
      (ClaimClusterPolicyForObject env object policy w).1.1.meta.namespace = "" →
      BuildClusterResourceBinding env (ClaimClusterPolicyForObject env object policy w).1.1
        policy.spec (ClaimClusterPolicyForObject env object policy w).1.2.1 policy.meta
        (ClaimClusterPolicyForObject env object policy w).2.store = (.ok binding, st) →
      ApplyClusterPolicy env object false policy w
        = applyResult (RetryOnConflict (applyAttempt env.crbClient
              (ApplyClusterPolicy.mutateFnCRB (ClaimClusterPolicyForObject env object policy w).1.1.meta.uid binding))
              (binding, OperationResult.None)
              ((ClaimClusterPolicyForObject env object policy w).2.withStore st))) ∧
    (∀ (σ β : Type) [DecidableEq β] (c : ObjectClient σ β) (f : β → Option Err × β) (obj : β)
        (w : World σ),
      (∃ l, (applyResult (RetryOnConflict (applyAttempt c f) (obj, OperationResult.None) w)).2.log
        = (CreateOrUpdate c f obj w).2.2.log ++ l) ∧
      (∀ operationResult, (CreateOrUpdate c f obj w).1 = (operationResult, none) →
        applyResult (RetryOnConflict (applyAttempt c f) (obj, OperationResult.None) w)
          = ((Outcome.returned none, operationResult), (CreateOrUpdate c f obj w).2.2)) ∧
      (∀ operationResult err, (CreateOrUpdate c f obj w).1 = (operationResult, some err) →
        err.IsConflict = false →
        applyResult (RetryOnConflict (applyAttempt c f) (obj, OperationResult.None) w)
          = ((Outcome.returned (some err), operationResult), (CreateOrUpdate c f obj w).2.2)) ∧
      (∀ (m : β) (st : σ) (err : Err), c.get w.store (c.key obj) = (.error err, st) →
        err.IsNotFound = true → mutate c.key f (c.key obj) obj = (none, m) →
        (CreateOrUpdate c f obj w).2.2.log = w.log ++ [c.created m]) ∧
      (∀ (stored m : β) (st : σ), c.get w.store (c.key obj) = (.ok stored, st) →
        mutate c.key f (c.key obj) stored = (none, m) → stored ≠ m →
        (CreateOrUpdate c f obj w).2.2.log = w.log ++ [c.updated m])) ∧
    ((ApplyPolicy cachedWebEnv webTemplate false (deploymentPolicy "Lazy") quietWorld).1.2
        = OperationResult.Created ∧
      ((ApplyPolicy cachedWebEnv webTemplate false (deploymentPolicy "Lazy") quietWorld).2.log.map
        (fun e => match e with
          | Event.CreateRB _ => true
          | _ => false)) = [false, true] ∧
      (ApplyPolicy cachedWebEnv webTemplate true (deploymentPolicy "Lazy") quietWorld).2.log
        = [Event.UpdateTemplate claimedByP1Template]) := by
  refine ⟨?_, ?_, ?_, ?_, ?_, ?_, ⟨by decide, by decide, by decide⟩⟩
  · intro σ env object policy w hlazy hclaim
    have h := ApplyPolicy_lazy_skip env object policy w hlazy
    rw [hclaim] at h
    refine ⟨h, ?_⟩
    rw [h]
    exact ClaimPolicyForObject_log env object policy w
  · intro σ env object policy w hlazy hclaim
    have h := ApplyClusterPolicy_lazy_skip env object policy w hlazy
    rw [hclaim] at h
    refine ⟨h, ?_⟩
    rw [h]
    exact ClaimClusterPolicyForObject_log env object policy w
  · intro σ env object policy w binding st hclaim hbuild
    exact ApplyPolicy_of_build_ok env object false policy w binding st hclaim rfl hbuild
  · intro σ env object policy w binding st hclaim hns hbuild
    exact ApplyClusterPolicy_of_build_ok_rb env object false policy w binding st hclaim rfl hns
      hbuild
  · intro σ env object policy w binding st hclaim hns hbuild
    exact ApplyClusterPolicy_of_build_ok_crb env object false policy w binding st hclaim rfl hns
      hbuild
  · intro σ β _ c f obj w
    refine ⟨?_, ?_, ?_, ?_, ?_⟩
    · obtain ⟨l, hl⟩ := RetryOnConflict_after_first (applyAttempt c f)
        (fun a w => by
          rw [applyAttempt_log]
          exact CreateOrUpdate_log c f a.1 w) (obj, OperationResult.None) w
      rw [applyAttempt_log] at hl
      exact ⟨l, hl⟩
    · intro operationResult hres
      have hattempt : applyAttempt c f (obj, OperationResult.None) w
          = (Outcome.returned none, ((CreateOrUpdate c f obj w).2.1, operationResult),
              (CreateOrUpdate c f obj w).2.2) := by
        unfold applyAttempt
        rcases hr : CreateOrUpdate c f obj w with ⟨⟨op, e⟩, b, w1⟩
        rw [hr] at hres
        simp only [Prod.mk.injEq] at hres
        simp [hres.1, hres.2]
      rw [RetryOnConflict_first_nil _ _ _ _ _ hattempt]
      rfl
    · intro operationResult err hres hc
      have hattempt : applyAttempt c f (obj, OperationResult.None) w
          = (Outcome.returned (some err), ((CreateOrUpdate c f obj w).2.1, operationResult),
              (CreateOrUpdate c f obj w).2.2) := by
        unfold applyAttempt
        rcases hr : CreateOrUpdate c f obj w with ⟨⟨op, e⟩, b, w1⟩
        rw [hr] at hres
        simp only [Prod.mk.injEq] at hres
        simp [hres.1, hres.2]
      rw [RetryOnConflict_first_error _ _ _ _ _ _ hattempt hc]
      rfl
    · intro m st err hget hnf hm
      exact CreateOrUpdate_creates c f obj m w st err hget hnf hm
    · intro stored m st hget hm hne
      exact CreateOrUpdate_updates c f obj stored m w st hget hm hne

/-- Witness of C12: the unclaimed `web` under the lazy policy `p1`, the change made
by Karmada. -/
theorem lazy_activation_gate_witness :
    ApplyPolicy cachedWebEnv webTemplate true (deploymentPolicy "Lazy") quietWorld
      = ((Outcome.returned none, OperationResult.None),
          (ClaimPolicyForObject cachedWebEnv webTemplate (deploymentPolicy "Lazy") quietWorld).2) ∧
    ((ApplyPolicy cachedWebEnv webTemplate true (deploymentPolicy "Lazy") quietWorld).2.log
        = quietWorld.log ∨
      (ApplyPolicy cachedWebEnv webTemplate true (deploymentPolicy "Lazy") quietWorld).2.log
        = quietWorld.log ++ [Event.UpdateTemplate
            (ClaimPolicyForObject.sent webTemplate (deploymentPolicy "Lazy"))]) :=
  lazy_activation_gate.1 Unit cachedWebEnv webTemplate (deploymentPolicy "Lazy") quietWorld rfl rfl


/-! ### Re-queueing the waiting keys of a created or updated policy -/

/-- The loop over the matched keys removes each of them from the waiting list and
hands each to the template queue, in order, flagged as a change made by Karmada. -/
theorem requeueMatched_spec {σ : Type} (keys : List ClusterWideKey) (w : World σ) :
    (requeueMatched keys w).waitingObjects = w.waitingObjects \ keys.toFinset ∧
    (requeueMatched keys w).log
      = w.log ++ keys.map (fun k => Event.ProcessorAdd
          { clusterWideKey := k, resourceChangeByKarmada := true }) ∧
    (requeueMatched keys w).store = w.store := by
  induction keys generalizing w with
  | nil => simp [requeueMatched]
  | cons k rest ih =>
    unfold requeueMatched
    obtain ⟨h1, h2, h3⟩ := ih ((RemoveWaiting k w).emit
      (Event.ProcessorAdd { clusterWideKey := k, resourceChangeByKarmada := true }))
    refine ⟨?_, ?_, ?_⟩
    · rw [h1]
      ext x
      simp only [RemoveWaiting, World.emit, Finset.mem_sdiff, Finset.mem_erase,
        List.toFinset_cons, Finset.mem_insert, List.mem_toFinset]
      tauto
    · rw [h2]
      simp [RemoveWaiting, World.emit]
    · rw [h3]
      rfl

/-- `Reconcile` hands the flag of the queue key to `propagateResource`. -/
theorem Reconcile_hands_flag {σ : Type} (env : Env σ) (propagateResource : PropagateResource σ)
    (clusterWideKey : ClusterWideKey) (flag : Bool) (w : World σ) (object : Unstructured) (st : σ)
    (hget : GetUnstructuredObject env clusterWideKey w.store = (.ok object, st))
    (hfree : GetLabelValue object.meta.labels ResourceTemplateClaimedByLabel = "") :
    Reconcile env propagateResource
        (QueueKey.clusterWideKeyWithConfig
          { clusterWideKey := clusterWideKey, resourceChangeByKarmada := flag }) w
      = propagateResource object clusterWideKey flag (w.withStore st) := by
  unfold Reconcile
  simp [hget, hfree]

/-- The namespaced handler once the matched keys are known and the dependent
overrides are present. -/
theorem HandlePropagationPolicyCreationOrUpdate_requeue {σ : Type} (env : Env σ)
    (h : HandlerEnv σ) (policy : PropagationPolicy) (w w1 w2 w3 w4 : World σ)
    (resourceBindings : List ResourceBinding) (matchedKeys : List ClusterWideKey) (st : σ)
    (hclean : h.cleanPPUnmatchedRBs (policy.meta.labels.get PropagationPolicyPermanentIDLabel)
      policy.meta.namespace policy.meta.name policy.spec.resourceSelectors w
      = (Outcome.returned none, w1))
    (hlist : h.listPPDerivedRBs (policy.meta.labels.get PropagationPolicyPermanentIDLabel)
      policy.meta.namespace policy.meta.name w1 = (.ok resourceBindings, w2))
    (hderived : requeueDerived h (resourceBindings.map (fun rb => rb.spec.resource)) w2 = (none, w3))
    (hmatch : GetMatching env h policy.spec.resourceSelectors w3 = (matchedKeys, w4))
    (hne : matchedKeys ≠ [])
    (hdep : h.IsDependentOverridesPresent w4.store policy = (.ok true, st)) :
    HandlePropagationPolicyCreationOrUpdate env h policy w
      = if h.preemptionEnabled policy.spec.preemption then
          h.handlePropagationPolicyPreemption policy (requeueMatched matchedKeys (w4.withStore st))
        else (Outcome.returned none, requeueMatched matchedKeys (w4.withStore st)) := by
  have hlen : matchedKeys.length > 0 := List.length_pos.2 hne
  unfold HandlePropagationPolicyCreationOrUpdate
  simp only [hclean, hlist, hderived, hmatch, if_pos hlen, hdep]

/-- The cluster-scoped handler once the matched keys are known and the dependent
overrides are present. -/
theorem HandleClusterPropagationPolicyCreationOrUpdate_requeue {σ : Type} (env : Env σ)
    (h : HandlerEnv σ) (policy : ClusterPropagationPolicy) (w w1 w2 w3 w4 w5 w6 w7 : World σ)
    (resourceBindings : List ResourceBinding)
    (clusterResourceBindings : List ClusterResourceBinding)
    (matchedKeys : List ClusterWideKey) (st : σ)
    (hclean : h.cleanCPPUnmatchedRBs (policy.meta.labels.get ClusterPropagationPolicyPermanentIDLabel)
      policy.meta.name policy.spec.resourceSelectors w = (Outcome.returned none, w1))
    (hcleanc : h.cleanUnmatchedCRBs (policy.meta.labels.get ClusterPropagationPolicyPermanentIDLabel)
      policy.meta.name policy.spec.resourceSelectors w1 = (Outcome.returned none, w2))
    (hlist : h.listCPPDerivedRBs (policy.meta.labels.get ClusterPropagationPolicyPermanentIDLabel)
      policy.meta.name w2 = (.ok resourceBindings, w3))
    (hlistc : h.listCPPDerivedCRBs (policy.meta.labels.get ClusterPropagationPolicyPermanentIDLabel)
      policy.meta.name w3 = (.ok clusterResourceBindings, w4))
    (hderived : requeueDerived h (resourceBindings.map (fun rb => rb.spec.resource)) w4 = (none, w5))
    (hderivedc : requeueDerived h (clusterResourceBindings.map (fun crb => crb.spec.resource)) w5
      = (none, w6))
    (hmatch : GetMatching env h policy.spec.resourceSelectors w6 = (matchedKeys, w7))
    (hne : matchedKeys ≠ [])
    (hdep : h.IsDependentClusterOverridesPresent w7.store policy = (.ok true, st)) :
    HandleClusterPropagationPolicyCreationOrUpdate env h policy w
      = if h.preemptionEnabled policy.spec.preemption then
          h.handleClusterPropagationPolicyPreemption policy
            (requeueMatched matchedKeys (w7.withStore st))
        else (Outcome.returned none, requeueMatched matchedKeys (w7.withStore st)) := by
  have hlen : matchedKeys.length > 0 := List.length_pos.2 hne
  unfold HandleClusterPropagationPolicyCreationOrUpdate
  simp only [hclean, hcleanc, hlist, hlistc, hderived, hderivedc, hmatch, if_pos hlen, hdep]

/-- C11, as stated, fails: `web` is in the waiting list and matches the selector of
a newly created policy whose activation preference is lazy, dependent overrides
present.  The handler removes the key from the waiting list and hands it to the
template queue flagged as a change made by Karmada; `Reconcile` hands that flag, with
the cached template, to `propagateResource`, whatever that does; and with that flag
`ApplyPolicy` and `ApplyClusterPolicy` return nil after writing the claim to the
template: no binding is created. -/
theorem requeued_key_of_lazy_policy_gets_no_binding :
    (HandlePropagationPolicyCreationOrUpdate cachedWebEnv (quietHandlerEnv [webKey])
        (deploymentPolicy "Lazy") waitingWorld).1.isNil = true ∧
    (HandlePropagationPolicyCreationOrUpdate cachedWebEnv (quietHandlerEnv [webKey])
        (deploymentPolicy "Lazy") waitingWorld).2.waitingObjects = ∅ ∧
    (HandlePropagationPolicyCreationOrUpdate cachedWebEnv (quietHandlerEnv [webKey])
        (deploymentPolicy "Lazy") waitingWorld).2.log = [Event.ProcessorAdd ⟨webKey, true⟩] ∧
    (HandleClusterPropagationPolicyCreationOrUpdate cachedWebEnv (quietHandlerEnv [webKey])
        (deploymentClusterPolicy "Lazy") waitingWorld).2.waitingObjects = ∅ ∧
    (HandleClusterPropagationPolicyCreationOrUpdate cachedWebEnv (quietHandlerEnv [webKey])
        (deploymentClusterPolicy "Lazy") waitingWorld).2.log = [Event.ProcessorAdd ⟨webKey, true⟩] ∧
    (∀ propagateResource : PropagateResource Unit,
      Reconcile cachedWebEnv propagateResource (QueueKey.clusterWideKeyWithConfig ⟨webKey, true⟩)
          quietWorld
        = propagateResource webTemplate webKey true quietWorld) ∧
    IsLazyActivationEnabled (deploymentPolicy "Lazy").spec.activationPreference = true ∧
    (ApplyPolicy cachedWebEnv webTemplate true (deploymentPolicy "Lazy") quietWorld).1.1.isNil
      = true ∧
    (ApplyPolicy cachedWebEnv webTemplate true (deploymentPolicy "Lazy") quietWorld).2.log
      = [Event.UpdateTemplate claimedByP1Template] ∧
    (ApplyClusterPolicy cachedWebEnv webTemplate true (deploymentClusterPolicy "Lazy")
        quietWorld).1.1.isNil = true ∧
    (ApplyClusterPolicy cachedWebEnv webTemplate true (deploymentClusterPolicy "Lazy")
        quietWorld).2.log = [Event.UpdateTemplate claimedByC1Template] := by
  refine ⟨by decide, by decide, by decide, by decide, by decide, fun _ => rfl, by decide,
    by decide, by decide, by decide, by decide⟩

/-- C11, amended: once the handler has found the matched waiting keys and the
dependent overrides are present, `HandlePropagationPolicyCreationOrUpdate` and
`HandleClusterPropagationPolicyCreationOrUpdate` run the loop over the matched keys
(and then the preemption handling, when enabled); that loop removes every matched key
from the waiting list and hands each to the template queue, in order, flagged as a
change made by Karmada; `Reconcile` hands the flag of the key to `propagateResource`
with the fetched template; and with the flag set `ApplyPolicy` and
`ApplyClusterPolicy` end after the claim step when the activation preference is lazy
(the writes are none or the template update of the claim step: no binding is created
or updated) and act as with the flag not set when it is not lazy. -/
theorem waiting_keys_requeued_as_karmada_change :
    (∀ (σ : Type) (env : Env σ) (h : HandlerEnv σ) (policy : PropagationPolicy)
        (w w1 w2 w3 w4 : World σ) (resourceBindings : List ResourceBinding)
        (matchedKeys : List ClusterWideKey) (st : σ),
      h.cleanPPUnmatchedRBs (policy.meta.labels.get PropagationPolicyPermanentIDLabel)
        policy.meta.namespace policy.meta.name policy.spec.resourceSelectors w
        = (Outcome.returned none, w1) →
      h.listPPDerivedRBs (policy.meta.labels.get PropagationPolicyPermanentIDLabel)
        policy.meta.namespace policy.meta.name w1 = (.ok resourceBindings, w2) →
      requeueDerived h (resourceBindings.map (fun rb => rb.spec.resource)) w2 = (none, w3) →
      GetMatching env h policy.spec.resourceSelectors w3 = (matchedKeys, w4) →
      matchedKeys ≠ [] →
      h.IsDependentOverridesPresent w4.store policy = (.ok true, st) →
      HandlePropagationPolicyCreationOrUpdate env h policy w
        = if h.preemptionEnabled policy.spec.preemption then
            h.handlePropagationPolicyPreemption policy
              (requeueMatched matchedKeys (w4.withStore st))
          else (Outcome.returned none, requeueMatched matchedKeys (w4.withStore st))) ∧
    (∀ (σ : Type) (env : Env σ) (h : HandlerEnv σ) (policy : ClusterPropagationPolicy)
        (w w1 w2 w3 w4 w5 w6 w7 : World σ) (resourceBindings : List ResourceBinding)
        (clusterResourceBindings : List ClusterResourceBinding)
        (matchedKeys : List ClusterWideKey) (st : σ),
      h.cleanCPPUnmatchedRBs (policy.meta.labels.get ClusterPropagationPolicyPermanentIDLabel)
        policy.meta.name policy.spec.resourceSelectors w = (Outcome.returned none, w1) →
      h.cleanUnmatchedCRBs (policy.meta.labels.get ClusterPropagationPolicyPermanentIDLabel)
        policy.meta.name policy.spec.resourceSelectors w1 = (Outcome.returned none, w2) →
      h.listCPPDerivedRBs (policy.meta.labels.get ClusterPropagationPolicyPermanentIDLabel)
        policy.meta.name w2 = (.ok resourceBindings, w3) →
      h.listCPPDerivedCRBs (policy.meta.labels.get ClusterPropagationPolicyPermanentIDLabel)
        policy.meta.name w3 = (.ok clusterResourceBindings, w4) →
      requeueDerived h (resourceBindings.map (fun rb => rb.spec.resource)) w4 = (none, w5) →
      requeueDerived h (clusterResourceBindings.map (fun crb => crb.spec.resource)) w5
        = (none, w6) →
      GetMatching env h policy.spec.resourceSelectors w6 = (matchedKeys, w7) →
      matchedKeys ≠ [] →
      h.IsDependentClusterOverridesPresent w7.store policy = (.ok true, st) →
      HandleClusterPropagationPolicyCreationOrUpdate env h policy w
        = if h.preemptionEnabled policy.spec.preemption then
            h.handleClusterPropagationPolicyPreemption policy
              (requeueMatched matchedKeys (w7.withStore st))
          else (Outcome.returned none, requeueMatched matchedKeys (w7.withStore st))) ∧
    (∀ (σ : Type) (keys : List ClusterWideKey) (w : World σ),
      (requeueMatched keys w).waitingObjects = w.waitingObjects \ keys.toFinset ∧
      (requeueMatched keys w).log
        = w.log ++ keys.map (fun k => Event.ProcessorAdd
            { clusterWideKey := k, resourceChangeByKarmada := true }) ∧
      (requeueMatched keys w).store = w.store) ∧
    (∀ (σ : Type) (env : Env σ) (propagateResource : PropagateResource σ)
        (clusterWideKey : ClusterWideKey) (flag : Bool) (w : World σ) (object : Unstructured)
        (st : σ),
      GetUnstructuredObject env clusterWideKey w.store = (.ok object, st) →
      GetLabelValue object.meta.labels ResourceTemplateClaimedByLabel = "" →
      Reconcile env propagateResource
          (QueueKey.clusterWideKeyWithConfig
            { clusterWideKey := clusterWideKey, resourceChangeByKarmada := flag }) w
        = propagateResource object clusterWideKey flag (w.withStore st)) ∧
    (∀ (σ : Type) (env : Env σ) (object : Unstructured) (policy : PropagationPolicy) (w : World σ),
      (IsLazyActivationEnabled policy.spec.activationPreference = true →
        ApplyPolicy env object true policy w
          = ((Outcome.returned (ClaimPolicyForObject env object policy w).1.2.2,
                OperationResult.None),
              (ClaimPolicyForObject env object policy w).2) ∧
        ((ApplyPolicy env object true policy w).2.log = w.log ∨
          (ApplyPolicy env object true policy w).2.log
            = w.log ++ [Event.UpdateTemplate (ClaimPolicyForObject.sent object policy)])) ∧
      (IsLazyActivationEnabled policy.spec.activationPreference = false →
        ApplyPolicy env object true policy w = ApplyPolicy env object false policy w)) ∧
    (∀ (σ : Type) (env : Env σ) (object : Unstructured) (policy : ClusterPropagationPolicy)
        (w : World σ),
      (IsLazyActivationEnabled policy.spec.activationPreference = true →
        ApplyClusterPolicy env object true policy w
          = ((Outcome.returned (ClaimClusterPolicyForObject env object policy w).1.2.2,
                OperationResult.None),
              (ClaimClusterPolicyForObject env object policy w).2) ∧
        ((ApplyClusterPolicy env object true policy w).2.log = w.log ∨
          (ApplyClusterPolicy env object true policy w).2.log
            = w.log ++ [Event.UpdateTemplate (ClaimClusterPolicyForObject.sent object policy)])) ∧
      (IsLazyActivationEnabled policy.spec.activationPreference = false →
        ApplyClusterPolicy env object true policy w
          = ApplyClusterPolicy env object false policy w)) := by
  refine ⟨?_, ?_, ?_, ?_, ?_, ?_⟩
  · intro σ env h policy w w1 w2 w3 w4 resourceBindings matchedKeys st hclean hlist hderived
      hmatch hne hdep
    exact HandlePropagationPolicyCreationOrUpdate_requeue env h policy w w1 w2 w3 w4
      resourceBindings matchedKeys st hclean hlist hderived hmatch hne hdep
  · intro σ env h policy w w1 w2 w3 w4 w5 w6 w7 resourceBindings clusterResourceBindings
      matchedKeys st hclean hcleanc hlist hlistc hderived hderivedc hmatch hne hdep
    exact HandleClusterPropagationPolicyCreationOrUpdate_requeue env h policy w w1 w2 w3 w4 w5
      w6 w7 resourceBindings clusterResourceBindings matchedKeys st hclean hcleanc hlist hlistc
      hderived hderivedc hmatch hne hdep
  · intro σ keys w
    exact requeueMatched_spec keys w
  · intro σ env propagateResource clusterWideKey flag w object st hget hfree
    exact Reconcile_hands_flag env propagateResource clusterWideKey flag w object st hget hfree
  · intro σ env object policy w
    refine ⟨fun hlazy => ?_, fun hlazy => ApplyPolicy_flag_irrelevant env object policy w hlazy⟩
    have h := ApplyPolicy_lazy_skip env object policy w hlazy
    refine ⟨h, ?_⟩
    rw [h]
    exact ClaimPolicyForObject_log env object policy w
  · intro σ env object policy w
    refine ⟨fun hlazy => ?_,
      fun hlazy => ApplyClusterPolicy_flag_irrelevant env object policy w hlazy⟩
    have h := ApplyClusterPolicy_lazy_skip env object policy w hlazy
    refine ⟨h, ?_⟩
    rw [h]
    exact ClaimClusterPolicyForObject_log env object policy w

/-- Witness of the amended C11: `web` is waiting and matches the new lazy policy
`p1`, whose dependent overrides are present. -/
theorem waiting_keys_requeued_as_karmada_change_witness :
    HandlePropagationPolicyCreationOrUpdate cachedWebEnv (quietHandlerEnv [webKey])
        (deploymentPolicy "Lazy") waitingWorld
      = if (quietHandlerEnv [webKey]).preemptionEnabled (deploymentPolicy "Lazy").spec.preemption then
          (quietHandlerEnv [webKey]).handlePropagationPolicyPreemption (deploymentPolicy "Lazy")
            (requeueMatched [webKey] (waitingWorld.withStore ()))
        else (Outcome.returned none, requeueMatched [webKey] (waitingWorld.withStore ())) :=
  waiting_keys_requeued_as_karmada_change.1 Unit cachedWebEnv (quietHandlerEnv [webKey])
    (deploymentPolicy "Lazy") waitingWorld waitingWorld waitingWorld waitingWorld waitingWorld []
    [webKey] () rfl rfl rfl rfl (by decide) rfl

end Karmada
